import Mathlib

/-! doduino: the button / channel engine of `Dimmer.h`

A shallow embedding of the dimmer core (`src/Dimmer.h`): the three global
arrays `l_channels`, `sw_channels`, `buttons`, the delayed queue
`queued_sw_channels`, and the functions that act on them.

Conventions of the embedding

* A pointer into one of the global arrays is the index of the element
  (`SwitchChannel *c` is a `Nat`); the arrays are total maps from indices to
  records, and the loops of the source run over the first `NR_...` indices.
* An array together with its length variable (`queued_sw_channels` with
  `queued_sw_channels_length`, a button's `l_channels` with `nr_l_channels`)
  is a `List`: the list holds the first `length` cells of the array.
* `int` is the 16 bit signed integer of the ATmega (the pin tables of the
  source are commented "MEGA pins"); record fields of type `int` are `Int`
  and the arithmetic that can leave the 16 bit range is wrapped with
  `wrapInt`.  `unsigned long` is a 32 bit unsigned integer, held in a `Nat`;
  its subtraction is `subULong`.
* `now` is the millisecond clock of the sketch (a global `unsigned long`
  declared outside `Dimmer.h`); every function that reads it takes it as an
  argument.  `digitalRead` is an argument as well, the two hardware writes
  `digitalWrite` / `analogWrite` are recorded in the field `hw`.
* The total maps give a record for every index, the source only for the cells of
  its arrays.  `drainDefined` and `buttonsDefined` say where the accesses of the
  source are inside its objects; the checked pass `loopDimmerChecked` and the
  checked run `runChecked` have no result elsewhere.
-/

namespace Doduino

/-! ## Constants (`#define`s of the source) -/

abbrev STEP_TIME : Nat := 20
abbrev PULSE_TIME : Nat := 250
abbrev NR_LIGHT_CHANNELS : Nat := 12
abbrev NR_SWITCH_CHANNELS : Nat := 10
abbrev NR_BUTTONS : Nat := 10
abbrev NR_CHANNELS_PER_BUTTON : Nat := 8
abbrev DIR_UP : Int := 1
abbrev DIR_DOWN : Int := 0
abbrev MAX_LIGHT_VALUE : Int := 255
abbrev HIGH : Int := 1
abbrev LOW : Int := 0

def lightPins : List Int := [2, 3, 4, 5, 6, 7, 8, 9, 10, 11, 12, 13]
def switchPins : List Int := [30, 31, 32, 33, 34, 35, 36, 37, 38, 39]
def buttonPins : List Int := [40, 41, 42, 43, 44, 45, 46, 47, 48, 49]

/-! ## Machine arithmetic -/

/-- Reduction of an integer to the 16 bit two's complement range of `int`. -/
def wrapInt (x : Int) : Int := (x + 32768) % 65536 - 32768

/-- Conversion of an `int` to `unsigned long` (32 bit), as the usual arithmetic
conversions do when an `int` is compared with an `unsigned long`. -/
def toULong (x : Int) : Nat := (x % 4294967296).toNat

/-- Subtraction `a - b` of two `unsigned long` values. -/
def subULong (a b : Nat) : Nat := (a + (4294967296 - b % 4294967296)) % 4294967296

/-- The C operator `!` on an `int`. -/
def lnot (x : Int) : Int := if x = 0 then 1 else 0

/-- The Arduino macro `constrain(amt, low, high)`. -/
def constrain (amt low high : Int) : Int :=
  if amt < low then low else if amt > high then high else amt

/-- Assignment to one cell of an array. -/
def upd {α : Type} (f : Nat → α) (i : Nat) (v : α) : Nat → α :=
  fun k => if k = i then v else f k

/-- Assignment to one cell of a block of memory addressed by a signed offset. -/
def updI {α : Type} (f : Int → α) (i : Int) (v : α) : Int → α :=
  fun k => if k = i then v else f k

/-! ## Data structures -/

structure LightChannel where
  pin : Int
  light_value : Int
  last_light_value : Int
  idle_light_value : Int
  dir : Int
  target_light_value : Int
  speed_factor : Int
  last_value_change : Nat
  last_target_change : Nat
  button : Option Nat
  has_button : Bool
deriving DecidableEq, Repr

inductive SWITCH_TYPE where
  | SWITCH_TYPE_PULSE
  | SWITCH_TYPE_TOGGLE
  | SWITCH_TYPE_DELAYED_START
  | SWITCH_TYPE_DELAYED_STOP
  | SWITCH_TYPE_DELAYED_START_STOP
deriving DecidableEq, Repr

structure SwitchChannel where
  pin : Int
  state : Int
  target_state : Int
  switch_type : SWITCH_TYPE
  last_state_change : Nat
  last_target_change : Nat
  duration : Int
  start_delay : Int
  button : Option Nat
  has_button : Bool
  always_on : Bool
deriving DecidableEq, Repr

/-- A button.  `l_channels` and `sw_channels` hold the first `nr_l_channels`
and `nr_sw_channels` cells of the two pointer arrays of the source. -/
structure Button where
  pin : Int
  prev_state : Int
  last_state : Int
  last_change : Nat
  start_time : Nat
  stop_time : Nat
  l_channels : List Nat
  sw_channels : List Nat
  fading : Bool
deriving DecidableEq, Repr

def Button.nr_l_channels (b : Button) : Nat := b.l_channels.length

def Button.nr_sw_channels (b : Button) : Nat := b.sw_channels.length

/-- A write to an output pin. -/
inductive HwWrite where
  | digitalWrite (pin value : Int)
  | analogWrite (pin value : Int)
deriving DecidableEq, Repr

/-- The global state of `Dimmer.h`. -/
structure State where
  l_channels : Nat → LightChannel
  sw_channels : Nat → SwitchChannel
  buttons : Nat → Button
  queued_sw_channels : List Nat
  hw : List HwWrite

def State.queued_sw_channels_length (s : State) : Nat := s.queued_sw_channels.length

/-! ## Setters and getters -/

def setLightTargetValue (s : State) (channel : Nat) (value speedFactor : Int) : State :=
  let c := s.l_channels channel
  if c.light_value ≠ value then
    let speedFactor := if ¬ (speedFactor ≥ 0 ∧ speedFactor ≤ 10) then 5 else speedFactor
    let c1 : LightChannel :=
      { c with last_light_value := c.target_light_value
               target_light_value := value
               speed_factor := speedFactor }
    { s with l_channels := upd s.l_channels channel c1 }
  else s

def setLightIdleValue (s : State) (channel : Nat) : State :=
  let c := s.l_channels channel
  setLightTargetValue s channel c.idle_light_value 2

def setSwitchTargetState (s : State) (channel : Nat) (state : Int) : State :=
  let c := s.sw_channels channel
  if c.state ≠ state then
    { s with sw_channels := upd s.sw_channels channel { c with target_state := state } }
  else s

def getSwitchTargetState (s : State) (channel : Nat) : Int :=
  (s.sw_channels channel).target_state

def getLightTargetValue (s : State) (channel : Nat) : Int :=
  (s.l_channels channel).target_light_value

def getSpeedFactor (s : State) (channel : Nat) : Int :=
  (s.l_channels channel).speed_factor

/-! ## The delayed queue -/

/-- The search loop of `queueSwitch`: is `c` one of the queued pointers? -/
def alreadyQueued (c : Nat) : List Nat → Bool
  | [] => false
  | q :: rest => if q = c then true else alreadyQueued c rest

def queueSwitch (s : State) (c : Nat) (now : Nat) : State :=
  let already_queued := alreadyQueued c s.queued_sw_channels
  let queue := if ¬ already_queued then s.queued_sw_channels ++ [c] else s.queued_sw_channels
  { s with queued_sw_channels := queue
           sw_channels := upd s.sw_channels c { s.sw_channels c with last_target_change := now } }

/-- The body of the `switch` in the scan loop of `processSwitchQueue` for one
queued channel: the channel afterwards, and whether its index was appended to
`remove`. -/
def scanSwitch (now : Nat) (c : SwitchChannel) : SwitchChannel × Bool :=
  match c.switch_type with
  | .SWITCH_TYPE_DELAYED_STOP =>
    if subULong now c.last_target_change > toULong (wrapInt (c.duration * 1000)) then
      ({ c with target_state := LOW }, true)
    else (c, false)
  | .SWITCH_TYPE_DELAYED_START =>
    if subULong now c.last_target_change > toULong (wrapInt (c.start_delay * 1000)) then
      ({ c with target_state := HIGH }, false)
    else (c, false)
  | .SWITCH_TYPE_DELAYED_START_STOP =>
    if subULong now c.last_target_change
        > toULong (wrapInt (wrapInt (c.duration + c.start_delay) * 1000)) then
      ({ c with target_state := LOW }, true)
    else if subULong now c.last_target_change > toULong (wrapInt (c.start_delay * 1000)) then
      ({ c with target_state := HIGH }, false)
    else (c, false)
  | _ => (c, false)

/-- The scan loop of `processSwitchQueue`, from queue index `i` on: the switch
channels and the list `remove` of queue indices afterwards.  The loop dereferences
every queued pointer `c`; that is the access `sw c` here as long as `c` is the address of
a switch channel (`c < NR_SWITCH_CHANNELS`, see `drainDefined`).  For any other entry the
source has a wild pointer and this definition has no counterpart in it. -/
def scanQueue (now : Nat) :
    List Nat → Nat → (Nat → SwitchChannel) → List Nat → (Nat → SwitchChannel) × List Nat
  | [], _, sw, remove => (sw, remove)
  | c :: rest, i, sw, remove =>
    let r := scanSwitch now (sw c)
    scanQueue now rest (i + 1) (upd sw c r.1) (if r.2 then remove ++ [i] else remove)

/-- The inner loop `while ( remove[i] > j ) { tmp[j - i] = queued_sw_channels[j]; j++; }`
of the compaction, as the `n = remove[i] - j` iterations it makes (none when
`remove[i] <= j`).  A store at an offset outside `0 .. NR_SWITCH_CHANNELS - 1` (the offset
-1 occurs) is a write outside the local array in the source; `drainDefined` excludes
it. -/
def compactWhile (queue : List Nat) (i : Nat) : Nat → Nat → (Int → Nat) → Nat × (Int → Nat)
  | 0, j, tmp => (j, tmp)
  | n + 1, j, tmp =>
    compactWhile queue i n (j + 1) (updI tmp ((j : Int) - (i : Int)) (queue.getD j 0))

/-- The outer loop `for ( i = 0; i < remove_length; i++ )` of the compaction,
from index `i` of `remove` on. -/
def compactFor (queue : List Nat) : List Nat → Nat → Nat → (Int → Nat) → Nat × (Int → Nat)
  | [], _, j, tmp => (j, tmp)
  | r :: rest, i, j, tmp =>
    let p := compactWhile queue i (r - j) j tmp
    compactFor queue rest (i + 1) p.1 p.2

/-- The compaction of `processSwitchQueue`.  `tmp` is the content of the
local array `tmp` (and of the cell before it) when the function is entered:
the array is not initialised by the source. -/
def compactQueue (queue remove : List Nat) (tmp : Int → Nat) : List Nat :=
  if 0 < remove.length then
    let p := compactFor queue remove 0 0 tmp
    (List.range (queue.length - remove.length)).map (fun i => p.2 (i : Int))
  else queue

/-- The function `processSwitchQueue()`.  It is the function of the source on the states
with `drainDefined`; on the others the source dereferences a queued pointer that is no
switch channel or stores outside `tmp`, and has no defined result. -/
def processSwitchQueue (s : State) (now : Nat) (tmp : Int → Nat) : State :=
  let r := scanQueue now s.queued_sw_channels 0 s.sw_channels []
  { s with sw_channels := r.1
           queued_sw_channels := compactQueue s.queued_sw_channels r.2 tmp }

/-! ## The switch state machine -/

def processSwitchUp (s : State) (c : Nat) (now : Nat) : State :=
  let ch := s.sw_channels c
  match ch.switch_type with
  | .SWITCH_TYPE_TOGGLE =>
    { s with sw_channels := upd s.sw_channels c { ch with target_state := lnot ch.target_state } }
  | .SWITCH_TYPE_PULSE =>
    { s with sw_channels := upd s.sw_channels c { ch with target_state := HIGH } }
  | .SWITCH_TYPE_DELAYED_STOP =>
    queueSwitch
      { s with sw_channels := upd s.sw_channels c { ch with target_state := HIGH } } c now
  | .SWITCH_TYPE_DELAYED_START => queueSwitch s c now
  | .SWITCH_TYPE_DELAYED_START_STOP => queueSwitch s c now

def processSwitchDown (s : State) (c : Nat) : State :=
  let ch := s.sw_channels c
  if ch.switch_type = .SWITCH_TYPE_PULSE then
    { s with sw_channels := upd s.sw_channels c { ch with target_state := LOW } }
  else s

def setSwitchState (s : State) (channel : Nat) (state start_delay duration : Int)
    (now : Nat) : State :=
  let c := s.sw_channels channel
  let c1 : SwitchChannel :=
    if 0 ≠ start_delay ∧ 0 ≠ duration then
      { c with switch_type := .SWITCH_TYPE_DELAYED_START_STOP
               start_delay := start_delay
               duration := duration }
    else if 0 ≠ duration then
      { c with switch_type := .SWITCH_TYPE_DELAYED_STOP
               start_delay := 0
               duration := duration }
    else
      { c with switch_type := .SWITCH_TYPE_PULSE
               start_delay := 0
               duration := 0 }
  let s1 : State := { s with sw_channels := upd s.sw_channels channel c1 }
  if state ≠ 0 then processSwitchUp s1 channel now else processSwitchDown s1 channel

/-! ## Applying targets -/

def processSwitchTarget (s : State) (id : Nat) (now : Nat) : State :=
  let c := s.sw_channels id
  if c.state = c.target_state then s
  else
    let c1 : SwitchChannel :=
      { c with state := c.target_state
               last_state_change := now }
    { s with hw := s.hw ++ [HwWrite.digitalWrite c.pin c.target_state]
             sw_channels := upd s.sw_channels id c1 }

def processLightTarget (s : State) (id : Nat) (now : Nat) : State :=
  let c := s.l_channels id
  if c.light_value = c.target_light_value then s
  else
    let v := constrain c.target_light_value 0 MAX_LIGHT_VALUE
    let c1 : LightChannel :=
      { c with light_value := v
               last_value_change := now }
    { s with hw := s.hw ++ [HwWrite.analogWrite c.pin v]
             l_channels := upd s.l_channels id c1 }

/-! ## The gesture detector -/

/-- A loop `for ( i = 0; i < b->nr_l_channels; i++ )` of `handleInput` over the
owned light channels `c = b->l_channels[i]` and the local array `targets`:
`body` is the loop body, from the channel and `targets[i]` before to the
channel and `targets[i]` after. -/
def forLights (body : LightChannel → Int → LightChannel × Int) :
    List Nat → List Int → (Nat → LightChannel) → List Int × (Nat → LightChannel)
  | c :: cs, t :: ts, l =>
    let r := body (l c) t
    let rest := forLights body cs ts (upd l c r.1)
    (r.2 :: rest.1, rest.2)
  | _, ts, l => (ts, l)

/-- Body of the light loop of the rising edge (source lines 527-557). -/
def pressLight (fading pulse : Bool) (c : LightChannel) (t : Int) : LightChannel × Int :=
  if fading then
    ({ c with dir := if pulse then lnot c.dir else DIR_UP }, t)
  else if c.light_value = 0 ∨ c.light_value = MAX_LIGHT_VALUE then
    (c, c.last_light_value)
  else
    ({ c with last_light_value := c.light_value }, 0)

/-- Body of the light loop of the double pulse (source lines 582-590). -/
def doublePulseLight (c : LightChannel) (t : Int) : LightChannel × Int :=
  (c, if t = MAX_LIGHT_VALUE then 0 else MAX_LIGHT_VALUE)

/-- Body of the light loop while fading (source lines 613-637). -/
def fadeLight (now : Nat) (c : LightChannel) (t : Int) : LightChannel × Int :=
  if c.last_target_change < subULong now (2 * STEP_TIME) then
    let t1 := wrapInt (if c.dir ≠ 0 then t + 1 else t - 1)
    if t1 < 0 then ({ c with dir := DIR_UP }, t1)
    else if t1 > MAX_LIGHT_VALUE then ({ c with dir := DIR_DOWN }, t1)
    else (c, t1)
  else (c, t)

/-- Body of the final loop of `handleInput` (source lines 642-654). -/
def applyTarget (now : Nat) (c : LightChannel) (t : Int) : LightChannel × Int :=
  let t1 := constrain t 0 MAX_LIGHT_VALUE
  if c.target_light_value ≠ t1 then
    ({ c with target_light_value := t1
              speed_factor := 2
              last_target_change := now }, t1)
  else (c, t1)

/-- The branch `HIGH == btnState` of an edge (source lines 505-563): the state
and the array `targets` afterwards. -/
def handlePress (s : State) (id : Nat) (btnState : Int) (now : Nat) (targets : List Int) :
    State × List Int :=
  let b := s.buttons id
  let b1 : Button := { b with last_state := btnState
                              start_time := now }
  let pulse : Bool := PULSE_TIME > subULong now b1.stop_time
  let b2 : Button := if b1.fading ∧ ¬ pulse then { b1 with fading := false } else b1
  let r := forLights (pressLight b2.fading pulse) b2.l_channels targets s.l_channels
  let s1 : State := { s with buttons := upd s.buttons id b2
                             l_channels := r.2 }
  (b2.sw_channels.foldl (fun st c => processSwitchUp st c now) s1, r.1)

/-- The branch "change to btnState LOW" of an edge (source lines 505, 564-599). -/
def handleRelease (s : State) (id : Nat) (btnState : Int) (now : Nat) (targets : List Int) :
    State × List Int :=
  let b := s.buttons id
  let prevStopTime := b.stop_time
  let b1 : Button := { b with last_state := btnState
                              stop_time := now }
  let doublePulse : Bool := 2 * PULSE_TIME > subULong b1.stop_time prevStopTime
  let r := if doublePulse then forLights doublePulseLight b1.l_channels targets s.l_channels
           else (targets, s.l_channels)
  let s1 : State := { s with buttons := upd s.buttons id b1
                             l_channels := r.2 }
  (b1.sw_channels.foldl (fun st c => processSwitchDown st c) s1, r.1)

/-- The branch "enter or continue fading" (source lines 603-638). -/
def handleFade (s : State) (id : Nat) (now : Nat) (targets : List Int) : State × List Int :=
  let b := s.buttons id
  let b1 : Button := if ¬ b.fading then { b with fading := true } else b
  let r := forLights (fadeLight now) b1.l_channels targets s.l_channels
  ({ s with buttons := upd s.buttons id b1
            l_channels := r.2 }, r.1)

/-- The function `handleInput( id )`; `btnState` is the value `digitalRead( b->pin )`
returns in this call. -/
def handleInput (s : State) (id : Nat) (btnState : Int) (now : Nat) : State :=
  let b := s.buttons id
  if 0 = b.nr_l_channels ∧ 0 = b.nr_sw_channels then s
  else if btnState ≠ b.prev_state then
    { s with buttons := upd s.buttons id { b with prev_state := btnState } }
  else
    let interval := subULong now b.last_change
    if STEP_TIME > interval then s
    else
      let targets := b.l_channels.map (fun c => (s.l_channels c).target_light_value)
      let r : State × List Int :=
        if b.last_state ≠ btnState then
          if HIGH = btnState then handlePress s id btnState now targets
          else handleRelease s id btnState now targets
        else if HIGH = btnState ∧ (b.fading ∨ PULSE_TIME > subULong now b.stop_time) then
          handleFade s id now targets
        else (s, targets)
      let s2 := r.1
      let b2 := s2.buttons id
      let l := (forLights (applyTarget now) b2.l_channels r.2 s2.l_channels).2
      { s2 with l_channels := l
                buttons := upd s2.buttons id { b2 with prev_state := btnState } }

/-! ## The control loop -/

/-- The loop of `loopDimmer` that looks for a light channel with a value above 0. -/
def anyLightOn (l : Nat → LightChannel) : Bool :=
  (List.range NR_LIGHT_CHANNELS).any (fun i => decide ((l i).light_value > 0))

/-- The function `loopDimmer()`.  `digitalRead` gives the level of every input
pin during this pass, `tmp` is the content of the uninitialised local array of
`processSwitchQueue`. -/
def loopDimmer (s : State) (digitalRead : Int → Int) (now : Nat) (tmp : Int → Nat) : State :=
  let s1 := (List.range NR_BUTTONS).foldl
    (fun st i => handleInput st i (digitalRead (st.buttons i).pin) now) s
  let any_on := anyLightOn s1.l_channels
  let s2 := (List.range NR_SWITCH_CHANNELS).foldl
    (fun st i =>
      if (st.sw_channels i).always_on then
        { st with sw_channels := upd st.sw_channels i
                    { st.sw_channels i with target_state := if any_on then 1 else 0 } }
      else st) s1
  let s3 := processSwitchQueue s2 now tmp
  let s4 := (List.range NR_LIGHT_CHANNELS).foldl (fun st i => processLightTarget st i now) s3
  (List.range NR_SWITCH_CHANNELS).foldl (fun st i => processSwitchTarget st i now) s4

/-! ## Start-up -/

/-- The table `buttonLights` as `setupDimmer` fills it: row `i` holds the number
of light channels of button `i`, then the channels. -/
def buttonLights : List (List Nat) :=
  [[1, 5], [1, 4], [1, 8], [1, 10], [0], [1, 11], [0, 5], [0, 9], [0, 1, 2, 3, 4], [0, 7, 8]]

/-- The table `buttonSwitches` as `setupDimmer` fills it. -/
def buttonSwitches : List (List Nat) :=
  [[0, 5], [0], [0], [0], [0], [0], [0], [0], [0], [0]]

/-- The cells `row[1] .. row[row[0]]` of a row of a button table. -/
def ownedChannels (table : List (List Nat)) (i : Nat) : List Nat :=
  let row := table.getD i []
  (row.drop 1).take (row.headD 0)

/-- The switch types and durations `setupDimmer` configures (the other cells of
the zero-initialised global array keep type 0, `SWITCH_TYPE_PULSE`). -/
def switchConfig (i : Nat) : SWITCH_TYPE × Int :=
  if i = 0 then (.SWITCH_TYPE_DELAYED_STOP, 10)
  else if i = 1 then (.SWITCH_TYPE_DELAYED_STOP, 60)
  else if i = 2 ∨ i = 5 ∨ i = 6 then (.SWITCH_TYPE_TOGGLE, 0)
  else (.SWITCH_TYPE_PULSE, 0)

/-- The button that `setupDimmer` leaves in the back pointer of a channel: the
last button whose row lists the channel. -/
def owner (table : List (List Nat)) (c : Nat) : Option Nat :=
  ((List.range NR_BUTTONS).reverse.find? (fun i => decide (c ∈ ownedChannels table i)))

/-- The state after `setupDimmer()` ran at time `now`. -/
def setupDimmer (now : Nat) : State where
  l_channels := fun i =>
    { pin := if i < NR_LIGHT_CHANNELS then lightPins.getD i 0 else 0
      light_value := 0
      last_light_value := 0
      idle_light_value := if i = 5 then 60 else 0
      dir := if i < NR_LIGHT_CHANNELS then DIR_UP else 0
      target_light_value := 0
      speed_factor := if i < NR_LIGHT_CHANNELS then 2 else 0
      last_value_change := if i < NR_LIGHT_CHANNELS then now else 0
      last_target_change := if i < NR_LIGHT_CHANNELS then now else 0
      button := owner buttonLights i
      has_button := (owner buttonLights i).isSome }
  sw_channels := fun i =>
    { pin := if i < NR_SWITCH_CHANNELS then switchPins.getD i 0 else 0
      state := 0
      target_state := if i = 5 then 1 else 0
      switch_type := (switchConfig i).1
      last_state_change := if i < NR_SWITCH_CHANNELS then now else 0
      last_target_change := if i < NR_SWITCH_CHANNELS then now else 0
      duration := (switchConfig i).2
      start_delay := 0
      button := owner buttonSwitches i
      has_button := (owner buttonSwitches i).isSome
      always_on := decide (i = 5) }
  buttons := fun i =>
    { pin := if i < NR_BUTTONS then buttonPins.getD i 0 else 0
      prev_state := 0
      last_state := LOW
      last_change := if i < NR_BUTTONS then now else 0
      start_time := if i < NR_BUTTONS then now else 0
      stop_time := if i < NR_BUTTONS then now else 0
      l_channels := if i < NR_BUTTONS then ownedChannels buttonLights i else []
      sw_channels := if i < NR_BUTTONS then ownedChannels buttonSwitches i else []
      fading := false }
  queued_sw_channels := []
  hw := []

/-! ## Definitions used to state the properties -/

/-- The switch type `setSwitchState` derives from the two delays. -/
def derivedSwitchType (start_delay duration : Int) : SWITCH_TYPE :=
  if start_delay > 0 ∧ duration > 0 then .SWITCH_TYPE_DELAYED_START_STOP
  else if duration > 0 then .SWITCH_TYPE_DELAYED_STOP
  else .SWITCH_TYPE_PULSE

/-- The channel record after the first part of `setSwitchState`, written with the
derived type. -/
def derivedChannel (c : SwitchChannel) (start_delay duration : Int) : SwitchChannel :=
  { c with switch_type := derivedSwitchType start_delay duration
           start_delay := if duration > 0 then start_delay else 0
           duration := duration }

/-- The Up transition applied to the switch channels `cs` in order. -/
def switchesUp (now : Nat) (cs : List Nat) (s : State) : State :=
  cs.foldl (fun st c => processSwitchUp st c now) s

/-- The Down transition applied to the switch channels `cs` in order. -/
def switchesDown (cs : List Nat) (s : State) : State :=
  cs.foldl (fun st c => processSwitchDown st c) s

/-- The compaction the specification describes for the queue: the entries whose
queue index (counted from `i`) is listed in `remove` are deleted, the others stay in
their order. -/
def stableRemoval : List Nat → Nat → List Nat → List Nat
  | [], _, _ => []
  | c :: rest, i, remove =>
    if i ∈ remove then stableRemoval rest (i + 1) remove
    else c :: stableRemoval rest (i + 1) remove

/-- The state after start-up at time 0 and the request
`setSwitchState( 1, 1, 0, 60 )` at time 0: switch channel 1 is DelayedStop with
duration 60, its target is on and it is queued. -/
def stateDelayedStop60 : State := setSwitchState (setupDimmer 0) 1 1 0 60 0

/-- The state after start-up at time 0 and the three requests
`setSwitchState( 0, 1, 0, 20 )`, `setSwitchState( 1, 1, 0, 10 )`,
`setSwitchState( 2, 1, 0, 10 )` at time 0: the queue holds the channels 0, 1, 2. -/
def stateThreeQueued : State :=
  setSwitchState (setSwitchState (setSwitchState (setupDimmer 0) 0 1 0 20 0) 1 1 0 10 0) 2 1 0 10 0

/-- The state after start-up at time 0 and the two requests
`setSwitchState( 0, 1, 0, 10 )`, `setSwitchState( 1, 1, 0, 20 )` at time 0: the queue
holds the channels 0, 1. -/
def stateTwoQueued : State :=
  setSwitchState (setSwitchState (setupDimmer 0) 0 1 0 10 0) 1 1 0 20 0

/-- A button record for the examples: pin 40, owner of the light channel 5 and of
the switch channels 0 and 2, with the given previous sample and logical state. -/
def exampleButton (prev_state last_state : Int) : Button :=
  { pin := 40
    prev_state := prev_state
    last_state := last_state
    last_change := 0
    start_time := 0
    stop_time := 0
    l_channels := [5]
    sw_channels := [0, 2]
    fading := false }

/-- The state after start-up at time 0 in which button 0 is `exampleButton` and light
channel 5 is lit at 100 (target 100, previous value 40). -/
def exampleState (prev_state last_state : Int) : State :=
  let s := setupDimmer 0
  let c : LightChannel := { s.l_channels 5 with light_value := 100
                                                target_light_value := 100
                                                last_light_value := 40 }
  { s with buttons := upd s.buttons 0 (exampleButton prev_state last_state)
           l_channels := upd s.l_channels 5 c }

/-- The state after start-up at time 0 and the Up transition of switch channel 0
(DelayedStop, duration 10, as `setupDimmer` configures it) at time 0. -/
def stateDelayedStop10 : State := processSwitchUp (setupDimmer 0) 0 0

/-! ## The command layer (`Web.h`) -/

/-- A call of a setter of the core by the command layer, with the arguments it passes. -/
inductive CoreCall where
  | setLightTargetValue (channel value speedFactor : Int)
  | setSwitchState (channel state start_delay duration : Int)
deriving DecidableEq, Repr

/-- The end of `setLightCmd` (`Web.h` lines 117-121) for the `channel`, `value` and
`speedFactor` parsed from the request: the call of the core it makes, if any. -/
def setLightCmd (channel value speedFactor : Int) : Option CoreCall :=
  if 0 ≤ channel ∧ 12 ≥ channel ∧ 0 ≤ value ∧ 255 ≥ value then
    some (.setLightTargetValue channel value speedFactor)
  else none

/-- The end of `setSwitchCmd` (`Web.h` lines 187-193) for the `channel`, `state`,
`start_delay` and `duration` parsed from the request: the call of the core it makes,
if any. -/
def setSwitchCmd (channel state start_delay duration : Int) : Option CoreCall :=
  if 0 ≤ channel ∧ 9 ≥ channel ∧ 0 ≤ state ∧ 1 ≥ state
      ∧ 0 ≤ start_delay ∧ 999 ≥ start_delay ∧ 0 ≤ duration ∧ 999 ≥ duration then
    some (.setSwitchState channel state start_delay duration)
  else none

/-- The effect of a command on the state of the core: that of the call it makes. -/
def execCall (s : State) (now : Nat) : Option CoreCall → State
  | none => s
  | some (.setLightTargetValue channel value speedFactor) =>
    setLightTargetValue s channel.toNat value speedFactor
  | some (.setSwitchState channel state start_delay duration) =>
    setSwitchState s channel.toNat state start_delay duration now

/-! ## Runs of the system -/

/-- The first loop of `loopDimmer`: `handleInput` for every button. -/
def gesturePass (s : State) (digitalRead : Int → Int) (now : Nat) : State :=
  (List.range NR_BUTTONS).foldl
    (fun st i => handleInput st i (digitalRead (st.buttons i).pin) now) s

/-- The second and third loop of `loopDimmer`: every `always_on` switch channel gets the
target `any_on`. -/
def alwaysOnPass (any_on : Bool) (s : State) : State :=
  (List.range NR_SWITCH_CHANNELS).foldl
    (fun st i =>
      if (st.sw_channels i).always_on then
        { st with sw_channels := upd st.sw_channels i
                    { st.sw_channels i with target_state := if any_on then 1 else 0 } }
      else st) s

/-- Calls of `handleInput( id )` in consecutive passes of the loop: each tick is the
sample `digitalRead` returns and the time `now` of the pass. -/
def handleInputs (s : State) (id : Nat) (ticks : List (Int × Nat)) : State :=
  ticks.foldl (fun st p => handleInput st id p.1 p.2) s

/-- What can happen to the core between two states: a pass of `loopDimmer` (with the
pin levels, the time and the content of the uninitialised array of the drain), or a
call of one of the setters. -/
inductive Op where
  | tick (digitalRead : Int → Int) (now : Nat) (tmp : Int → Nat)
  | setLight (channel : Nat) (value speedFactor : Int)
  | setIdle (channel : Nat)
  | setSwitch (channel : Nat) (state start_delay duration : Int) (now : Nat)

def step (s : State) : Op → State
  | .tick digitalRead now tmp => loopDimmer s digitalRead now tmp
  | .setLight channel value speedFactor => setLightTargetValue s channel value speedFactor
  | .setIdle channel => setLightIdleValue s channel
  | .setSwitch channel state start_delay duration now =>
    setSwitchState s channel state start_delay duration now

def run (s : State) (ops : List Op) : State := ops.foldl step s

/-- The value of a call `setLightTargetValue` lies in 0..255. -/
def Op.inRange : Op → Prop
  | .setLight _ value _ => 0 ≤ value ∧ value ≤ 255
  | _ => True

/-- The three values of a light channel (and its idle value) lie in 0..255. -/
def LightChannel.inRange (c : LightChannel) : Prop :=
  (0 ≤ c.light_value ∧ c.light_value ≤ MAX_LIGHT_VALUE)
  ∧ (0 ≤ c.target_light_value ∧ c.target_light_value ≤ MAX_LIGHT_VALUE)
  ∧ (0 ≤ c.last_light_value ∧ c.last_light_value ≤ MAX_LIGHT_VALUE)
  ∧ (0 ≤ c.idle_light_value ∧ c.idle_light_value ≤ MAX_LIGHT_VALUE)

/-- Every pin reads `LOW`. -/
def allLow : Int → Int := fun _ => LOW

/-- Button 0 (pin 40) reads `HIGH`, every other pin `LOW`. -/
def button0High : Int → Int := fun pin => if pin = 40 then HIGH else LOW

/-! ## Example runs -/

/-- The state after start-up at time 0, the requests `setLightTargetValue( 0, 100, 5 )`
and `setSwitchState( 5, 1, 0, 10 )` at time 0 and one pass of the loop at time 1 with
no button pressed: light channel 0 is at 100, the `always_on` switch channel 5 is a
queued DelayedStop channel. -/
def stateAlwaysOnQueued : State :=
  run (setupDimmer 0)
    [.setLight 0 100 5, .setSwitch 5 1 0 10 0, .tick allLow 1 (fun _ => 0)]

/-- Start-up at time 0, the requests `setSwitchState( 0, 1, 0, 10 )` and
`setSwitchState( 1, 1, 0, 20 )` at time 0, and a pass of the loop at time 10001 in
which the uninitialised array of the drain holds `garbage` in every cell. -/
def opsGarbage (garbage : Nat) : List Op :=
  [.setSwitch 0 1 0 10 0, .setSwitch 1 1 0 20 0, .tick allLow 10001 (fun _ => garbage)]

/-- The requests `setSwitchState( i, 1, 0, 30 )` for the ten switch channels at time
10002. -/
def opsQueueAll : List Op :=
  (List.range NR_SWITCH_CHANNELS).map (fun i => Op.setSwitch i 1 0 30 10002)

/-- Button 0 after start-up at time 0, a first press (accepted at 1001), its release
(accepted at 1051) and the first `HIGH` sample of a second press at 1100. -/
def stateSecondPress : State :=
  handleInputs (setupDimmer 0) 0 [(HIGH, 1000), (HIGH, 1001), (LOW, 1050), (LOW, 1051), (HIGH, 1100)]

/-! ## The parts of `handleInput` -/

/-- The middle part of `handleInput` (source lines 493-638), reached when the sample
is accepted: the snapshot `targets` and the branch of the edge or of the fade; the
state and the array `targets` afterwards. -/
def gestureBranch (s : State) (id : Nat) (btnState : Int) (now : Nat) : State × List Int :=
  let b := s.buttons id
  let targets := b.l_channels.map (fun c => (s.l_channels c).target_light_value)
  if b.last_state ≠ btnState then
    if HIGH = btnState then handlePress s id btnState now targets
    else handleRelease s id btnState now targets
  else if HIGH = btnState ∧ (b.fading ∨ PULSE_TIME > subULong now b.stop_time) then
    handleFade s id now targets
  else (s, targets)

/-- The last part of `handleInput` (source lines 640-656): the loop that applies
`targets`, and the assignment to `prev_state`. -/
def finishInput (r : State × List Int) (id : Nat) (btnState : Int) (now : Nat) : State :=
  let s2 := r.1
  let b2 := s2.buttons id
  let l := (forLights (applyTarget now) b2.l_channels r.2 s2.l_channels).2
  { s2 with l_channels := l
            buttons := upd s2.buttons id { b2 with prev_state := btnState } }

/-- Every light channel of the state has its values in 0..255. -/
def LightsInRange (s : State) : Prop := ∀ k, (s.l_channels k).inRange

/-- A run for the examples: a request for light channel 0, a pass with button 0 pressed,
the idle request for light channel 5, a request for switch channel 1, and three more
passes with button 0 pressed. -/
def opsExample : List Op :=
  [.setLight 0 100 5, .tick button0High 1000 (fun _ => 0), .setIdle 5,
   .setSwitch 1 1 0 60 1000, .tick button0High 1001 (fun _ => 0),
   .tick button0High 1002 (fun _ => 0), .tick button0High 1003 (fun _ => 0)]

/-- The body of the `always_on` loop of `loopDimmer` for one switch channel. -/
def alwaysOnChannel (any_on : Bool) (c : SwitchChannel) : SwitchChannel :=
  if c.always_on then { c with target_state := if any_on then 1 else 0 } else c

/-- The switch channel after `processSwitchTarget`. -/
def appliedSwitch (now : Nat) (c : SwitchChannel) : SwitchChannel :=
  if c.state = c.target_state then c
  else { c with state := c.target_state
                last_state_change := now }

/-- The light channel after `processLightTarget`. -/
def appliedLight (now : Nat) (c : LightChannel) : LightChannel :=
  if c.light_value = c.target_light_value then c
  else { c with light_value := constrain c.target_light_value 0 MAX_LIGHT_VALUE
                last_value_change := now }

/-- The state after start-up at time 0, the Up transition of switch channel 0 at time 0
and a pass of the loop at time 1 with no button pressed: switch channel 0 (DelayedStop,
duration 10) is on and queued. -/
def stateDelayedStop10On : State := loopDimmer stateDelayedStop10 allLow 1 (fun _ => 0)

/-- A threshold `c->duration * 1000` or `c->start_delay * 1000` of `processSwitchQueue`
as the comparison with `now - c->last_target_change` sees it: the product in `int`,
converted to `unsigned long`. -/
def delayThreshold (seconds : Int) : Nat := toULong (wrapInt (seconds * 1000))

/-- The threshold `( c->duration + c->start_delay ) * 1000` of `processSwitchQueue` as
the comparison sees it. -/
def delaySumThreshold (duration start_delay : Int) : Nat :=
  toULong (wrapInt (wrapInt (duration + start_delay) * 1000))

/-- Passes of the loop after start-up at time 0 in which button 0 is pressed and held
(100 to 102: the fade starts), released (103, 104), pressed again within `PULSE_TIME`
(200, 201: the direction of the fade is reversed), released (300, 301), and sampled
`HIGH` once at time 1000. -/
def opsFadeDown : List Op :=
  [.tick button0High 100 (fun _ => 0), .tick button0High 101 (fun _ => 0),
   .tick button0High 102 (fun _ => 0), .tick allLow 103 (fun _ => 0),
   .tick allLow 104 (fun _ => 0), .tick button0High 200 (fun _ => 0),
   .tick button0High 201 (fun _ => 0), .tick allLow 300 (fun _ => 0),
   .tick allLow 301 (fun _ => 0), .tick button0High 1000 (fun _ => 0)]

/-- The state after start-up at time 0 and the passes `opsFadeDown`: button 0 is released
and still has `fading` set, its light channel 5 has the direction `DIR_DOWN`. -/
def stateFadingDown : State := run (setupDimmer 0) opsFadeDown

/-! ## Where the accesses of the source stay inside its objects

A queue entry is a pointer the drain dereferences, and the compaction stores into the
local array `tmp` of `NR_SWITCH_CHANNELS` cells.  The definitions above give a result for
every index and every offset; the source has one only where the pointer is the address of
a switch channel and the offset lies inside the array.  The definitions of this section
decide that, and the checked pass and run have no result (`none`) elsewhere. -/

/-- The offsets `j - i` of the stores `tmp[j - i] = queued_sw_channels[j]` made by the inner
loop of the compaction, as the `n = remove[i] - j` iterations it makes. -/
def storesWhile (i : Nat) : Nat → Nat → List Int
  | 0, _ => []
  | n + 1, j => ((j : Int) - (i : Int)) :: storesWhile i n (j + 1)

/-- The offsets of the stores into `tmp` made by the outer loop of the compaction, from
index `i` of `remove` on; the inner loop leaves `j` at `j + (remove[i] - j)`. -/
def storesFor : List Nat → Nat → Nat → List Int
  | [], _, _ => []
  | r :: rest, i, j => storesWhile i (r - j) j ++ storesFor rest (i + 1) (j + (r - j))

/-- The accesses of `processSwitchQueue` are inside the objects of the program: the queue
fits the array `queued_sw_channels`, every queued pointer `c` the scan dereferences is the
address of one of the `NR_SWITCH_CHANNELS` switch channels, and every store
`tmp[j - i]` of the compaction has its offset in `0 .. NR_SWITCH_CHANNELS - 1`. -/
def drainDefined (s : State) (now : Nat) : Bool :=
  decide (s.queued_sw_channels.length ≤ NR_SWITCH_CHANNELS)
  && s.queued_sw_channels.all (fun c => decide (c < NR_SWITCH_CHANNELS))
  && (storesFor (scanQueue now s.queued_sw_channels 0 s.sw_channels []).2 0 0).all
      (fun o => decide (0 ≤ o ∧ o < (NR_SWITCH_CHANNELS : Int)))

/-- The two lists of every button fit their arrays of `NR_CHANNELS_PER_BUTTON` cells and
hold addresses of light channels and of switch channels. -/
def buttonsDefined (s : State) : Bool :=
  (List.range NR_BUTTONS).all (fun i =>
    decide ((s.buttons i).nr_l_channels ≤ NR_CHANNELS_PER_BUTTON)
    && decide ((s.buttons i).nr_sw_channels ≤ NR_CHANNELS_PER_BUTTON)
    && (s.buttons i).l_channels.all (fun c => decide (c < NR_LIGHT_CHANNELS))
    && (s.buttons i).sw_channels.all (fun c => decide (c < NR_SWITCH_CHANNELS)))

/-- The pass `loopDimmer()` where every access of the source is inside its objects: the
lists of the buttons are (`handleInput` does not write them), and the drain is on the
state it runs on; its test of the queue length also covers the stores
`queued_sw_channels[queued_sw_channels_length++] = c` of the gesture pass, which only
appends.  Elsewhere the pass has no result. -/
def loopDimmerChecked (s : State) (digitalRead : Int → Int) (now : Nat) (tmp : Int → Nat) :
    Option State :=
  let s1 := gesturePass s digitalRead now
  let s2 := alwaysOnPass (anyLightOn s1.l_channels) s1
  if buttonsDefined s ∧ drainDefined s2 now then some (loopDimmer s digitalRead now tmp)
  else none

/-- A step of a run where every access of the source is inside its objects: a pass as
`loopDimmerChecked`, a setter with a channel of its array, and for `setSwitchState` a queue
that still fits `queued_sw_channels` after the call. -/
def stepChecked (s : State) : Op → Option State
  | .tick digitalRead now tmp => loopDimmerChecked s digitalRead now tmp
  | .setLight channel value speedFactor =>
    if channel < NR_LIGHT_CHANNELS then some (setLightTargetValue s channel value speedFactor)
    else none
  | .setIdle channel =>
    if channel < NR_LIGHT_CHANNELS then some (setLightIdleValue s channel) else none
  | .setSwitch channel state start_delay duration now =>
    if channel < NR_SWITCH_CHANNELS
        ∧ (setSwitchState s channel state start_delay duration now).queued_sw_channels.length
            ≤ NR_SWITCH_CHANNELS then
      some (setSwitchState s channel state start_delay duration now)
    else none

/-- A run of checked steps: no result from the first step on that has none. -/
def runChecked (s : State) (ops : List Op) : Option State :=
  ops.foldl (fun o op => o.bind (fun st => stepChecked st op)) (some s)

/-- The state after start-up at time 0, the requests `setSwitchState( 0, 1, 0, 10 )` and
`setSwitchState( 1, 1, 0, 20 )` at time 0 and the pass of the loop at time 10001 in which
the uninitialised array of the drain holds 77: the queue is the one entry 77. -/
def stateGarbageQueue : State := run (setupDimmer 0) (opsGarbage 77)

/-- Start-up at time 0, the requests `setSwitchState( 0, 1, 0, 10 )` and
`setSwitchState( 1, 1, 0, 10 )` at time 0, and a pass of the loop at time 10001: both
queued channels expire in its drain. -/
def opsBothExpire : List Op :=
  [.setSwitch 0 1 0 10 0, .setSwitch 1 1 0 10 0, .tick allLow 10001 (fun _ => 0)]

/-! ## Basic facts about the embedding -/

theorem upd_same {α : Type} (f : Nat → α) (i : Nat) (v : α) : upd f i v i = v := by
  simp [upd]

theorem upd_other {α : Type} (f : Nat → α) (i k : Nat) (v : α) (h : k ≠ i) :
    upd f i v k = f k := by
  simp [upd, h]

theorem upd_idem {α : Type} (f : Nat → α) (i : Nat) (v w : α) :
    upd (upd f i v) i w = upd f i w := by
  funext k
  by_cases h : k = i <;> simp [upd, h]

theorem alreadyQueued_iff (c : Nat) (q : List Nat) : alreadyQueued c q = true ↔ c ∈ q := by
  induction q with
  | nil => simp [alreadyQueued]
  | cons a rest ih =>
    by_cases h : a = c
    · simp [alreadyQueued, h]
    · have h2 : ¬ c = a := fun e => h e.symm
      simp [alreadyQueued, h, h2, ih]

/-- The queue after `queueSwitch`. -/
theorem queueSwitch_queue (s : State) (c now : Nat) :
    (queueSwitch s c now).queued_sw_channels
      = if c ∈ s.queued_sw_channels then s.queued_sw_channels
        else s.queued_sw_channels ++ [c] := by
  by_cases h : c ∈ s.queued_sw_channels
  · have h2 := (alreadyQueued_iff c s.queued_sw_channels).2 h
    simp [queueSwitch, h, h2]
  · have h2 : alreadyQueued c s.queued_sw_channels = false := by
      cases e : alreadyQueued c s.queued_sw_channels with
      | false => rfl
      | true => exact absurd ((alreadyQueued_iff c _).1 e) h
    simp [queueSwitch, h, h2]

/-- The switch channels after `queueSwitch`: only the stamp of `c` changes. -/
theorem queueSwitch_sw (s : State) (c now : Nat) :
    (queueSwitch s c now).sw_channels
      = upd s.sw_channels c { s.sw_channels c with last_target_change := now } := rfl

theorem queueSwitch_l (s : State) (c now : Nat) :
    (queueSwitch s c now).l_channels = s.l_channels := rfl

theorem queueSwitch_buttons (s : State) (c now : Nat) :
    (queueSwitch s c now).buttons = s.buttons := rfl

theorem queueSwitch_hw (s : State) (c now : Nat) : (queueSwitch s c now).hw = s.hw := rfl

/-- The Up transition never changes the type of the channel. -/
theorem processSwitchUp_type (s : State) (c now : Nat) :
    ((processSwitchUp s c now).sw_channels c).switch_type = (s.sw_channels c).switch_type := by
  cases h : (s.sw_channels c).switch_type <;>
    simp [processSwitchUp, h, queueSwitch_sw, upd_same]

/-! ## The switch state machine: `processSwitchUp`, `processSwitchDown`, `queueSwitch` -/

/-- The enqueue stays within the array `queued_sw_channels`: a queue without
duplicates whose entries are switch channels keeps both properties, and its length
stays at most `NR_SWITCH_CHANNELS`. -/
theorem queueSwitch_within_capacity (s : State) (c now : Nat)
    (hnd : s.queued_sw_channels.Nodup)
    (hv : ∀ k ∈ s.queued_sw_channels, k < NR_SWITCH_CHANNELS)
    (hc : c < NR_SWITCH_CHANNELS) :
    (queueSwitch s c now).queued_sw_channels.Nodup
    ∧ (∀ k ∈ (queueSwitch s c now).queued_sw_channels, k < NR_SWITCH_CHANNELS)
    ∧ (queueSwitch s c now).queued_sw_channels.length ≤ NR_SWITCH_CHANNELS := by
  have h1 : (queueSwitch s c now).queued_sw_channels.Nodup := by
    rw [queueSwitch_queue]
    by_cases h : c ∈ s.queued_sw_channels
    · simpa [h] using hnd
    · simp only [h, if_false]
      exact List.Nodup.append hnd (List.nodup_singleton c) (by simpa using h)
  have h2 : ∀ k ∈ (queueSwitch s c now).queued_sw_channels, k < NR_SWITCH_CHANNELS := by
    rw [queueSwitch_queue]
    by_cases h : c ∈ s.queued_sw_channels
    · simpa [h] using hv
    · simp only [h, if_false]
      intro k hk
      rcases List.mem_append.mp hk with hk | hk
      · exact hv k hk
      · have e : k = c := by simpa using hk
        rw [e]
        exact hc
  refine ⟨h1, h2, ?_⟩
  have h3 : (queueSwitch s c now).queued_sw_channels.toFinset ⊆ Finset.range NR_SWITCH_CHANNELS := by
    intro k hk
    exact Finset.mem_range.mpr (h2 k (List.mem_toFinset.mp hk))
  have h4 := Finset.card_le_card h3
  rw [List.toFinset_card_of_nodup h1, Finset.card_range] at h4
  exact h4

/-- C7. The Down transition `processSwitchDown(c)`: a Pulse channel gets
`target_state := LOW` and nothing else changes; for Toggle, DelayedStart, DelayedStop
and DelayedStartStop the whole state (targets, states, queue, stamps) is unchanged. -/
theorem processSwitchDown_table (s : State) (c : Nat) :
    ((s.sw_channels c).switch_type = .SWITCH_TYPE_PULSE →
        processSwitchDown s c
          = { s with sw_channels := (upd s.sw_channels c
                { s.sw_channels c with target_state := LOW }) }
        ∧ ((processSwitchDown s c).sw_channels c).target_state = LOW
        ∧ (∀ k, k ≠ c → (processSwitchDown s c).sw_channels k = s.sw_channels k)
        ∧ (processSwitchDown s c).queued_sw_channels = s.queued_sw_channels)
    ∧ ((s.sw_channels c).switch_type = .SWITCH_TYPE_TOGGLE → processSwitchDown s c = s)
    ∧ ((s.sw_channels c).switch_type = .SWITCH_TYPE_DELAYED_START →
        processSwitchDown s c = s)
    ∧ ((s.sw_channels c).switch_type = .SWITCH_TYPE_DELAYED_STOP →
        processSwitchDown s c = s)
    ∧ ((s.sw_channels c).switch_type = .SWITCH_TYPE_DELAYED_START_STOP →
        processSwitchDown s c = s) := by
  refine ⟨?_, ?_, ?_, ?_, ?_⟩
  · intro h
    refine ⟨?_, ?_, ?_, ?_⟩
    · simp [processSwitchDown, h]
    · simp [processSwitchDown, h, upd_same]
    · intro k hk
      simp [processSwitchDown, h, upd_other _ _ _ _ hk]
    · simp [processSwitchDown, h]
  all_goals
    intro h
    simp [processSwitchDown, h]

/-! ## The setters `setLightTargetValue` and `setSwitchState` -/

/-- C5. `setLightTargetValue(channel, value, speedFactor)` changes nothing when `value`
equals the current `light_value` of the channel; otherwise `last_light_value` becomes
the old target, `target_light_value` becomes `value`, `speed_factor` becomes
`speedFactor` when `0 <= speedFactor <= 10` and 5 otherwise, and nothing else changes
(`light_value`, `dir`, both stamps, the other channels). -/
theorem setLightTargetValue_effect (s : State) (channel : Nat) (value speedFactor : Int) :
    (value = (s.l_channels channel).light_value →
        setLightTargetValue s channel value speedFactor = s)
    ∧ (value ≠ (s.l_channels channel).light_value →
        (setLightTargetValue s channel value speedFactor).l_channels channel
          = { s.l_channels channel with
                last_light_value := (s.l_channels channel).target_light_value
                target_light_value := value
                speed_factor := if 0 ≤ speedFactor ∧ speedFactor ≤ 10 then speedFactor else 5 }
        ∧ (∀ k, k ≠ channel →
            (setLightTargetValue s channel value speedFactor).l_channels k = s.l_channels k)
        ∧ (setLightTargetValue s channel value speedFactor).sw_channels = s.sw_channels
        ∧ (setLightTargetValue s channel value speedFactor).buttons = s.buttons
        ∧ (setLightTargetValue s channel value speedFactor).queued_sw_channels
            = s.queued_sw_channels
        ∧ (setLightTargetValue s channel value speedFactor).hw = s.hw) := by
  refine ⟨?_, ?_⟩
  · intro h
    simp [setLightTargetValue, h]
  · intro h
    have h2 : ¬ (s.l_channels channel).light_value = value := fun e => h e.symm
    refine ⟨?_, ?_, ?_, ?_, ?_, ?_⟩
    · by_cases hs : 0 ≤ speedFactor ∧ speedFactor ≤ 10
      · simp [setLightTargetValue, h2, upd_same, hs]
      · simp [setLightTargetValue, h2, upd_same, hs]
    · intro k hk
      simp [setLightTargetValue, h2, upd_other _ _ _ _ hk]
    all_goals simp [setLightTargetValue, h2]

/-- C6. `setSwitchState(channel, state, start_delay, duration)` with
`start_delay >= 0` and `duration >= 0`: the channel gets `switch_type`
DelayedStartStop when both delays are positive, DelayedStop when only `duration`
is, Pulse otherwise (and the delays are stored); then the Up transition is applied
to it when `state` is non-zero and the Down transition when `state` is 0.  The type
is still the derived one afterwards. -/
theorem setSwitchState_effect (s : State) (channel : Nat) (state start_delay duration : Int)
    (now : Nat) (hs : 0 ≤ start_delay) (hd : 0 ≤ duration) :
    (state ≠ 0 →
        setSwitchState s channel state start_delay duration now
          = processSwitchUp
              { s with sw_channels := (upd s.sw_channels channel
                  (derivedChannel (s.sw_channels channel) start_delay duration)) } channel now)
    ∧ (state = 0 →
        setSwitchState s channel state start_delay duration now
          = processSwitchDown
              { s with sw_channels := (upd s.sw_channels channel
                  (derivedChannel (s.sw_channels channel) start_delay duration)) } channel)
    ∧ ((setSwitchState s channel state start_delay duration now).sw_channels channel).switch_type
        = derivedSwitchType start_delay duration := by
  have key : (if 0 ≠ start_delay ∧ 0 ≠ duration then
        ({ s.sw_channels channel with
            switch_type := .SWITCH_TYPE_DELAYED_START_STOP
            start_delay := start_delay
            duration := duration } : SwitchChannel)
      else if 0 ≠ duration then
        { s.sw_channels channel with
            switch_type := .SWITCH_TYPE_DELAYED_STOP
            start_delay := 0
            duration := duration }
      else
        { s.sw_channels channel with
            switch_type := .SWITCH_TYPE_PULSE
            start_delay := 0
            duration := 0 })
      = derivedChannel (s.sw_channels channel) start_delay duration := by
    rcases hd.lt_or_eq with hd1 | hd1
    · have e1 : ¬ duration = 0 := by omega
      have e1b : ¬ 0 = duration := by omega
      rcases hs.lt_or_eq with hs1 | hs1
      · have e2 : ¬ 0 = start_delay := by omega
        simp [derivedChannel, derivedSwitchType, hd1, hs1, e1b, e2]
      · subst hs1
        simp [derivedChannel, derivedSwitchType, hd1, e1b]
    · subst hd1
      simp [derivedChannel, derivedSwitchType]
  refine ⟨?_, ?_, ?_⟩
  · intro h
    simp only [setSwitchState, key]
    simp [h]
  · intro h
    simp only [setSwitchState, key]
    simp [h]
  · simp only [setSwitchState, key]
    by_cases h : state = 0
    · simp only [h, ne_eq, not_true_eq_false, if_false]
      simp only [processSwitchDown]
      split
      · simp [upd_same, derivedChannel]
      · simp [upd_same, derivedChannel]
    · simp only [h, ne_eq, not_false_eq_true, if_true]
      exact (processSwitchUp_type _ channel now).trans (by simp [upd_same, derivedChannel])

/-! ### Frame of the two transitions -/

theorem processSwitchUp_l (s : State) (c now : Nat) :
    (processSwitchUp s c now).l_channels = s.l_channels := by
  cases h : (s.sw_channels c).switch_type <;> simp [processSwitchUp, h, queueSwitch_l]

theorem processSwitchUp_buttons (s : State) (c now : Nat) :
    (processSwitchUp s c now).buttons = s.buttons := by
  cases h : (s.sw_channels c).switch_type <;> simp [processSwitchUp, h, queueSwitch_buttons]

theorem processSwitchUp_hw (s : State) (c now : Nat) :
    (processSwitchUp s c now).hw = s.hw := by
  cases h : (s.sw_channels c).switch_type <;> simp [processSwitchUp, h, queueSwitch_hw]

/-- The switch channels and the queue after the Up transition depend on the switch
channels and the queue before it only. -/
theorem processSwitchUp_congr (s t : State) (c now : Nat)
    (hsw : s.sw_channels = t.sw_channels)
    (hq : s.queued_sw_channels = t.queued_sw_channels) :
    (processSwitchUp s c now).sw_channels = (processSwitchUp t c now).sw_channels
    ∧ (processSwitchUp s c now).queued_sw_channels
        = (processSwitchUp t c now).queued_sw_channels := by
  obtain ⟨l1, sw1, b1, q1, hw1⟩ := s
  obtain ⟨l2, sw2, b2, q2, hw2⟩ := t
  simp only at hsw hq
  subst hsw hq
  cases h : (sw1 c).switch_type <;>
    simp [processSwitchUp, h, queueSwitch_sw, queueSwitch_queue]

theorem processSwitchDown_l (s : State) (c : Nat) :
    (processSwitchDown s c).l_channels = s.l_channels := by
  by_cases h : (s.sw_channels c).switch_type = .SWITCH_TYPE_PULSE <;>
    simp [processSwitchDown, h]

theorem processSwitchDown_buttons (s : State) (c : Nat) :
    (processSwitchDown s c).buttons = s.buttons := by
  by_cases h : (s.sw_channels c).switch_type = .SWITCH_TYPE_PULSE <;>
    simp [processSwitchDown, h]

theorem processSwitchDown_hw (s : State) (c : Nat) :
    (processSwitchDown s c).hw = s.hw := by
  by_cases h : (s.sw_channels c).switch_type = .SWITCH_TYPE_PULSE <;>
    simp [processSwitchDown, h]

theorem processSwitchDown_queue (s : State) (c : Nat) :
    (processSwitchDown s c).queued_sw_channels = s.queued_sw_channels := by
  by_cases h : (s.sw_channels c).switch_type = .SWITCH_TYPE_PULSE <;>
    simp [processSwitchDown, h]

theorem processSwitchDown_congr (s t : State) (c : Nat)
    (hsw : s.sw_channels = t.sw_channels) :
    (processSwitchDown s c).sw_channels = (processSwitchDown t c).sw_channels := by
  obtain ⟨l1, sw1, b1, q1, hw1⟩ := s
  obtain ⟨l2, sw2, b2, q2, hw2⟩ := t
  simp only at hsw
  subst hsw
  by_cases h : (sw1 c).switch_type = .SWITCH_TYPE_PULSE <;>
    simp [processSwitchDown, h]

theorem switchesUp_frame (now : Nat) (cs : List Nat) (s : State) :
    (switchesUp now cs s).l_channels = s.l_channels
    ∧ (switchesUp now cs s).buttons = s.buttons
    ∧ (switchesUp now cs s).hw = s.hw := by
  induction cs generalizing s with
  | nil => exact ⟨rfl, rfl, rfl⟩
  | cons c cs ih =>
    have h := ih (processSwitchUp s c now)
    simp only [switchesUp, List.foldl_cons] at h ⊢
    rw [processSwitchUp_l, processSwitchUp_buttons, processSwitchUp_hw] at h
    exact h

theorem switchesUp_congr (now : Nat) (cs : List Nat) (s t : State)
    (hsw : s.sw_channels = t.sw_channels)
    (hq : s.queued_sw_channels = t.queued_sw_channels) :
    (switchesUp now cs s).sw_channels = (switchesUp now cs t).sw_channels
    ∧ (switchesUp now cs s).queued_sw_channels
        = (switchesUp now cs t).queued_sw_channels := by
  induction cs generalizing s t with
  | nil => exact ⟨hsw, hq⟩
  | cons c cs ih =>
    have h := processSwitchUp_congr s t c now hsw hq
    exact ih _ _ h.1 h.2

theorem switchesDown_frame (cs : List Nat) (s : State) :
    (switchesDown cs s).l_channels = s.l_channels
    ∧ (switchesDown cs s).buttons = s.buttons
    ∧ (switchesDown cs s).hw = s.hw
    ∧ (switchesDown cs s).queued_sw_channels = s.queued_sw_channels := by
  induction cs generalizing s with
  | nil => exact ⟨rfl, rfl, rfl, rfl⟩
  | cons c cs ih =>
    have h := ih (processSwitchDown s c)
    simp only [switchesDown, List.foldl_cons] at h ⊢
    rw [processSwitchDown_l, processSwitchDown_buttons, processSwitchDown_hw,
      processSwitchDown_queue] at h
    exact h

theorem switchesDown_congr (cs : List Nat) (s t : State)
    (hsw : s.sw_channels = t.sw_channels) :
    (switchesDown cs s).sw_channels = (switchesDown cs t).sw_channels := by
  induction cs generalizing s t with
  | nil => exact hsw
  | cons c cs ih => exact ih _ _ (processSwitchDown_congr s t c hsw)

/-! ### The loops over the owned light channels -/

/-- A loop over the owned light channels whose body sends every visited channel `k`
to `G k` and its cell of `targets` to `T k`, also when the channel is visited a
second time, leaves `G k` in every owned channel and `T` in `targets`. -/
theorem forLights_pointwise (body : LightChannel → Int → LightChannel × Int)
    (G : Nat → LightChannel) (T : Nat → Int) (ids : List Nat) :
    ∀ (ts : List Int) (l : Nat → LightChannel), ts.length = ids.length →
      (∀ p ∈ ids.zip ts,
        body (l p.1) p.2 = (G p.1, T p.1) ∧ body (G p.1) p.2 = (G p.1, T p.1)) →
      forLights body ids ts l = (ids.map T, fun k => if k ∈ ids then G k else l k) := by
  induction ids with
  | nil =>
    intro ts l hlen _
    have hts : ts = [] := List.length_eq_zero.mp (by simpa using hlen)
    subst hts
    simp [forLights]
  | cons c cs ih =>
    intro ts l hlen H
    cases ts with
    | nil => simp at hlen
    | cons t ts =>
      have hlen2 : ts.length = cs.length := by simpa using hlen
      have hc := H (c, t) (by simp)
      have hrest := ih ts (upd l c (G c)) hlen2 (by
        intro p hp
        have hp2 := H p (by simp [hp])
        by_cases e : p.1 = c
        · rw [e, upd_same]
          rw [e] at hp2
          exact ⟨hp2.2, hp2.2⟩
        · rw [upd_other _ _ _ _ e]
          exact hp2)
      simp only [forLights, hc.1, hrest, List.map_cons]
      congr 1
      funext k
      by_cases e : k = c
      · subst e
        simp [upd_same]
      · simp [e, upd_other _ _ _ _ e]

theorem mem_zip_map_snd (f : Nat → Int) (ids : List Nat) (p : Nat × Int)
    (hp : p ∈ ids.zip (ids.map f)) : p.2 = f p.1 := by
  induction ids with
  | nil => simp at hp
  | cons c cs ih =>
    simp only [List.map_cons, List.zip_cons_cons, List.mem_cons] at hp
    rcases hp with e | hp
    · subst e
      rfl
    · exact ih hp

theorem applyTarget_idem (now : Nat) (c : LightChannel) (t : Int) :
    applyTarget now (applyTarget now c t).1 t = applyTarget now c t := by
  by_cases h : c.target_light_value = constrain t 0 MAX_LIGHT_VALUE
  · simp [applyTarget, h]
  · simp [applyTarget, h]

/-- The target a channel holds after the final loop of `handleInput` is the
constrained cell of `targets`. -/
theorem applyTarget_target (now : Nat) (c : LightChannel) (t : Int) :
    (applyTarget now c t).1.target_light_value = constrain t 0 MAX_LIGHT_VALUE := by
  by_cases h : c.target_light_value = constrain t 0 MAX_LIGHT_VALUE
  · simp [applyTarget, h]
  · simp [applyTarget, h]

theorem applyTarget_frame (now : Nat) (c : LightChannel) (t : Int) :
    (applyTarget now c t).1.light_value = c.light_value
    ∧ (applyTarget now c t).1.last_light_value = c.last_light_value
    ∧ (applyTarget now c t).1.dir = c.dir := by
  by_cases h : c.target_light_value = constrain t 0 MAX_LIGHT_VALUE
  · simp [applyTarget, h]
  · simp [applyTarget, h]

/-- The final loop of `handleInput`, when the cell of `targets` of every owned
channel `k` holds `f k`. -/
theorem forLights_applyTarget (now : Nat) (f : Nat → Int) (ids : List Nat)
    (l : Nat → LightChannel) :
    (forLights (applyTarget now) ids (ids.map f) l).2
      = fun k => if k ∈ ids then (applyTarget now (l k) (f k)).1 else l k := by
  have h := forLights_pointwise (applyTarget now)
    (fun k => (applyTarget now (l k) (f k)).1)
    (fun k => (applyTarget now (l k) (f k)).2) ids (ids.map f) l (by simp) (by
      intro p hp
      have e := mem_zip_map_snd f ids p hp
      rw [e]
      refine ⟨rfl, ?_⟩
      have h2 := applyTarget_idem now (l p.1) (f p.1)
      rw [h2])
  rw [h]

/-- The light loop of a rising edge of a button that is not fading. -/
theorem forLights_pressLight (pulse : Bool) (ids : List Nat) (ts : List Int)
    (l : Nat → LightChannel) (hlen : ts.length = ids.length) :
    forLights (pressLight false pulse) ids ts l
      = (ids.map (fun k => (pressLight false pulse (l k) 0).2),
         fun k => if k ∈ ids then (pressLight false pulse (l k) 0).1 else l k) := by
  refine forLights_pointwise (pressLight false pulse)
    (fun k => (pressLight false pulse (l k) 0).1)
    (fun k => (pressLight false pulse (l k) 0).2) ids ts l hlen ?_
  intro p _
  by_cases h : (l p.1).light_value = 0 ∨ (l p.1).light_value = MAX_LIGHT_VALUE
  · simp [pressLight, h]
  · simp [pressLight, h]

/-- The light loop of a double pulse. -/
theorem forLights_doublePulseLight (f : Nat → Int) (ids : List Nat)
    (l : Nat → LightChannel) :
    forLights doublePulseLight ids (ids.map f) l
      = (ids.map (fun k => if f k = MAX_LIGHT_VALUE then 0 else MAX_LIGHT_VALUE), l) := by
  have h := forLights_pointwise doublePulseLight l
    (fun k => if f k = MAX_LIGHT_VALUE then 0 else MAX_LIGHT_VALUE) ids (ids.map f) l
    (by simp) (by
      intro p hp
      have e := mem_zip_map_snd f ids p hp
      simp [doublePulseLight, e])
  rw [h]
  congr 1
  funext k
  simp

/-! ## The gesture detector `handleInput` -/

/-- C8. Debounce: for a button with at least one owned channel, a raw sample that
differs from `prev_state` is stored in `prev_state` and nothing else changes:
`last_state`, `fading`, `start_time`, `stop_time`, every light channel, every switch
channel and the queue are as before.  So `last_state` cannot change in a tick whose
sample differs from the sample of the tick before. -/
theorem handleInput_debounce (s : State) (id : Nat) (btnState : Int) (now : Nat)
    (hown : 0 < (s.buttons id).nr_l_channels + (s.buttons id).nr_sw_channels)
    (hne : btnState ≠ (s.buttons id).prev_state) :
    handleInput s id btnState now
        = { s with buttons := upd s.buttons id { s.buttons id with prev_state := btnState } }
    ∧ ((handleInput s id btnState now).buttons id).prev_state = btnState
    ∧ ((handleInput s id btnState now).buttons id).last_state = (s.buttons id).last_state
    ∧ ((handleInput s id btnState now).buttons id).fading = (s.buttons id).fading
    ∧ ((handleInput s id btnState now).buttons id).start_time = (s.buttons id).start_time
    ∧ ((handleInput s id btnState now).buttons id).stop_time = (s.buttons id).stop_time
    ∧ (∀ k, k ≠ id → (handleInput s id btnState now).buttons k = s.buttons k)
    ∧ (handleInput s id btnState now).l_channels = s.l_channels
    ∧ (handleInput s id btnState now).sw_channels = s.sw_channels
    ∧ (handleInput s id btnState now).queued_sw_channels = s.queued_sw_channels
    ∧ (handleInput s id btnState now).hw = s.hw := by
  have h0 : ¬ (0 = (s.buttons id).nr_l_channels ∧ 0 = (s.buttons id).nr_sw_channels) := by
    omega
  have e : handleInput s id btnState now
      = { s with buttons := upd s.buttons id { s.buttons id with prev_state := btnState } } := by
    unfold handleInput
    simp only [h0, if_false, hne, ne_eq, not_false_eq_true, if_true]
  rw [e]
  refine ⟨rfl, ?_, ?_, ?_, ?_, ?_, ?_, rfl, rfl, rfl, rfl⟩
  · simp [upd_same]
  · simp [upd_same]
  · simp [upd_same]
  · simp [upd_same]
  · simp [upd_same]
  · intro k hk
    simp [upd_other _ _ _ _ hk]

/-- The branch of the rising edge for a button that is not fading. -/
theorem handlePress_not_fading (s : State) (id now : Nat) (ts : List Int)
    (hfade : (s.buttons id).fading = false)
    (hlen : ts.length = (s.buttons id).l_channels.length) :
    handlePress s id HIGH now ts
      = (switchesUp now (s.buttons id).sw_channels
          { s with
              buttons := upd s.buttons id { s.buttons id with last_state := HIGH
                                                              start_time := now }
              l_channels := fun k => if k ∈ (s.buttons id).l_channels then
                (pressLight false (decide (PULSE_TIME > subULong now (s.buttons id).stop_time))
                  (s.l_channels k) 0).1
                else s.l_channels k },
         (s.buttons id).l_channels.map (fun k =>
            (pressLight false (decide (PULSE_TIME > subULong now (s.buttons id).stop_time))
              (s.l_channels k) 0).2)) := by
  unfold handlePress
  simp only [hfade, Bool.false_eq_true, false_and, if_false]
  rw [forLights_pressLight _ _ _ _ hlen]
  rfl

/-- The state after `handleInput` on an accepted rising edge of a button that is
not fading, field by field. -/
theorem handleInput_press_state (s : State) (id now : Nat)
    (hown : 0 < (s.buttons id).nr_l_channels + (s.buttons id).nr_sw_channels)
    (hprev : (s.buttons id).prev_state = HIGH)
    (hgate : STEP_TIME ≤ subULong now (s.buttons id).last_change)
    (hlast : (s.buttons id).last_state ≠ HIGH)
    (hfade : (s.buttons id).fading = false) :
    (handleInput s id HIGH now).l_channels
        = (fun k => if k ∈ (s.buttons id).l_channels then
            (applyTarget now (pressLight false
                (decide (PULSE_TIME > subULong now (s.buttons id).stop_time)) (s.l_channels k) 0).1
              (pressLight false
                (decide (PULSE_TIME > subULong now (s.buttons id).stop_time)) (s.l_channels k) 0).2).1
          else s.l_channels k)
    ∧ (handleInput s id HIGH now).buttons
        = upd s.buttons id { s.buttons id with last_state := HIGH
                                               start_time := now
                                               prev_state := HIGH }
    ∧ (handleInput s id HIGH now).sw_channels
        = (switchesUp now (s.buttons id).sw_channels s).sw_channels
    ∧ (handleInput s id HIGH now).queued_sw_channels
        = (switchesUp now (s.buttons id).sw_channels s).queued_sw_channels
    ∧ (handleInput s id HIGH now).hw = s.hw := by
  have h0 : ¬ (0 = (s.buttons id).nr_l_channels ∧ 0 = (s.buttons id).nr_sw_channels) := by
    omega
  have h1 : ¬ (HIGH ≠ (s.buttons id).prev_state) := by simp [hprev]
  have h2 : ¬ (STEP_TIME > subULong now (s.buttons id).last_change) := by omega
  have hp := handlePress_not_fading s id now
    ((s.buttons id).l_channels.map (fun c => (s.l_channels c).target_light_value))
    hfade (by simp)
  unfold handleInput
  simp only [h0, h1, h2, if_false, hlast, ne_eq, not_false_eq_true, if_true, hp]
  obtain ⟨f1, f2, f3⟩ := switchesUp_frame now (s.buttons id).sw_channels
    { s with
        buttons := upd s.buttons id { s.buttons id with last_state := HIGH
                                                        start_time := now }
        l_channels := fun k => if k ∈ (s.buttons id).l_channels then
          (pressLight false (decide (PULSE_TIME > subULong now (s.buttons id).stop_time))
            (s.l_channels k) 0).1
          else s.l_channels k }
  obtain ⟨g1, g2⟩ := switchesUp_congr now (s.buttons id).sw_channels
    { s with
        buttons := upd s.buttons id { s.buttons id with last_state := HIGH
                                                        start_time := now }
        l_channels := fun k => if k ∈ (s.buttons id).l_channels then
          (pressLight false (decide (PULSE_TIME > subULong now (s.buttons id).stop_time))
            (s.l_channels k) 0).1
          else s.l_channels k } s rfl rfl
  refine ⟨?_, ?_, g1, g2, f3⟩
  · simp only [f1, f2, upd_same]
    rw [forLights_applyTarget]
    funext k
    by_cases hk : k ∈ (s.buttons id).l_channels
    · simp [hk]
    · simp [hk]
  · simp only [f2, upd_same]
    funext k
    by_cases hk : k = id
    · subst hk
      simp [upd_same]
    · simp [upd_other _ _ _ _ hk]

theorem constrain_id (x : Int) (h0 : 0 ≤ x) (h1 : x ≤ MAX_LIGHT_VALUE) :
    constrain x 0 MAX_LIGHT_VALUE = x := by
  unfold constrain
  have a : ¬ x < 0 := by omega
  have b : ¬ x > MAX_LIGHT_VALUE := by omega
  simp [a, b]

/-- C9. An accepted rising edge (sample `HIGH` equal to the previous sample, rate gate
passed, `last_state` `LOW`) of a button that is not fading.  An owned light channel
whose current value is 0 or 255 gets its `last_light_value`, constrained to 0..255, as
target: that is `last_light_value` itself in a state of the data model, where
`0 <= last_light_value <= 255`.  Any other owned channel gets its current value as
`last_light_value` and 0 as target.  `start_time` of the button becomes `now`, and the
switch channels and the queue are what the Up transition, applied to the owned switch
channels in order, makes of them. -/
theorem handleInput_rising_edge (s : State) (id now : Nat)
    (hown : 0 < (s.buttons id).nr_l_channels + (s.buttons id).nr_sw_channels)
    (hprev : (s.buttons id).prev_state = HIGH)
    (hgate : STEP_TIME ≤ subULong now (s.buttons id).last_change)
    (hlast : (s.buttons id).last_state = LOW)
    (hfade : (s.buttons id).fading = false) :
    (∀ c ∈ (s.buttons id).l_channels,
        ((s.l_channels c).light_value = 0 ∨ (s.l_channels c).light_value = MAX_LIGHT_VALUE →
          ((handleInput s id HIGH now).l_channels c).target_light_value
              = constrain (s.l_channels c).last_light_value 0 MAX_LIGHT_VALUE
          ∧ (0 ≤ (s.l_channels c).last_light_value
              ∧ (s.l_channels c).last_light_value ≤ MAX_LIGHT_VALUE →
            ((handleInput s id HIGH now).l_channels c).target_light_value
              = (s.l_channels c).last_light_value)
          ∧ ((handleInput s id HIGH now).l_channels c).last_light_value
              = (s.l_channels c).last_light_value)
        ∧ (¬ ((s.l_channels c).light_value = 0
              ∨ (s.l_channels c).light_value = MAX_LIGHT_VALUE) →
          ((handleInput s id HIGH now).l_channels c).last_light_value
              = (s.l_channels c).light_value
          ∧ ((handleInput s id HIGH now).l_channels c).target_light_value = 0))
    ∧ ((handleInput s id HIGH now).buttons id).start_time = now
    ∧ ((handleInput s id HIGH now).buttons id).last_state = HIGH
    ∧ (handleInput s id HIGH now).sw_channels
        = (switchesUp now (s.buttons id).sw_channels s).sw_channels
    ∧ (handleInput s id HIGH now).queued_sw_channels
        = (switchesUp now (s.buttons id).sw_channels s).queued_sw_channels := by
  have hl : (s.buttons id).last_state ≠ HIGH := by simp [hlast]
  obtain ⟨e1, e2, e3, e4, _⟩ := handleInput_press_state s id now hown hprev hgate hl hfade
  refine ⟨?_, ?_, ?_, e3, e4⟩
  · intro c hc
    rw [e1]
    simp only [hc, if_true]
    refine ⟨?_, ?_⟩
    · intro hv
      have hp : pressLight false (decide (PULSE_TIME > subULong now (s.buttons id).stop_time))
          (s.l_channels c) 0 = (s.l_channels c, (s.l_channels c).last_light_value) := by
        simp [pressLight, hv]
      rw [hp, applyTarget_target, (applyTarget_frame _ _ _).2.1]
      exact ⟨rfl, fun hi => constrain_id _ hi.1 hi.2, rfl⟩
    · intro hv
      have hp : pressLight false (decide (PULSE_TIME > subULong now (s.buttons id).stop_time))
          (s.l_channels c) 0
            = ({ s.l_channels c with last_light_value := (s.l_channels c).light_value }, 0) := by
        simp [pressLight, hv]
      rw [hp, applyTarget_target, (applyTarget_frame _ _ _).2.1]
      exact ⟨rfl, by simp [constrain]⟩
  · rw [e2]
    simp [upd_same]
  · rw [e2]
    simp [upd_same]

/-- The state after `handleInput` on an accepted falling edge, field by field. -/
theorem handleInput_release_state (s : State) (id now : Nat)
    (hown : 0 < (s.buttons id).nr_l_channels + (s.buttons id).nr_sw_channels)
    (hprev : (s.buttons id).prev_state = LOW)
    (hgate : STEP_TIME ≤ subULong now (s.buttons id).last_change)
    (hlast : (s.buttons id).last_state ≠ LOW) :
    (handleInput s id LOW now).l_channels
        = (fun k => if k ∈ (s.buttons id).l_channels then
            (applyTarget now (s.l_channels k)
              (if 2 * PULSE_TIME > subULong now (s.buttons id).stop_time then
                (if (s.l_channels k).target_light_value = MAX_LIGHT_VALUE then 0
                 else MAX_LIGHT_VALUE)
               else (s.l_channels k).target_light_value)).1
          else s.l_channels k)
    ∧ (handleInput s id LOW now).buttons
        = upd s.buttons id { s.buttons id with last_state := LOW
                                               stop_time := now
                                               prev_state := LOW }
    ∧ (handleInput s id LOW now).sw_channels
        = (switchesDown (s.buttons id).sw_channels s).sw_channels
    ∧ (handleInput s id LOW now).queued_sw_channels = s.queued_sw_channels
    ∧ (handleInput s id LOW now).hw = s.hw := by
  have h0 : ¬ (0 = (s.buttons id).nr_l_channels ∧ 0 = (s.buttons id).nr_sw_channels) := by
    omega
  have h1 : ¬ (LOW ≠ (s.buttons id).prev_state) := by simp [hprev]
  have h2 : ¬ (STEP_TIME > subULong now (s.buttons id).last_change) := by omega
  have h3 : ¬ (HIGH = LOW) := by decide
  have hr : handleRelease s id LOW now
      ((s.buttons id).l_channels.map (fun c => (s.l_channels c).target_light_value))
      = (switchesDown (s.buttons id).sw_channels
          { s with buttons := upd s.buttons id { s.buttons id with last_state := LOW
                                                                   stop_time := now } },
         (s.buttons id).l_channels.map (fun k =>
            if 2 * PULSE_TIME > subULong now (s.buttons id).stop_time then
              (if (s.l_channels k).target_light_value = MAX_LIGHT_VALUE then 0
               else MAX_LIGHT_VALUE)
            else (s.l_channels k).target_light_value)) := by
    unfold handleRelease
    by_cases hd : 2 * PULSE_TIME > subULong now (s.buttons id).stop_time
    · simp only [hd, decide_True, if_true]
      rw [forLights_doublePulseLight]
      rfl
    · simp only [hd, decide_False, Bool.false_eq_true, if_false]
      rfl
  unfold handleInput
  simp only [h0, h1, h2, h3, if_false, hlast, ne_eq, not_false_eq_true, if_true, hr]
  obtain ⟨f1, f2, f3, f4⟩ := switchesDown_frame (s.buttons id).sw_channels
    { s with buttons := upd s.buttons id { s.buttons id with last_state := LOW
                                                             stop_time := now } }
  have g1 := switchesDown_congr (s.buttons id).sw_channels
    { s with buttons := upd s.buttons id { s.buttons id with last_state := LOW
                                                             stop_time := now } } s rfl
  refine ⟨?_, ?_, g1, f4, f3⟩
  · simp only [f1, f2, upd_same]
    rw [forLights_applyTarget]
  · simp only [f2, upd_same]
    funext k
    by_cases hk : k = id
    · subst hk
      simp [upd_same]
    · simp [upd_other _ _ _ _ hk]

/-- C10. An accepted falling edge (sample `LOW` equal to the previous sample, rate gate
passed, `last_state` `HIGH`) at time `now`, with `p` the `stop_time` of the button
before the call.  When `now - p < 2*PULSE_TIME` every owned light channel whose target
was 255 gets target 0 and every other owned channel gets target 255.  When
`now - p >= 2*PULSE_TIME` no light channel changes, in a state of the data model, where
the target of every owned light channel is within 0..255.  In both cases `stop_time`
becomes `now` and the switch channels are what the Down transition, applied to the
owned switch channels in order, makes of them; the queue is what the Down transitions
leave, the queue before. -/
theorem handleInput_falling_edge (s : State) (id now : Nat)
    (hown : 0 < (s.buttons id).nr_l_channels + (s.buttons id).nr_sw_channels)
    (hprev : (s.buttons id).prev_state = LOW)
    (hgate : STEP_TIME ≤ subULong now (s.buttons id).last_change)
    (hlast : (s.buttons id).last_state = HIGH) :
    (subULong now (s.buttons id).stop_time < 2 * PULSE_TIME →
        ∀ c ∈ (s.buttons id).l_channels,
          ((handleInput s id LOW now).l_channels c).target_light_value
            = if (s.l_channels c).target_light_value = MAX_LIGHT_VALUE then 0
              else MAX_LIGHT_VALUE)
    ∧ (2 * PULSE_TIME ≤ subULong now (s.buttons id).stop_time →
        (∀ c ∈ (s.buttons id).l_channels,
          0 ≤ (s.l_channels c).target_light_value
          ∧ (s.l_channels c).target_light_value ≤ MAX_LIGHT_VALUE) →
        (handleInput s id LOW now).l_channels = s.l_channels)
    ∧ ((handleInput s id LOW now).buttons id).stop_time = now
    ∧ ((handleInput s id LOW now).buttons id).last_state = LOW
    ∧ (handleInput s id LOW now).sw_channels
        = (switchesDown (s.buttons id).sw_channels s).sw_channels
    ∧ (handleInput s id LOW now).queued_sw_channels
        = (switchesDown (s.buttons id).sw_channels s).queued_sw_channels
    ∧ (handleInput s id LOW now).queued_sw_channels = s.queued_sw_channels := by
  have hl : (s.buttons id).last_state ≠ LOW := by simp [hlast]
  obtain ⟨e1, e2, e3, e4, _⟩ := handleInput_release_state s id now hown hprev hgate hl
  refine ⟨?_, ?_, ?_, ?_, e3, ?_, e4⟩
  · intro hd c hc
    have hd2 : 2 * PULSE_TIME > subULong now (s.buttons id).stop_time := hd
    rw [e1]
    simp only [hc, if_true, hd2, applyTarget_target]
    by_cases hm : (s.l_channels c).target_light_value = MAX_LIGHT_VALUE
    · simp [hm, constrain]
    · simp [hm, constrain]
  · intro hd hinv
    have hd2 : ¬ (2 * PULSE_TIME > subULong now (s.buttons id).stop_time) := by omega
    rw [e1]
    funext k
    by_cases hk : k ∈ (s.buttons id).l_channels
    · obtain ⟨i0, i1⟩ := hinv k hk
      simp only [hk, if_true, hd2, if_false]
      simp [applyTarget, constrain_id _ i0 i1]
    · simp [hk]
  · rw [e2]
    simp [upd_same]
  · rw [e2]
    simp [upd_same]
  · rw [e4, (switchesDown_frame _ _).2.2.2]

/-! ## The drain `processSwitchQueue` -/

/-- The body of the scan changes `target_state` only. -/
theorem scanSwitch_frame (now : Nat) (c : SwitchChannel) :
    (scanSwitch now c).1 = { c with target_state := (scanSwitch now c).1.target_state } := by
  obtain ⟨pin, st, tg, ty, lsc, ltc, d, sd, b, hb, ao⟩ := c
  cases ty <;> simp only [scanSwitch] <;> repeat' split
  all_goals rfl

theorem scanSwitch_idem (now : Nat) (c : SwitchChannel) :
    scanSwitch now (scanSwitch now c).1 = scanSwitch now c := by
  obtain ⟨pin, st, tg, ty, lsc, ltc, d, sd, b, hb, ao⟩ := c
  cases ty <;> simp only [scanSwitch] <;> repeat' split
  all_goals simp_all

/-- The switch channels after the scan loop: every queued channel went through the
body of the scan, the others are as before. -/
theorem scanQueue_sw (now : Nat) (queue : List Nat) :
    ∀ (i : Nat) (sw : Nat → SwitchChannel) (remove : List Nat),
      (scanQueue now queue i sw remove).1
        = fun k => if k ∈ queue then (scanSwitch now (sw k)).1 else sw k := by
  induction queue with
  | nil =>
    intro i sw remove
    simp [scanQueue]
  | cons c rest ih =>
    intro i sw remove
    simp only [scanQueue, ih]
    funext k
    by_cases e : k = c
    · subst e
      simp [upd_same, scanSwitch_idem]
    · simp [e, upd_other _ _ _ _ e]

/-- The switch channels after `processSwitchQueue`. -/
theorem processSwitchQueue_sw (s : State) (now : Nat) (tmp : Int → Nat) (c : Nat) :
    (processSwitchQueue s now tmp).sw_channels c
      = if c ∈ s.queued_sw_channels then (scanSwitch now (s.sw_channels c)).1
        else s.sw_channels c := by
  simp [processSwitchQueue, scanQueue_sw]

/-- A threshold that fits the 16 bit `int` is computed exactly. -/
theorem toULong_wrapInt (x : Int) (h0 : 0 ≤ x) (h1 : x ≤ 32767) :
    toULong (wrapInt x) = x.toNat := by
  unfold toULong wrapInt
  have e1 : (x + 32768) % 65536 = x + 32768 := Int.emod_eq_of_lt (by omega) (by omega)
  rw [e1]
  have e2 : (x + 32768 - 32768) % 4294967296 = x := by
    rw [Int.add_sub_cancel]
    exact Int.emod_eq_of_lt h0 (by omega)
  rw [e2]

/-- The drain on the thresholds that fit the 16 bit `int`: with `elapsed` the
difference `now - last_target_change`, a queued DelayedStop channel past
`duration*1000` gets target `LOW`, a queued DelayedStart channel past
`start_delay*1000` gets `HIGH`, a queued DelayedStartStop channel past
`(start_delay+duration)*1000` gets `LOW` and otherwise past `start_delay*1000` gets
`HIGH`; in every other case the target is unchanged. -/
theorem processSwitchQueue_target_in_range (s : State) (now : Nat) (tmp : Int → Nat)
    (c : Nat) (hq : c ∈ s.queued_sw_channels)
    (hd : 0 ≤ (s.sw_channels c).duration) (hs : 0 ≤ (s.sw_channels c).start_delay)
    (hr : ((s.sw_channels c).duration + (s.sw_channels c).start_delay) * 1000 ≤ 32767) :
    ((processSwitchQueue s now tmp).sw_channels c).target_state
      = (match (s.sw_channels c).switch_type with
         | .SWITCH_TYPE_DELAYED_STOP =>
           if subULong now (s.sw_channels c).last_target_change
               > ((s.sw_channels c).duration * 1000).toNat then LOW
           else (s.sw_channels c).target_state
         | .SWITCH_TYPE_DELAYED_START =>
           if subULong now (s.sw_channels c).last_target_change
               > ((s.sw_channels c).start_delay * 1000).toNat then HIGH
           else (s.sw_channels c).target_state
         | .SWITCH_TYPE_DELAYED_START_STOP =>
           if subULong now (s.sw_channels c).last_target_change
               > (((s.sw_channels c).start_delay + (s.sw_channels c).duration) * 1000).toNat
           then LOW
           else if subULong now (s.sw_channels c).last_target_change
               > ((s.sw_channels c).start_delay * 1000).toNat then HIGH
           else (s.sw_channels c).target_state
         | _ => (s.sw_channels c).target_state) := by
  rw [processSwitchQueue_sw]
  simp only [hq, if_true]
  have t1 : toULong (wrapInt ((s.sw_channels c).duration * 1000))
      = ((s.sw_channels c).duration * 1000).toNat :=
    toULong_wrapInt _ (by omega) (by omega)
  have t2 : toULong (wrapInt ((s.sw_channels c).start_delay * 1000))
      = ((s.sw_channels c).start_delay * 1000).toNat :=
    toULong_wrapInt _ (by omega) (by omega)
  have w : wrapInt ((s.sw_channels c).duration + (s.sw_channels c).start_delay)
      = (s.sw_channels c).duration + (s.sw_channels c).start_delay := by
    unfold wrapInt
    have e1 : ((s.sw_channels c).duration + (s.sw_channels c).start_delay + 32768) % 65536
        = (s.sw_channels c).duration + (s.sw_channels c).start_delay + 32768 :=
      Int.emod_eq_of_lt (by omega) (by omega)
    rw [e1]
    omega
  have t3 : toULong (wrapInt (wrapInt ((s.sw_channels c).duration
        + (s.sw_channels c).start_delay) * 1000))
      = (((s.sw_channels c).start_delay + (s.sw_channels c).duration) * 1000).toNat := by
    rw [w, toULong_wrapInt _ (by omega) (by omega), Int.add_comm]
  unfold scanSwitch
  cases h : (s.sw_channels c).switch_type <;> simp only [t1, t2, t3] <;> repeat' split
  all_goals rfl

/-- C2. The drain on a threshold beyond the 16 bit `int`.  Switch channel 1, DelayedStop
with duration 60 (its configured duration), switched on and queued at time 0, is
drained at time 60001: `elapsed = 60001 > 60*1000`, and a DelayedStop channel with
`elapsed > duration*1000` is to get target `LOW`.  `processSwitchQueue` leaves
`target_state` at `HIGH` and the channel queued: the product `duration * 1000` is
computed in `int`, gives -5536, and is compared as the `unsigned long` 4294961760. -/
theorem processSwitchQueue_delayedStop_60_stays_on :
    (stateDelayedStop60.sw_channels 1).switch_type = .SWITCH_TYPE_DELAYED_STOP
    ∧ (stateDelayedStop60.sw_channels 1).duration = 60
    ∧ (stateDelayedStop60.sw_channels 1).target_state = HIGH
    ∧ stateDelayedStop60.queued_sw_channels = [1]
    ∧ subULong 60001 (stateDelayedStop60.sw_channels 1).last_target_change = 60001
    ∧ (60001 : Int) > (stateDelayedStop60.sw_channels 1).duration * 1000
    ∧ toULong (wrapInt ((stateDelayedStop60.sw_channels 1).duration * 1000)) = 4294961760
    ∧ ∀ tmp : Int → Nat,
        ((processSwitchQueue stateDelayedStop60 60001 tmp).sw_channels 1).target_state = HIGH
        ∧ (processSwitchQueue stateDelayedStop60 60001 tmp).queued_sw_channels = [1] := by
  refine ⟨by decide, by decide, by decide, by decide, by decide, by decide, by decide, ?_⟩
  intro tmp
  exact ⟨rfl, rfl⟩

/-- C3. The queue after `processSwitchQueue` against the stable removal of the marked
entries.  With the channels 0, 1, 2 queued in this order and the entries 1 and 2
(queue indices 1, 2) expiring in the same call, stable removal leaves the queue `[0]`;
`processSwitchQueue` leaves `[1]`, whatever the local array `tmp` held: the pending
channel 0 is lost and the expired channel 1 stays queued.  With the channels 0, 1
queued and the entry 0 expiring, stable removal leaves `[1]`; the queue afterwards is
the uninitialised cell `tmp[0]`. -/
theorem processSwitchQueue_compaction_not_stable :
    stateThreeQueued.queued_sw_channels = [0, 1, 2]
    ∧ (scanQueue 10001 stateThreeQueued.queued_sw_channels 0
        stateThreeQueued.sw_channels []).2 = [1, 2]
    ∧ stableRemoval stateThreeQueued.queued_sw_channels 0 [1, 2] = [0]
    ∧ (∀ tmp : Int → Nat,
        (processSwitchQueue stateThreeQueued 10001 tmp).queued_sw_channels = [1])
    ∧ stateTwoQueued.queued_sw_channels = [0, 1]
    ∧ (scanQueue 10001 stateTwoQueued.queued_sw_channels 0
        stateTwoQueued.sw_channels []).2 = [0]
    ∧ stableRemoval stateTwoQueued.queued_sw_channels 0 [0] = [1]
    ∧ (∀ tmp : Int → Nat,
        (processSwitchQueue stateTwoQueued 10001 tmp).queued_sw_channels = [tmp 0]) := by
  refine ⟨by decide, by decide, by decide, ?_, by decide, by decide, by decide, ?_⟩
  · intro tmp
    rfl
  · intro tmp
    rfl

/-! ## The properties at concrete inputs -/

/-- The request `setSwitchState( 3, 1, 5, 10 )` after start-up makes channel 3 a
DelayedStartStop channel and queues it. -/
theorem setSwitchState_effect_witness :
    (0 : Int) ≤ 5 ∧ (0 : Int) ≤ 10
    ∧ ((setSwitchState (setupDimmer 0) 3 1 5 10 100).sw_channels 3).switch_type
        = .SWITCH_TYPE_DELAYED_START_STOP
    ∧ setSwitchState (setupDimmer 0) 3 1 5 10 100
        = processSwitchUp
            { setupDimmer 0 with sw_channels := (upd (setupDimmer 0).sw_channels 3
                (derivedChannel ((setupDimmer 0).sw_channels 3) 5 10)) } 3 100 :=
  ⟨by decide, by decide,
    (setSwitchState_effect (setupDimmer 0) 3 1 5 10 100 (by decide) (by decide)).2.2,
    (setSwitchState_effect (setupDimmer 0) 3 1 5 10 100 (by decide) (by decide)).1
      (by decide)⟩

/-- The first `HIGH` sample of button 0 after start-up is stored and nothing else
happens: the logical state stays `LOW`. -/
theorem handleInput_debounce_witness :
    0 < ((setupDimmer 0).buttons 0).nr_l_channels + ((setupDimmer 0).buttons 0).nr_sw_channels
    ∧ HIGH ≠ ((setupDimmer 0).buttons 0).prev_state
    ∧ ((handleInput (setupDimmer 0) 0 HIGH 100).buttons 0).prev_state = HIGH
    ∧ ((handleInput (setupDimmer 0) 0 HIGH 100).buttons 0).last_state = LOW :=
  ⟨by decide, by decide,
    (handleInput_debounce (setupDimmer 0) 0 HIGH 100 (by decide) (by decide)).2.1,
    (handleInput_debounce (setupDimmer 0) 0 HIGH 100 (by decide) (by decide)).2.2.1⟩

/-- A press of the example button at time 1000: light channel 5, lit at 100, gets
target 0 and remembers 100; the DelayedStop channel 0 is queued. -/
theorem handleInput_rising_edge_witness :
    0 < ((exampleState HIGH LOW).buttons 0).nr_l_channels
          + ((exampleState HIGH LOW).buttons 0).nr_sw_channels
    ∧ ((exampleState HIGH LOW).buttons 0).prev_state = HIGH
    ∧ STEP_TIME ≤ subULong 1000 ((exampleState HIGH LOW).buttons 0).last_change
    ∧ ((exampleState HIGH LOW).buttons 0).last_state = LOW
    ∧ ((exampleState HIGH LOW).buttons 0).fading = false
    ∧ (((handleInput (exampleState HIGH LOW) 0 HIGH 1000).l_channels 5).last_light_value = 100
        ∧ ((handleInput (exampleState HIGH LOW) 0 HIGH 1000).l_channels 5).target_light_value = 0)
    ∧ ((handleInput (exampleState HIGH LOW) 0 HIGH 1000).buttons 0).start_time = 1000
    ∧ (handleInput (exampleState HIGH LOW) 0 HIGH 1000).queued_sw_channels = [0] :=
  ⟨by decide, by decide, by decide, by decide, by decide,
    ((handleInput_rising_edge (exampleState HIGH LOW) 0 1000 (by decide) (by decide)
      (by decide) (by decide) (by decide)).1 5 (by decide)).2 (by decide),
    (handleInput_rising_edge (exampleState HIGH LOW) 0 1000 (by decide) (by decide)
      (by decide) (by decide) (by decide)).2.1,
    (handleInput_rising_edge (exampleState HIGH LOW) 0 1000 (by decide) (by decide)
      (by decide) (by decide) (by decide)).2.2.2.2⟩

/-- A release of the example button at time 300, less than 500 ms after the release
before it (time 0): light channel 5, with target 100, gets target 255. -/
theorem handleInput_falling_edge_witness :
    0 < ((exampleState LOW HIGH).buttons 0).nr_l_channels
          + ((exampleState LOW HIGH).buttons 0).nr_sw_channels
    ∧ ((exampleState LOW HIGH).buttons 0).prev_state = LOW
    ∧ STEP_TIME ≤ subULong 300 ((exampleState LOW HIGH).buttons 0).last_change
    ∧ ((exampleState LOW HIGH).buttons 0).last_state = HIGH
    ∧ subULong 300 ((exampleState LOW HIGH).buttons 0).stop_time < 2 * PULSE_TIME
    ∧ ((handleInput (exampleState LOW HIGH) 0 LOW 300).l_channels 5).target_light_value = 255
    ∧ ((handleInput (exampleState LOW HIGH) 0 LOW 300).buttons 0).stop_time = 300 :=
  ⟨by decide, by decide, by decide, by decide, by decide,
    (handleInput_falling_edge (exampleState LOW HIGH) 0 300 (by decide) (by decide)
      (by decide) (by decide)).1 (by decide) 5 (by decide),
    (handleInput_falling_edge (exampleState LOW HIGH) 0 300 (by decide) (by decide)
      (by decide) (by decide)).2.2.1⟩

/-! ## Applying targets: `processSwitchTarget`, `processLightTarget` -/

/-- C13. A switch channel with `state == target_state` goes through `processSwitchTarget`
without a hardware write and with the whole state, `last_state_change` included,
unchanged; a light channel with `light_value == target_light_value` goes through
`processLightTarget` without a hardware write and with the whole state,
`last_value_change` included, unchanged. -/
theorem processTarget_idle (s : State) (id now : Nat) :
    ((s.sw_channels id).state = (s.sw_channels id).target_state →
        processSwitchTarget s id now = s
        ∧ (processSwitchTarget s id now).hw = s.hw
        ∧ ((processSwitchTarget s id now).sw_channels id).last_state_change
            = (s.sw_channels id).last_state_change)
    ∧ ((s.l_channels id).light_value = (s.l_channels id).target_light_value →
        processLightTarget s id now = s
        ∧ (processLightTarget s id now).hw = s.hw
        ∧ ((processLightTarget s id now).l_channels id).last_value_change
            = (s.l_channels id).last_value_change) := by
  refine ⟨?_, ?_⟩
  · intro h
    have e : processSwitchTarget s id now = s := by simp [processSwitchTarget, h]
    rw [e]
    exact ⟨rfl, rfl, rfl⟩
  · intro h
    have e : processLightTarget s id now = s := by simp [processLightTarget, h]
    rw [e]
    exact ⟨rfl, rfl, rfl⟩

/-! ## The direct request `setSwitchState( ch, 1, 0, 0 )` -/

/-- C15. `setSwitchState( ch, 1, 0, 0 )`, whatever the type, the target and the queue
membership of the channel before: `target_state` is `HIGH` afterwards, the queue and
`last_target_change` of every switch channel are unchanged, and the result is the Up
transition on the channel made a Pulse channel. -/
theorem setSwitchState_on_is_pulse_press (s : State) (ch now : Nat) :
    ((setSwitchState s ch 1 0 0 now).sw_channels ch).target_state = HIGH
    ∧ (setSwitchState s ch 1 0 0 now).queued_sw_channels = s.queued_sw_channels
    ∧ (setSwitchState s ch 1 0 0 now).queued_sw_channels_length = s.queued_sw_channels_length
    ∧ (∀ k, ((setSwitchState s ch 1 0 0 now).sw_channels k).last_target_change
          = (s.sw_channels k).last_target_change)
    ∧ ((setSwitchState s ch 1 0 0 now).sw_channels ch).switch_type = .SWITCH_TYPE_PULSE
    ∧ (∀ k, k ≠ ch → (setSwitchState s ch 1 0 0 now).sw_channels k = s.sw_channels k)
    ∧ setSwitchState s ch 1 0 0 now
        = processSwitchUp
            { s with sw_channels := (upd s.sw_channels ch
                { s.sw_channels ch with switch_type := .SWITCH_TYPE_PULSE
                                        start_delay := 0
                                        duration := 0 }) } ch now := by
  have e : setSwitchState s ch 1 0 0 now
      = { s with sw_channels := (upd s.sw_channels ch
            { s.sw_channels ch with switch_type := .SWITCH_TYPE_PULSE
                                    start_delay := 0
                                    duration := 0
                                    target_state := HIGH }) } := by
    simp [setSwitchState, processSwitchUp, upd_same, upd_idem]
  refine ⟨?_, ?_, ?_, ?_, ?_, ?_, ?_⟩
  · rw [e]
    simp [upd_same]
  · rw [e]
  · rw [e]
    rfl
  · intro k
    rw [e]
    by_cases hk : k = ch
    · subst hk
      simp [upd_same]
    · simp [upd_other _ _ _ _ hk]
  · rw [e]
    simp [upd_same]
  · intro k hk
    rw [e]
    simp [upd_other _ _ _ _ hk]
  · rw [e]
    simp [processSwitchUp, upd_same, upd_idem]

/-! ## A DelayedStop channel of 10 seconds -/

/-- The threshold of a duration of 10 seconds is computed exactly. -/
theorem threshold_10 : toULong (wrapInt (10 * 1000)) = 10000 := by decide

/-- C14. A DelayedStop channel `c` with duration 10 that is the only channel the queue
can hold.  The Up transition at time `t0` sets `target_state` to `HIGH` and leaves the
queue `[c]`.  A drain at time `t` with `t - t0 <= 10000` leaves the target `HIGH` and the
channel queued (the test of the drain is `elapsed > duration*1000`, so this includes
`t - t0 = 10000`); a drain with `t - t0 > 10000`, that is `t - t0 >= 10001`, sets the
target `LOW` and leaves the queue empty. -/
theorem delayedStop_10_drain (s : State) (c t0 t : Nat) (tmp : Int → Nat)
    (hty : (s.sw_channels c).switch_type = .SWITCH_TYPE_DELAYED_STOP)
    (hd : (s.sw_channels c).duration = 10)
    (hq : s.queued_sw_channels = [] ∨ s.queued_sw_channels = [c]) :
    ((processSwitchUp s c t0).sw_channels c).target_state = HIGH
    ∧ (processSwitchUp s c t0).queued_sw_channels = [c]
    ∧ (subULong t t0 ≤ 10000 →
        ((processSwitchQueue (processSwitchUp s c t0) t tmp).sw_channels c).target_state = HIGH
        ∧ (processSwitchQueue (processSwitchUp s c t0) t tmp).queued_sw_channels = [c])
    ∧ (10000 < subULong t t0 →
        ((processSwitchQueue (processSwitchUp s c t0) t tmp).sw_channels c).target_state = LOW
        ∧ (processSwitchQueue (processSwitchUp s c t0) t tmp).queued_sw_channels = []) := by
  have hsw : (processSwitchUp s c t0).sw_channels c
      = { s.sw_channels c with target_state := HIGH
                               last_target_change := t0 } := by
    simp [processSwitchUp, hty, queueSwitch_sw, upd_same]
  have hqu : (processSwitchUp s c t0).queued_sw_channels = [c] := by
    rcases hq with h | h <;> simp [processSwitchUp, hty, queueSwitch_queue, h]
  have hscan : scanSwitch t ((processSwitchUp s c t0).sw_channels c)
      = if subULong t t0 > 10000 then
          ({ (processSwitchUp s c t0).sw_channels c with target_state := LOW }, true)
        else ((processSwitchUp s c t0).sw_channels c, false) := by
    rw [hsw]
    simp only [scanSwitch, hty, hd, threshold_10]
  refine ⟨by rw [hsw], hqu, ?_, ?_⟩
  · intro h
    have h2 : ¬ subULong t t0 > 10000 := by omega
    simp only [processSwitchQueue, hqu, scanQueue, hscan, h2, if_false, compactQueue]
    simp [upd_same, hsw]
  · intro h
    have h2 : subULong t t0 > 10000 := h
    simp only [processSwitchQueue, hqu, scanQueue, hscan, h2, if_true, compactQueue]
    simp [upd_same, compactFor, compactWhile]

/-- The drain at elapsed time 10000, against C14 as stated.  Switch channel 0 (DelayedStop, duration 10) gets the Up
transition at time 0 and is the only queued channel; the drain at time 10000, where
`t - t0 >= 10000`, leaves `target_state` at `HIGH` and the channel queued. -/
theorem delayedStop_10_at_10000 :
    (stateDelayedStop10.sw_channels 0).switch_type = .SWITCH_TYPE_DELAYED_STOP
    ∧ (stateDelayedStop10.sw_channels 0).duration = 10
    ∧ (stateDelayedStop10.sw_channels 0).target_state = HIGH
    ∧ stateDelayedStop10.queued_sw_channels = [0]
    ∧ subULong 10000 (stateDelayedStop10.sw_channels 0).last_target_change ≥ 10000
    ∧ (∀ tmp : Int → Nat,
        ((processSwitchQueue stateDelayedStop10 10000 tmp).sw_channels 0).target_state = HIGH
        ∧ (processSwitchQueue stateDelayedStop10 10000 tmp).queued_sw_channels = [0]) := by
  refine ⟨by decide, by decide, by decide, by decide, by decide, ?_⟩
  intro tmp
  exact ⟨rfl, rfl⟩

/-- The Up transition of switch channel 0 after start-up, drained 10001 ms later: the
target is `LOW` and the queue is empty. -/
theorem delayedStop_10_drain_witness :
    ((setupDimmer 0).sw_channels 0).switch_type = .SWITCH_TYPE_DELAYED_STOP
    ∧ ((setupDimmer 0).sw_channels 0).duration = 10
    ∧ (setupDimmer 0).queued_sw_channels = []
    ∧ 10000 < subULong 10001 0
    ∧ ((processSwitchQueue (processSwitchUp (setupDimmer 0) 0 0) 10001
          (fun _ => 0)).sw_channels 0).target_state = LOW
    ∧ (processSwitchQueue (processSwitchUp (setupDimmer 0) 0 0) 10001
          (fun _ => 0)).queued_sw_channels = [] :=
  ⟨by decide, by decide, by decide, by decide,
    ((delayedStop_10_drain (setupDimmer 0) 0 0 10001 (fun _ => 0) (by decide) (by decide)
      (Or.inl (by decide))).2.2.2 (by decide)).1,
    ((delayedStop_10_drain (setupDimmer 0) 0 0 10001 (fun _ => 0) (by decide) (by decide)
      (Or.inl (by decide))).2.2.2 (by decide)).2⟩

/-! ## The command layer -/

/-- The guard of `setSwitchCmd`: a call is made exactly for a channel in 0..9, a state
0 or 1 and delays in 0..999, with the parsed values as arguments. -/
theorem setSwitchCmd_guard (channel state start_delay duration : Int) :
    (0 ≤ channel ∧ channel ≤ (NR_SWITCH_CHANNELS : Int) - 1 ∧ (state = 0 ∨ state = 1)
        ∧ 0 ≤ start_delay ∧ start_delay ≤ 999 ∧ 0 ≤ duration ∧ duration ≤ 999 →
      setSwitchCmd channel state start_delay duration
        = some (.setSwitchState channel state start_delay duration))
    ∧ (¬ (0 ≤ channel ∧ channel ≤ (NR_SWITCH_CHANNELS : Int) - 1 ∧ (state = 0 ∨ state = 1)
        ∧ 0 ≤ start_delay ∧ start_delay ≤ 999 ∧ 0 ≤ duration ∧ duration ≤ 999) →
      setSwitchCmd channel state start_delay duration = none) := by
  have e : (0 ≤ channel ∧ 9 ≥ channel ∧ 0 ≤ state ∧ 1 ≥ state
      ∧ 0 ≤ start_delay ∧ 999 ≥ start_delay ∧ 0 ≤ duration ∧ 999 ≥ duration)
      ↔ (0 ≤ channel ∧ channel ≤ (NR_SWITCH_CHANNELS : Int) - 1 ∧ (state = 0 ∨ state = 1)
        ∧ 0 ≤ start_delay ∧ start_delay ≤ 999 ∧ 0 ≤ duration ∧ duration ≤ 999) := by
    simp only [NR_SWITCH_CHANNELS]
    constructor
    · rintro ⟨a, b, c, d, e, f, g, h⟩
      exact ⟨a, by omega, by omega, e, f, g, h⟩
    · rintro ⟨a, b, c, e, f, g, h⟩
      exact ⟨a, by omega, by omega, by omega, e, f, g, h⟩
  refine ⟨?_, ?_⟩
  · intro h
    unfold setSwitchCmd
    rw [if_pos (e.mpr h)]
  · intro h
    unfold setSwitchCmd
    rw [if_neg (fun x => h (e.mp x))]

/-- The guard of `setLightCmd`: a call is made exactly for a channel in 0..12 and a
value in 0..255. -/
theorem setLightCmd_guard (channel value speedFactor : Int) :
    (0 ≤ channel ∧ channel ≤ (NR_LIGHT_CHANNELS : Int) ∧ 0 ≤ value ∧ value ≤ 255 →
      setLightCmd channel value speedFactor
        = some (.setLightTargetValue channel value speedFactor))
    ∧ (¬ (0 ≤ channel ∧ channel ≤ (NR_LIGHT_CHANNELS : Int) ∧ 0 ≤ value ∧ value ≤ 255) →
      setLightCmd channel value speedFactor = none) := by
  refine ⟨?_, ?_⟩
  · rintro ⟨a, b, c, d⟩
    have h : 0 ≤ channel ∧ 12 ≥ channel ∧ 0 ≤ value ∧ 255 ≥ value :=
      ⟨a, by simpa using b, c, d⟩
    unfold setLightCmd
    rw [if_pos h]
  · intro h
    have h2 : ¬ (0 ≤ channel ∧ 12 ≥ channel ∧ 0 ≤ value ∧ 255 ≥ value) := by
      rintro ⟨a, b, c, d⟩
      exact h ⟨a, by simpa using b, c, d⟩
    unfold setLightCmd
    rw [if_neg h2]

/-- C20. The request "light channel 12, value 100, speed 5": channel 12 is not one of
the channels 0..`NR_LIGHT_CHANNELS-1`, yet `setLightCmd` calls
`setLightTargetValue( 12, 100, 5 )`, and the call writes the cell behind the last light
channel.  The same request for a switch, channel 10, is dropped by `setSwitchCmd`. -/
theorem setLightCmd_channel_12_not_dropped :
    ¬ ((12 : Int) ≤ (NR_LIGHT_CHANNELS : Int) - 1)
    ∧ setLightCmd 12 100 5 = some (.setLightTargetValue 12 100 5)
    ∧ ((execCall (setupDimmer 0) 0 (setLightCmd 12 100 5)).l_channels 12).target_light_value
        = 100
    ∧ ((setupDimmer 0).l_channels 12).target_light_value = 0
    ∧ setLightCmd 13 100 5 = none
    ∧ setSwitchCmd 10 1 0 0 = none := by
  refine ⟨by decide, by decide, by decide, by decide, by decide, by decide⟩

/-! ## Runs of the system at concrete inputs -/

/-- C19. Button 0 after start-up at time 0: the press is accepted at time 1001
(`last_state` becomes `HIGH`), and `last_change` is still the time of the start-up.  The
call at time 1003, 2 ms after the accepted change, is not stopped at the rate gate: it
accepts the release, `last_state` becomes `LOW` and `stop_time` becomes 1003. -/
theorem handleInput_gate_open_after_change :
    ((handleInputs (setupDimmer 0) 0 [(HIGH, 1000)]).buttons 0).last_state = LOW
    ∧ ((handleInputs (setupDimmer 0) 0 [(HIGH, 1000), (HIGH, 1001)]).buttons 0).last_state = HIGH
    ∧ ((handleInputs (setupDimmer 0) 0 [(HIGH, 1000), (HIGH, 1001)]).buttons 0).last_change = 0
    ∧ ((handleInputs (setupDimmer 0) 0 [(HIGH, 1000), (HIGH, 1001)]).buttons 0).stop_time = 0
    ∧ subULong 1003 1001 < STEP_TIME
    ∧ ((handleInputs (setupDimmer 0) 0
          [(HIGH, 1000), (HIGH, 1001), (LOW, 1002), (LOW, 1003)]).buttons 0).last_state = LOW
    ∧ ((handleInputs (setupDimmer 0) 0
          [(HIGH, 1000), (HIGH, 1001), (LOW, 1002), (LOW, 1003)]).buttons 0).stop_time = 1003 := by
  refine ⟨by decide!, by decide!, by decide!, by decide!, by decide!, by decide!, by decide!⟩

/-- C11. Button 0 held from start-up at time 0: the press is accepted at time 20, the
hold at time 21 starts the fade and moves the target of light channel 5 from 0 to 1
(`last_target_change` becomes 21), and the hold at time 22, 1 ms later, moves it to 2:
`now - 40` is computed in `unsigned long` and is 4294967278 at time 22, so the stamp 21
counts as older than `2*STEP_TIME`. -/
theorem handleInput_fade_twice_within_step :
    ((handleInputs (setupDimmer 0) 0 [(HIGH, 1), (HIGH, 20)]).buttons 0).last_state = HIGH
    ∧ ((handleInputs (setupDimmer 0) 0 [(HIGH, 1), (HIGH, 20)]).l_channels 5).target_light_value = 0
    ∧ ((handleInputs (setupDimmer 0) 0
          [(HIGH, 1), (HIGH, 20), (HIGH, 21)]).buttons 0).fading = true
    ∧ ((handleInputs (setupDimmer 0) 0
          [(HIGH, 1), (HIGH, 20), (HIGH, 21)]).l_channels 5).target_light_value = 1
    ∧ ((handleInputs (setupDimmer 0) 0
          [(HIGH, 1), (HIGH, 20), (HIGH, 21)]).l_channels 5).last_target_change = 21
    ∧ subULong 22 (2 * STEP_TIME) = 4294967278
    ∧ ((handleInputs (setupDimmer 0) 0
          [(HIGH, 1), (HIGH, 20), (HIGH, 21), (HIGH, 22)]).l_channels 5).target_light_value = 2 := by
  refine ⟨by decide!, by decide!, by decide!, by decide!, by decide!, by decide!, by decide!⟩

/-- A second press, against C16 as stated.  Button 0, not fading, owner of the one light
channel 5, is pressed for the second time 50 ms after the release of a first press:
the press is accepted at time 1101, the release at time 1151, less than `PULSE_TIME`
later, and `fading` is `true` from the hold at time 1102 on, which is less than
`PULSE_TIME` after the release at 1051. -/
theorem handleInput_second_press_starts_fade :
    (stateSecondPress.buttons 0).fading = false
    ∧ (stateSecondPress.buttons 0).l_channels = [5]
    ∧ (stateSecondPress.buttons 0).last_state = LOW
    ∧ (stateSecondPress.buttons 0).stop_time = 1051
    ∧ ((handleInputs stateSecondPress 0 [(HIGH, 1101)]).buttons 0).last_state = HIGH
    ∧ ((handleInputs stateSecondPress 0 [(HIGH, 1101)]).buttons 0).fading = false
    ∧ ((handleInputs stateSecondPress 0 [(HIGH, 1101), (HIGH, 1102)]).buttons 0).fading = true
    ∧ ((handleInputs stateSecondPress 0
          [(HIGH, 1101), (HIGH, 1102), (LOW, 1150), (LOW, 1151)]).buttons 0).last_state = LOW
    ∧ ((handleInputs stateSecondPress 0
          [(HIGH, 1101), (HIGH, 1102), (LOW, 1150), (LOW, 1151)]).buttons 0).fading = true
    ∧ subULong 1151 1101 < PULSE_TIME := by
  refine ⟨by decide!, by decide!, by decide!, by decide!, by decide!, by decide!, by decide!,
    by decide!, by decide!, by decide!⟩

/-- C12. Switch channel 5 is `always_on` and a queued DelayedStop channel of 10 seconds,
light channel 0 is at 100.  In the pass of the loop at time 10001 the loop finds a light
channel on and gives channel 5 the target 1, then the drain finds the channel expired
and sets the target to `LOW`: after the pass the target and the state of channel 5 are
0 although a light channel is on. -/
theorem loopDimmer_always_on_overridden_by_drain :
    (stateAlwaysOnQueued.sw_channels 5).always_on = true
    ∧ stateAlwaysOnQueued.queued_sw_channels = [5]
    ∧ (stateAlwaysOnQueued.l_channels 0).light_value = 100
    ∧ anyLightOn (gesturePass stateAlwaysOnQueued allLow 10001).l_channels = true
    ∧ ((alwaysOnPass true (gesturePass stateAlwaysOnQueued allLow 10001)).sw_channels 5).target_state
        = 1
    ∧ ((loopDimmer stateAlwaysOnQueued allLow 10001 (fun _ => 0)).sw_channels 5).always_on = true
    ∧ ((loopDimmer stateAlwaysOnQueued allLow 10001 (fun _ => 0)).sw_channels 5).target_state
        = LOW
    ∧ ((loopDimmer stateAlwaysOnQueued allLow 10001 (fun _ => 0)).sw_channels 5).state = LOW := by
  refine ⟨by decide!, by decide!, by decide!, by decide!, by decide!, by decide!, by decide!,
    by decide!⟩

/-- C18. After start-up the channels 0 (10 seconds) and 1 (20 seconds) are queued by
`setSwitchState`; in the pass of the loop at time 10001 channel 0 expires and the queue
becomes the one cell `tmp[0]` of the uninitialised array of the drain.  When that cell
holds 77, the queue holds an entry that is no switch channel; the ten requests that
follow queue every switch channel behind it, and the queue has 11 entries, one more
than `NR_SWITCH_CHANNELS`. -/
theorem queue_invariant_broken_by_drain :
    (run (setupDimmer 0) [.setSwitch 0 1 0 10 0, .setSwitch 1 1 0 20 0]).queued_sw_channels
        = [0, 1]
    ∧ (run (setupDimmer 0) (opsGarbage 77)).queued_sw_channels = [77]
    ∧ ¬ (77 < NR_SWITCH_CHANNELS)
    ∧ (run (setupDimmer 0) (opsGarbage 77 ++ opsQueueAll)).queued_sw_channels
        = [77, 0, 1, 2, 3, 4, 5, 6, 7, 8, 9]
    ∧ NR_SWITCH_CHANNELS
        < (run (setupDimmer 0) (opsGarbage 77 ++ opsQueueAll)).queued_sw_channels_length := by
  refine ⟨by decide!, by decide!, by decide!, by decide!, by decide!⟩

/-! ## The structure of `handleInput` -/

theorem handleInput_unfold (s : State) (id : Nat) (btnState : Int) (now : Nat) :
    handleInput s id btnState now
      = if 0 = (s.buttons id).nr_l_channels ∧ 0 = (s.buttons id).nr_sw_channels then s
        else if btnState ≠ (s.buttons id).prev_state then
          { s with buttons := upd s.buttons id { s.buttons id with prev_state := btnState } }
        else if STEP_TIME > subULong now (s.buttons id).last_change then s
        else finishInput (gestureBranch s id btnState now) id btnState now := rfl

/-- A loop over the owned light channels whose body keeps a property of a light channel
keeps it for every light channel. -/
theorem forLights_preserves (P : LightChannel → Prop)
    (body : LightChannel → Int → LightChannel × Int)
    (hb : ∀ c t, P c → P (body c t).1) (ids : List Nat) :
    ∀ (ts : List Int) (l : Nat → LightChannel), (∀ k, P (l k)) →
      ∀ k, P ((forLights body ids ts l).2 k) := by
  induction ids with
  | nil =>
    intro ts l hl k
    simpa [forLights] using hl k
  | cons c cs ih =>
    intro ts l hl k
    cases ts with
    | nil => simpa [forLights] using hl k
    | cons t ts =>
      simp only [forLights]
      apply ih
      intro j
      by_cases e : j = c
      · subst e
        rw [upd_same]
        exact hb _ _ (hl j)
      · rw [upd_other _ _ _ _ e]
        exact hl j

theorem constrain_range (t : Int) :
    0 ≤ constrain t 0 MAX_LIGHT_VALUE ∧ constrain t 0 MAX_LIGHT_VALUE ≤ MAX_LIGHT_VALUE := by
  unfold constrain
  split
  · decide
  · split
    · decide
    · constructor <;> omega

theorem pressLight_inRange (fading pulse : Bool) (c : LightChannel) (t : Int)
    (h : c.inRange) : (pressLight fading pulse c t).1.inRange := by
  obtain ⟨h1, h2, h3, h4⟩ := h
  unfold pressLight
  split
  · exact ⟨h1, h2, h3, h4⟩
  · split
    · exact ⟨h1, h2, h3, h4⟩
    · exact ⟨h1, h2, h1, h4⟩

/-- The body of the fade loop changes `dir` only. -/
theorem fadeLight_frame (now : Nat) (c : LightChannel) (t : Int) :
    (fadeLight now c t).1 = { c with dir := (fadeLight now c t).1.dir } := by
  obtain ⟨pin, lv, last, idle, dir, tg, sf, lvc, ltc, b, hb⟩ := c
  by_cases h1 : ltc < subULong now (2 * STEP_TIME)
  · simp only [fadeLight, h1, if_true]
    generalize wrapInt (if dir ≠ 0 then t + 1 else t - 1) = t1
    by_cases h2 : t1 < 0
    · simp only [h2, if_true]
    · by_cases h3 : t1 > MAX_LIGHT_VALUE
      · simp only [h2, h3, if_false, if_true]
      · simp only [h2, h3, if_false]
  · unfold fadeLight
    rw [if_neg h1]

theorem fadeLight_values (now : Nat) (c : LightChannel) (t : Int) :
    (fadeLight now c t).1.light_value = c.light_value
    ∧ (fadeLight now c t).1.target_light_value = c.target_light_value
    ∧ (fadeLight now c t).1.last_light_value = c.last_light_value
    ∧ (fadeLight now c t).1.idle_light_value = c.idle_light_value
    ∧ (fadeLight now c t).1.last_target_change = c.last_target_change
    ∧ (fadeLight now c t).1.speed_factor = c.speed_factor := by
  by_cases h1 : c.last_target_change < subULong now (2 * STEP_TIME)
  · simp only [fadeLight, h1, if_true]
    generalize wrapInt (if c.dir ≠ 0 then t + 1 else t - 1) = t1
    by_cases h2 : t1 < 0
    · simp only [h2, if_true, and_self]
    · by_cases h3 : t1 > MAX_LIGHT_VALUE
      · simp only [h2, h3, if_false, if_true, and_self]
      · simp only [h2, h3, if_false, and_self]
  · unfold fadeLight
    rw [if_neg h1]
    exact ⟨rfl, rfl, rfl, rfl, rfl, rfl⟩

theorem fadeLight_inRange (now : Nat) (c : LightChannel) (t : Int)
    (h : c.inRange) : (fadeLight now c t).1.inRange := by
  obtain ⟨e1, e2, e3, e4, _, _⟩ := fadeLight_values now c t
  unfold LightChannel.inRange at h ⊢
  rw [e1, e2, e3, e4]
  exact h

theorem applyTarget_inRange (now : Nat) (c : LightChannel) (t : Int)
    (h : c.inRange) : (applyTarget now c t).1.inRange := by
  obtain ⟨h1, h2, h3, h4⟩ := h
  unfold applyTarget
  simp only []
  split
  · exact ⟨h1, constrain_range t, h3, h4⟩
  · exact ⟨h1, h2, h3, h4⟩

/-- The branch of the rising edge, with the loops named: the button keeps `fading` only
when the press is a pulse. -/
theorem handlePress_eq (s : State) (id : Nat) (btnState : Int) (now : Nat) (ts : List Int) :
    handlePress s id btnState now ts
      = (switchesUp now (s.buttons id).sw_channels
          { s with
              buttons := upd s.buttons id
                { s.buttons id with
                    last_state := btnState
                    start_time := now
                    fading := ((s.buttons id).fading
                      && decide (PULSE_TIME > subULong now (s.buttons id).stop_time)) }
              l_channels := (forLights
                (pressLight ((s.buttons id).fading
                    && decide (PULSE_TIME > subULong now (s.buttons id).stop_time))
                  (decide (PULSE_TIME > subULong now (s.buttons id).stop_time)))
                (s.buttons id).l_channels ts s.l_channels).2 },
         (forLights
            (pressLight ((s.buttons id).fading
                && decide (PULSE_TIME > subULong now (s.buttons id).stop_time))
              (decide (PULSE_TIME > subULong now (s.buttons id).stop_time)))
            (s.buttons id).l_channels ts s.l_channels).1) := by
  cases hfa : (s.buttons id).fading <;>
    cases hp : decide (PULSE_TIME > subULong now (s.buttons id).stop_time) <;>
    simp [handlePress, hfa, hp, switchesUp]

/-- The light channels after the branch of the rising edge. -/
theorem handlePress_l (s : State) (id : Nat) (btnState : Int) (now : Nat) (ts : List Int) :
    (handlePress s id btnState now ts).1.l_channels
      = (forLights
          (pressLight ((s.buttons id).fading
              && decide (PULSE_TIME > subULong now (s.buttons id).stop_time))
            (decide (PULSE_TIME > subULong now (s.buttons id).stop_time)))
          (s.buttons id).l_channels ts s.l_channels).2 := by
  rw [handlePress_eq]
  exact (switchesUp_frame _ _ _).1

/-- The light channels after the branch of the falling edge. -/
theorem handleRelease_l (s : State) (id : Nat) (btnState : Int) (now : Nat) (ts : List Int) :
    (handleRelease s id btnState now ts).1.l_channels
      = if 2 * PULSE_TIME > subULong now (s.buttons id).stop_time then
          (forLights doublePulseLight (s.buttons id).l_channels ts s.l_channels).2
        else s.l_channels := by
  have h := (switchesDown_frame (s.buttons id).sw_channels
    { s with
        buttons := upd s.buttons id { s.buttons id with last_state := btnState
                                                        stop_time := now }
        l_channels := (if 2 * PULSE_TIME > subULong now (s.buttons id).stop_time then
            forLights doublePulseLight (s.buttons id).l_channels ts s.l_channels
          else (ts, s.l_channels)).2 }).1
  by_cases hd : 2 * PULSE_TIME > subULong now (s.buttons id).stop_time
  · simp only [hd, if_true] at h ⊢
    simpa [handleRelease, hd, switchesDown] using h
  · simp only [hd, if_false] at h ⊢
    simpa [handleRelease, hd, switchesDown] using h

/-- The light channels after the branch of the fade. -/
theorem handleFade_l (s : State) (id : Nat) (now : Nat) (ts : List Int) :
    (handleFade s id now ts).1.l_channels
      = (forLights (fadeLight now) (s.buttons id).l_channels ts s.l_channels).2 := by
  cases hf : (s.buttons id).fading <;> simp [handleFade, hf]

theorem gestureBranch_inRange (s : State) (id : Nat) (btnState : Int) (now : Nat)
    (h : LightsInRange s) : LightsInRange (gestureBranch s id btnState now).1 := by
  unfold gestureBranch
  simp only []
  split
  · split
    · intro k
      rw [handlePress_l]
      exact forLights_preserves LightChannel.inRange _
        (fun c t hc => pressLight_inRange _ _ c t hc) _ _ _ h k
    · intro k
      rw [handleRelease_l]
      split
      · exact forLights_preserves LightChannel.inRange doublePulseLight
          (fun c t hc => hc) _ _ _ h k
      · exact h k
  · split
    · intro k
      rw [handleFade_l]
      exact forLights_preserves LightChannel.inRange (fadeLight now)
        (fun c t hc => fadeLight_inRange _ c t hc) _ _ _ h k
    · exact h

theorem finishInput_inRange (r : State × List Int) (id : Nat) (btnState : Int) (now : Nat)
    (h : LightsInRange r.1) : LightsInRange (finishInput r id btnState now) := by
  intro k
  exact forLights_preserves LightChannel.inRange (applyTarget now)
    (fun c t hc => applyTarget_inRange _ c t hc) _ _ _ h k

/-- `handleInput` keeps the values of every light channel in 0..255. -/
theorem handleInput_inRange (s : State) (id : Nat) (btnState : Int) (now : Nat)
    (h : LightsInRange s) : LightsInRange (handleInput s id btnState now) := by
  rw [handleInput_unfold]
  split
  · exact h
  · split
    · exact h
    · split
      · exact h
      · exact finishInput_inRange _ _ _ _ (gestureBranch_inRange _ _ _ _ h)

/-- A left fold keeps what each step keeps. -/
theorem foldl_keeps {α β : Type} (P : β → Prop) (f : β → α → β)
    (hf : ∀ b a, P b → P (f b a)) : ∀ (l : List α) (b : β), P b → P (l.foldl f b) := by
  intro l
  induction l with
  | nil => exact fun b hb => hb
  | cons a l ih => exact fun b hb => ih _ (hf b a hb)

theorem processLightTarget_inRange (s : State) (id now : Nat) (h : LightsInRange s) :
    LightsInRange (processLightTarget s id now) := by
  by_cases e : (s.l_channels id).light_value = (s.l_channels id).target_light_value
  · simpa [processLightTarget, e] using h
  · intro k
    simp only [processLightTarget, e, if_false]
    by_cases hk : k = id
    · subst hk
      rw [upd_same]
      obtain ⟨_, h2, h3, h4⟩ := h k
      exact ⟨constrain_range _, h2, h3, h4⟩
    · rw [upd_other _ _ _ _ hk]
      exact h k

theorem processSwitchTarget_l (s : State) (id now : Nat) :
    (processSwitchTarget s id now).l_channels = s.l_channels := by
  by_cases e : (s.sw_channels id).state = (s.sw_channels id).target_state <;>
    simp [processSwitchTarget, e]

theorem alwaysOnPass_l (any_on : Bool) (s : State) :
    (alwaysOnPass any_on s).l_channels = s.l_channels := by
  unfold alwaysOnPass
  refine foldl_keeps (fun st => st.l_channels = s.l_channels) _ ?_
    (List.range NR_SWITCH_CHANNELS) s rfl
  intro b a hb
  by_cases e : (b.sw_channels a).always_on = true
  · simpa [e] using hb
  · simpa [e] using hb

theorem processSwitchQueue_l (s : State) (now : Nat) (tmp : Int → Nat) :
    (processSwitchQueue s now tmp).l_channels = s.l_channels := rfl

theorem gesturePass_inRange (s : State) (digitalRead : Int → Int) (now : Nat)
    (h : LightsInRange s) : LightsInRange (gesturePass s digitalRead now) := by
  unfold gesturePass
  exact foldl_keeps LightsInRange
    (fun st i => handleInput st i (digitalRead (st.buttons i).pin) now)
    (fun b a hb => handleInput_inRange b a _ now hb) (List.range NR_BUTTONS) s h

theorem lightPass_inRange (s : State) (now : Nat) (h : LightsInRange s) :
    LightsInRange ((List.range NR_LIGHT_CHANNELS).foldl
      (fun st i => processLightTarget st i now) s) :=
  foldl_keeps LightsInRange (fun st i => processLightTarget st i now)
    (fun b a hb => processLightTarget_inRange b a now hb) (List.range NR_LIGHT_CHANNELS) s h

theorem switchPass_inRange (s : State) (now : Nat) (h : LightsInRange s) :
    LightsInRange ((List.range NR_SWITCH_CHANNELS).foldl
      (fun st i => processSwitchTarget st i now) s) :=
  foldl_keeps LightsInRange (fun st i => processSwitchTarget st i now)
    (fun b a hb => by
      intro k
      rw [processSwitchTarget_l]
      exact hb k) (List.range NR_SWITCH_CHANNELS) s h

theorem loopDimmer_eq (s : State) (digitalRead : Int → Int) (now : Nat) (tmp : Int → Nat) :
    loopDimmer s digitalRead now tmp
      = (List.range NR_SWITCH_CHANNELS).foldl (fun st i => processSwitchTarget st i now)
          ((List.range NR_LIGHT_CHANNELS).foldl (fun st i => processLightTarget st i now)
            (processSwitchQueue
              (alwaysOnPass (anyLightOn (gesturePass s digitalRead now).l_channels)
                (gesturePass s digitalRead now)) now tmp)) := rfl

/-- A pass of `loopDimmer` keeps the values of every light channel in 0..255. -/
theorem loopDimmer_inRange (s : State) (digitalRead : Int → Int) (now : Nat)
    (tmp : Int → Nat) (h : LightsInRange s) :
    LightsInRange (loopDimmer s digitalRead now tmp) := by
  rw [loopDimmer_eq]
  apply switchPass_inRange
  apply lightPass_inRange
  intro k
  rw [processSwitchQueue_l, alwaysOnPass_l]
  exact gesturePass_inRange s digitalRead now h k
/-! ## The range of the light values along a run -/

theorem setupDimmer_inRange (now : Nat) : LightsInRange (setupDimmer now) := by
  intro k
  have z : (0 : Int) ≤ 0 ∧ (0 : Int) ≤ MAX_LIGHT_VALUE := by decide
  refine ⟨z, z, z, ?_⟩
  show 0 ≤ (if k = 5 then (60 : Int) else 0) ∧ (if k = 5 then (60 : Int) else 0) ≤ MAX_LIGHT_VALUE
  by_cases h : k = 5
  · rw [if_pos h]
    decide
  · rw [if_neg h]
    exact z

theorem setLightTargetValue_inRange (s : State) (channel : Nat) (value speedFactor : Int)
    (hv : 0 ≤ value ∧ value ≤ MAX_LIGHT_VALUE) (h : LightsInRange s) :
    LightsInRange (setLightTargetValue s channel value speedFactor) := by
  by_cases e : (s.l_channels channel).light_value = value
  · simpa [setLightTargetValue, e] using h
  · intro k
    simp only [setLightTargetValue, ne_eq, e, not_false_eq_true, if_true]
    by_cases hk : k = channel
    · subst hk
      rw [upd_same]
      obtain ⟨h1, h2, _, h4⟩ := h k
      exact ⟨h1, hv, h2, h4⟩
    · rw [upd_other _ _ _ _ hk]
      exact h k

theorem setLightIdleValue_inRange (s : State) (channel : Nat) (h : LightsInRange s) :
    LightsInRange (setLightIdleValue s channel) :=
  setLightTargetValue_inRange s channel _ 2 (h channel).2.2.2 h

theorem setSwitchState_l (s : State) (channel : Nat) (state start_delay duration : Int)
    (now : Nat) :
    (setSwitchState s channel state start_delay duration now).l_channels = s.l_channels := by
  unfold setSwitchState
  simp only []
  split
  · rw [processSwitchUp_l]
  · rw [processSwitchDown_l]

theorem step_inRange (s : State) (op : Op) (hop : op.inRange) (h : LightsInRange s) :
    LightsInRange (step s op) := by
  cases op with
  | tick digitalRead now tmp => exact loopDimmer_inRange s digitalRead now tmp h
  | setLight channel value speedFactor =>
    exact setLightTargetValue_inRange s channel value speedFactor hop h
  | setIdle channel => exact setLightIdleValue_inRange s channel h
  | setSwitch channel state start_delay duration now =>
    intro k
    simp only [step, setSwitchState_l]
    exact h k

theorem run_inRange (ops : List Op) :
    ∀ (s : State), (∀ op ∈ ops, op.inRange) → LightsInRange s → LightsInRange (run s ops) := by
  induction ops with
  | nil => exact fun s _ h => h
  | cons op ops ih =>
    intro s hops h
    exact ih (step s op) (fun o ho => hops o (List.mem_cons_of_mem _ ho))
      (step_inRange s op (hops op (List.mem_cons_self _ _)) h)

/-! ## The button record after `handleInput` -/

theorem handlePress_buttons (s : State) (id : Nat) (btnState : Int) (now : Nat)
    (ts : List Int) :
    (handlePress s id btnState now ts).1.buttons
      = upd s.buttons id
          { s.buttons id with
              last_state := btnState
              start_time := now
              fading := ((s.buttons id).fading
                && decide (PULSE_TIME > subULong now (s.buttons id).stop_time)) } := by
  rw [handlePress_eq]
  exact (switchesUp_frame _ _ _).2.1

theorem handleRelease_buttons (s : State) (id : Nat) (btnState : Int) (now : Nat)
    (ts : List Int) :
    (handleRelease s id btnState now ts).1.buttons
      = upd s.buttons id { s.buttons id with last_state := btnState
                                             stop_time := now } := by
  have h := (switchesDown_frame (s.buttons id).sw_channels
    { s with
        buttons := upd s.buttons id { s.buttons id with last_state := btnState
                                                        stop_time := now }
        l_channels := (if 2 * PULSE_TIME > subULong now (s.buttons id).stop_time then
            forLights doublePulseLight (s.buttons id).l_channels ts s.l_channels
          else (ts, s.l_channels)).2 }).2.1
  by_cases hd : 2 * PULSE_TIME > subULong now (s.buttons id).stop_time
  · simp only [hd, if_true] at h
    simpa [handleRelease, hd, switchesDown] using h
  · simp only [hd, if_false] at h
    simpa [handleRelease, hd, switchesDown] using h

theorem handleFade_buttons (s : State) (id : Nat) (now : Nat) (ts : List Int) :
    (handleFade s id now ts).1.buttons
      = upd s.buttons id { s.buttons id with fading := true } := by
  cases hf : (s.buttons id).fading with
  | false => simp [handleFade, hf]
  | true =>
    have e : ({ s.buttons id with fading := true } : Button) = s.buttons id := by
      rw [← hf]
    simp [handleFade, hf, e]

theorem finishInput_buttons (r : State × List Int) (id : Nat) (btnState : Int) (now : Nat) :
    (finishInput r id btnState now).buttons
      = upd r.1.buttons id { r.1.buttons id with prev_state := btnState } := rfl

/-- The button record after `handleInput`, case by case. -/
theorem handleInput_button (s : State) (id : Nat) (btnState : Int) (now : Nat) :
    (handleInput s id btnState now).buttons id
      = if 0 = (s.buttons id).nr_l_channels ∧ 0 = (s.buttons id).nr_sw_channels then
          s.buttons id
        else if btnState ≠ (s.buttons id).prev_state then
          { s.buttons id with prev_state := btnState }
        else if STEP_TIME > subULong now (s.buttons id).last_change then s.buttons id
        else if (s.buttons id).last_state ≠ btnState then
          (if HIGH = btnState then
            { s.buttons id with
                last_state := btnState
                start_time := now
                fading := ((s.buttons id).fading
                  && decide (PULSE_TIME > subULong now (s.buttons id).stop_time))
                prev_state := btnState }
           else
            { s.buttons id with last_state := btnState
                                stop_time := now
                                prev_state := btnState })
        else if HIGH = btnState
            ∧ ((s.buttons id).fading = true
                ∨ PULSE_TIME > subULong now (s.buttons id).stop_time) then
          { s.buttons id with fading := true
                              prev_state := btnState }
        else { s.buttons id with prev_state := btnState } := by
  rw [handleInput_unfold]
  by_cases h0 : 0 = (s.buttons id).nr_l_channels ∧ 0 = (s.buttons id).nr_sw_channels
  · rw [if_pos h0, if_pos h0]
  · rw [if_neg h0, if_neg h0]
    by_cases h1 : btnState ≠ (s.buttons id).prev_state
    · rw [if_pos h1, if_pos h1]
      simp only [upd_same]
    · rw [if_neg h1, if_neg h1]
      by_cases h2 : STEP_TIME > subULong now (s.buttons id).last_change
      · rw [if_pos h2, if_pos h2]
      · rw [if_neg h2, if_neg h2, finishInput_buttons, upd_same]
        unfold gestureBranch
        simp only []
        by_cases h3 : (s.buttons id).last_state ≠ btnState
        · rw [if_pos h3, if_pos h3]
          by_cases h4 : HIGH = btnState
          · rw [if_pos h4, if_pos h4, handlePress_buttons, upd_same]
          · rw [if_neg h4, if_neg h4, handleRelease_buttons, upd_same]
        · rw [if_neg h3, if_neg h3]
          by_cases h5 : HIGH = btnState
              ∧ ((s.buttons id).fading = true
                  ∨ PULSE_TIME > subULong now (s.buttons id).stop_time)
          · rw [if_pos h5, if_pos h5, handleFade_buttons, upd_same]
          · rw [if_neg h5, if_neg h5]

/-- A `HIGH` sample at least `PULSE_TIME` after the last release leaves a button that
is not fading not fading, and leaves `stop_time`. -/
theorem handleInput_high_keeps_not_fading (s : State) (id : Nat) (now : Nat)
    (hf : (s.buttons id).fading = false)
    (hp : PULSE_TIME ≤ subULong now (s.buttons id).stop_time) :
    ((handleInput s id HIGH now).buttons id).fading = false
    ∧ ((handleInput s id HIGH now).buttons id).stop_time = (s.buttons id).stop_time := by
  have hp2 : ¬ (PULSE_TIME > subULong now (s.buttons id).stop_time) := by omega
  have h5 : ¬ (HIGH = HIGH ∧ ((s.buttons id).fading = true
      ∨ PULSE_TIME > subULong now (s.buttons id).stop_time)) := by
    rw [hf]
    rintro ⟨_, h | h⟩
    · exact absurd h (by decide)
    · exact hp2 h
  rw [handleInput_button]
  split_ifs
  · exact ⟨hf, rfl⟩
  · exact ⟨hf, rfl⟩
  · exact ⟨hf, rfl⟩
  · exact ⟨by simp [hf], rfl⟩
  · exact absurd rfl ‹¬ HIGH = HIGH›
  · exact ⟨hf, rfl⟩

/-- A `LOW` sample leaves the flag `fading` of the button as it is. -/
theorem handleInput_low_keeps_fading (s : State) (id : Nat) (now : Nat) :
    ((handleInput s id LOW now).buttons id).fading = (s.buttons id).fading := by
  have h4 : ¬ (HIGH = LOW) := by decide
  rw [handleInput_button]
  split_ifs with a b c d e
  · rfl
  · rfl
  · rfl
  · rfl
  · exact absurd e.1 h4
  · rfl

/-! ## A press and a release without fade -/

theorem handleInputs_cons (s : State) (id : Nat) (p : Int × Nat) (ticks : List (Int × Nat)) :
    handleInputs s id (p :: ticks) = handleInputs (handleInput s id p.1 p.2) id ticks := rfl

theorem lows_keep_not_fading (id : Nat) (lows : List Nat) :
    ∀ (s : State) (n : Nat), (s.buttons id).fading = false →
      ((handleInputs s id ((lows.map (fun u => (LOW, u))).take n)).buttons id).fading
        = false := by
  induction lows with
  | nil =>
    intro s n hf
    simpa [handleInputs] using hf
  | cons u lows ih =>
    intro s n hf
    cases n with
    | zero => simpa [handleInputs] using hf
    | succ n =>
      rw [List.map_cons, List.take_succ_cons, handleInputs_cons]
      exact ih _ n ((handleInput_low_keeps_fading s id u).trans hf)

theorem holds_keep_not_fading (id : Nat) (lows : List Nat) (holds : List Nat) :
    ∀ (s : State) (n : Nat), (s.buttons id).fading = false →
      (∀ u ∈ holds, PULSE_TIME ≤ subULong u (s.buttons id).stop_time) →
      ((handleInputs s id ((holds.map (fun u => (HIGH, u))
          ++ lows.map (fun u => (LOW, u))).take n)).buttons id).fading = false := by
  induction holds with
  | nil =>
    intro s n hf _
    simpa using lows_keep_not_fading id lows s n hf
  | cons u holds ih =>
    intro s n hf hq
    cases n with
    | zero => simpa [handleInputs] using hf
    | succ n =>
      rw [List.map_cons, List.cons_append, List.take_succ_cons, handleInputs_cons]
      obtain ⟨h1, h2⟩ := handleInput_high_keeps_not_fading s id u hf
        (hq u (List.mem_cons_self _ _))
      refine ih _ n h1 ?_
      intro v hv
      show PULSE_TIME ≤ subULong v ((handleInput s id HIGH u).buttons id).stop_time
      rw [h2]
      exact hq v (List.mem_cons_of_mem _ hv)

/-- C16. A button that is not fading and owns the one light channel `c` is pressed
(accepted rising edge at time `now`), held for the ticks `holds` and sampled `LOW` for
the ticks `lows`, among them the accepted falling edge.  At the press the target of `c`
becomes its `last_light_value` (constrained to 0..255: itself in a state of the data
model) when its current value is 0 or 255, and 0 otherwise.  When every tick of the
hold is at least `PULSE_TIME` after the release before the press
(`now - stop_time >= PULSE_TIME`), `fading` is `false` after the press and after every
tick of the sequence. -/
theorem press_release_without_fade (s : State) (id c now : Nat) (holds lows : List Nat)
    (hl : (s.buttons id).l_channels = [c])
    (hprev : (s.buttons id).prev_state = HIGH)
    (hgate : STEP_TIME ≤ subULong now (s.buttons id).last_change)
    (hlast : (s.buttons id).last_state = LOW)
    (hfade : (s.buttons id).fading = false)
    (hquiet : ∀ u ∈ holds, PULSE_TIME ≤ subULong u (s.buttons id).stop_time) :
    ((s.l_channels c).light_value = 0 ∨ (s.l_channels c).light_value = MAX_LIGHT_VALUE →
        ((handleInput s id HIGH now).l_channels c).target_light_value
            = constrain (s.l_channels c).last_light_value 0 MAX_LIGHT_VALUE
        ∧ (0 ≤ (s.l_channels c).last_light_value
            ∧ (s.l_channels c).last_light_value ≤ MAX_LIGHT_VALUE →
          ((handleInput s id HIGH now).l_channels c).target_light_value
            = (s.l_channels c).last_light_value))
    ∧ (¬ ((s.l_channels c).light_value = 0
          ∨ (s.l_channels c).light_value = MAX_LIGHT_VALUE) →
        ((handleInput s id HIGH now).l_channels c).target_light_value = 0)
    ∧ ((handleInput s id HIGH now).buttons id).last_state = HIGH
    ∧ ((handleInput s id HIGH now).buttons id).fading = false
    ∧ (∀ n, ((handleInputs (handleInput s id HIGH now) id
          ((holds.map (fun u => (HIGH, u)) ++ lows.map (fun u => (LOW, u))).take n)).buttons
            id).fading = false) := by
  have hown : 0 < (s.buttons id).nr_l_channels + (s.buttons id).nr_sw_channels := by
    simp [Button.nr_l_channels, hl]
  have hne : (s.buttons id).last_state ≠ HIGH := by simp [hlast]
  obtain ⟨e1, e2, _, _, _⟩ := handleInput_press_state s id now hown hprev hgate hne hfade
  have hc : c ∈ (s.buttons id).l_channels := by simp [hl]
  have hf1 : ((handleInput s id HIGH now).buttons id).fading = false := by
    rw [e2, upd_same]
    exact hfade
  have hs1 : ((handleInput s id HIGH now).buttons id).stop_time = (s.buttons id).stop_time := by
    rw [e2, upd_same]
  refine ⟨?_, ?_, ?_, hf1, ?_⟩
  · intro hv
    have hp : pressLight false (decide (PULSE_TIME > subULong now (s.buttons id).stop_time))
        (s.l_channels c) 0 = (s.l_channels c, (s.l_channels c).last_light_value) := by
      simp [pressLight, hv]
    rw [e1]
    simp only [hc, if_true]
    rw [hp, applyTarget_target]
    exact ⟨rfl, fun hi => constrain_id _ hi.1 hi.2⟩
  · intro hv
    have hp : pressLight false (decide (PULSE_TIME > subULong now (s.buttons id).stop_time))
        (s.l_channels c) 0
          = ({ s.l_channels c with last_light_value := (s.l_channels c).light_value }, 0) := by
      simp [pressLight, hv]
    rw [e1]
    simp only [hc, if_true]
    rw [hp, applyTarget_target]
    simp [constrain]
  · rw [e2, upd_same]
  · intro n
    refine holds_keep_not_fading id lows holds _ n hf1 ?_
    intro u hu
    rw [hs1]
    exact hquiet u hu

/-- The example button, last released at time 0, is pressed at time 1000, held at 1001
and 1002 and released at 1101: light channel 5, lit at 100, gets target 0 at the press,
and the button is not fading after the last tick. -/
theorem press_release_without_fade_witness :
    ((exampleState HIGH LOW).buttons 0).l_channels = [5]
    ∧ ((exampleState HIGH LOW).buttons 0).prev_state = HIGH
    ∧ STEP_TIME ≤ subULong 1000 ((exampleState HIGH LOW).buttons 0).last_change
    ∧ ((exampleState HIGH LOW).buttons 0).last_state = LOW
    ∧ ((exampleState HIGH LOW).buttons 0).fading = false
    ∧ (∀ u ∈ [1001, 1002],
        PULSE_TIME ≤ subULong u ((exampleState HIGH LOW).buttons 0).stop_time)
    ∧ ((handleInput (exampleState HIGH LOW) 0 HIGH 1000).l_channels 5).target_light_value = 0
    ∧ ((handleInputs (handleInput (exampleState HIGH LOW) 0 HIGH 1000) 0
          (([1001, 1002].map (fun u => (HIGH, u))
            ++ [1100, 1101].map (fun u => (LOW, u))).take 4)).buttons 0).fading = false :=
  ⟨by decide, by decide, by decide, by decide, by decide, by decide,
    (press_release_without_fade (exampleState HIGH LOW) 0 5 1000 [1001, 1002] [1100, 1101]
      (by decide) (by decide) (by decide) (by decide) (by decide) (by decide)).2.1
      (by decide),
    (press_release_without_fade (exampleState HIGH LOW) 0 5 1000 [1001, 1002] [1100, 1101]
      (by decide) (by decide) (by decide) (by decide) (by decide) (by decide)).2.2.2.2 4⟩

/-! ## The hold: `handleInput` while fading -/

/-- `handleInput` never writes `last_change` of its button. -/
theorem handleInput_keeps_last_change (s : State) (id : Nat) (btnState : Int) (now : Nat) :
    ((handleInput s id btnState now).buttons id).last_change = (s.buttons id).last_change := by
  rw [handleInput_button]
  split_ifs <;> rfl

/-- A loop over owned light channels without duplicates, when the cell of `targets` of
every owned channel `k` holds `f k`: every owned channel went through the body once. -/
theorem forLights_nodup (body : LightChannel → Int → LightChannel × Int) (f : Nat → Int)
    (ids : List Nat) :
    ∀ (l : Nat → LightChannel), ids.Nodup →
      forLights body ids (ids.map f) l
        = (ids.map (fun k => (body (l k) (f k)).2),
           fun k => if k ∈ ids then (body (l k) (f k)).1 else l k) := by
  induction ids with
  | nil =>
    intro l _
    simp [forLights]
  | cons c cs ih =>
    intro l hnd
    have hc : c ∉ cs := (List.nodup_cons.mp hnd).1
    have hcs : cs.Nodup := (List.nodup_cons.mp hnd).2
    simp only [List.map_cons, forLights, ih _ hcs]
    have hmap : cs.map (fun k => (body (upd l c (body (l c) (f c)).1 k) (f k)).2)
        = cs.map (fun k => (body (l k) (f k)).2) := by
      apply List.map_congr_left
      intro k hk
      have e : k ≠ c := fun h => hc (h ▸ hk)
      rw [upd_other _ _ _ _ e]
    rw [hmap]
    congr 1
    funext k
    by_cases e : k = c
    · subst e
      simp [hc, upd_same]
    · simp [e, upd_other _ _ _ _ e]

theorem wrapInt_id (x : Int) (h0 : -32768 ≤ x) (h1 : x ≤ 32767) : wrapInt x = x := by
  unfold wrapInt
  have e : (x + 32768) % 65536 = x + 32768 := Int.emod_eq_of_lt (by omega) (by omega)
  rw [e]
  omega

/-- The state after `handleInput` on an accepted `HIGH` sample without edge that enters
or continues the fade, for a button whose list of light channels has no duplicates. -/
theorem handleInput_fade_state (s : State) (id now : Nat)
    (hown : 0 < (s.buttons id).nr_l_channels + (s.buttons id).nr_sw_channels)
    (hprev : (s.buttons id).prev_state = HIGH)
    (hgate : STEP_TIME ≤ subULong now (s.buttons id).last_change)
    (hlast : (s.buttons id).last_state = HIGH)
    (hcond : (s.buttons id).fading = true ∨ PULSE_TIME > subULong now (s.buttons id).stop_time)
    (hnd : (s.buttons id).l_channels.Nodup) :
    (handleInput s id HIGH now).l_channels
        = (fun k => if k ∈ (s.buttons id).l_channels then
            (applyTarget now
              (fadeLight now (s.l_channels k) (s.l_channels k).target_light_value).1
              (fadeLight now (s.l_channels k) (s.l_channels k).target_light_value).2).1
          else s.l_channels k)
    ∧ (handleInput s id HIGH now).buttons
        = upd s.buttons id { s.buttons id with fading := true
                                               prev_state := HIGH }
    ∧ (handleInput s id HIGH now).sw_channels = s.sw_channels
    ∧ (handleInput s id HIGH now).queued_sw_channels = s.queued_sw_channels
    ∧ (handleInput s id HIGH now).hw = s.hw := by
  have h0 : ¬ (0 = (s.buttons id).nr_l_channels ∧ 0 = (s.buttons id).nr_sw_channels) := by
    omega
  have h1 : ¬ (HIGH ≠ (s.buttons id).prev_state) := by simp [hprev]
  have h2 : ¬ (STEP_TIME > subULong now (s.buttons id).last_change) := by omega
  have h3 : ¬ ((s.buttons id).last_state ≠ HIGH) := by simp [hlast]
  have h5 : HIGH = HIGH ∧ ((s.buttons id).fading = true
      ∨ PULSE_TIME > subULong now (s.buttons id).stop_time) := ⟨rfl, hcond⟩
  have hb : ({ s.buttons id with fading := true } : Button).l_channels
      = (s.buttons id).l_channels := rfl
  have hg : gestureBranch s id HIGH now
      = handleFade s id now
          ((s.buttons id).l_channels.map (fun c => (s.l_channels c).target_light_value)) := by
    unfold gestureBranch
    simp only []
    rw [if_neg h3]
    exact if_pos ⟨trivial, hcond⟩
  have hfl := handleFade_l s id now
    ((s.buttons id).l_channels.map (fun c => (s.l_channels c).target_light_value))
  have hfb := handleFade_buttons s id now
    ((s.buttons id).l_channels.map (fun c => (s.l_channels c).target_light_value))
  have hf2 : (handleFade s id now
      ((s.buttons id).l_channels.map (fun c => (s.l_channels c).target_light_value))).2
      = (forLights (fadeLight now) (s.buttons id).l_channels
          ((s.buttons id).l_channels.map (fun c => (s.l_channels c).target_light_value))
          s.l_channels).1 := by
    cases hf : (s.buttons id).fading <;> simp [handleFade, hf]
  have hfs : (handleFade s id now
      ((s.buttons id).l_channels.map (fun c => (s.l_channels c).target_light_value))).1.sw_channels
        = s.sw_channels
      ∧ (handleFade s id now
      ((s.buttons id).l_channels.map (fun c => (s.l_channels c).target_light_value))).1.queued_sw_channels
        = s.queued_sw_channels
      ∧ (handleFade s id now
      ((s.buttons id).l_channels.map (fun c => (s.l_channels c).target_light_value))).1.hw
        = s.hw := by
    cases hf : (s.buttons id).fading <;> simp [handleFade, hf]
  have hloop := forLights_nodup (fadeLight now)
    (fun c => (s.l_channels c).target_light_value) (s.buttons id).l_channels s.l_channels hnd
  rw [handleInput_unfold, if_neg h0, if_neg h1, if_neg h2, hg]
  refine ⟨?_, ?_, hfs.1, hfs.2.1, hfs.2.2⟩
  · show (forLights (applyTarget now) _ _ _).2 = _
    rw [hfb, upd_same, hb, hf2, hfl, hloop]
    simp only []
    rw [forLights_applyTarget]
    funext k
    by_cases hk : k ∈ (s.buttons id).l_channels
    · simp [hk]
    · simp [hk]
  · rw [finishInput_buttons, hfb, upd_same, upd_idem]

/-- The final loop stamps `last_target_change` with `now` when it changes the target. -/
theorem applyTarget_stamp (now : Nat) (c : LightChannel) (t : Int)
    (h : (applyTarget now c t).1.target_light_value ≠ c.target_light_value) :
    (applyTarget now c t).1.last_target_change = now
    ∧ (applyTarget now c t).1.speed_factor = 2 := by
  by_cases e : c.target_light_value = constrain t 0 MAX_LIGHT_VALUE
  · exact absurd (by simp [applyTarget, e]) h
  · simp [applyTarget, e]

/-- The final loop leaves a channel whose target is the constrained cell as it is. -/
theorem applyTarget_same (now : Nat) (c : LightChannel) (t : Int)
    (h : c.target_light_value = constrain t 0 MAX_LIGHT_VALUE) :
    (applyTarget now c t).1 = c := by
  simp [applyTarget, h]

/-- The body of the fade loop for a stamp older than `2*STEP_TIME` and a cell of
`targets` within 0..255. -/
theorem fadeLight_older (now : Nat) (c : LightChannel) (t : Int)
    (hold : c.last_target_change < subULong now (2 * STEP_TIME))
    (h0 : 0 ≤ t) (h1 : t ≤ 255) :
    fadeLight now c t
      = if c.dir ≠ 0 then
          (if t = 255 then ({ c with dir := DIR_DOWN }, 256) else (c, t + 1))
        else
          (if t = 0 then ({ c with dir := DIR_UP }, -1) else (c, t - 1)) := by
  unfold fadeLight
  rw [if_pos hold]
  simp only []
  by_cases hd : c.dir ≠ 0
  · rw [if_pos hd, if_pos hd, wrapInt_id _ (by omega) (by omega)]
    by_cases ht : t = 255
    · subst ht
      rw [if_pos rfl, if_neg (by decide), if_pos (by decide)]
      rfl
    · rw [if_neg ht, if_neg (by omega), if_neg (by simp only [MAX_LIGHT_VALUE]; omega)]
  · rw [if_neg hd, if_neg hd, wrapInt_id _ (by omega) (by omega)]
    by_cases ht : t = 0
    · subst ht
      rw [if_pos rfl, if_pos (by decide)]
      rfl
    · rw [if_neg ht, if_neg (by omega), if_neg (by simp only [MAX_LIGHT_VALUE]; omega)]

/-- One tick of the hold for an owned light channel `c` with target in 0..255.  When
`last_target_change < now - 2*STEP_TIME` (in `unsigned long`) the target moves by 1 in
the direction `dir`, except that at 255 going up and at 0 going down it stays and `dir`
is reversed; otherwise the channel is unchanged.  A changed target is stamped with
`now`. -/
theorem handleInput_fade_step (s : State) (id now c : Nat)
    (hown : 0 < (s.buttons id).nr_l_channels + (s.buttons id).nr_sw_channels)
    (hprev : (s.buttons id).prev_state = HIGH)
    (hgate : STEP_TIME ≤ subULong now (s.buttons id).last_change)
    (hlast : (s.buttons id).last_state = HIGH)
    (hcond : (s.buttons id).fading = true ∨ PULSE_TIME > subULong now (s.buttons id).stop_time)
    (hnd : (s.buttons id).l_channels.Nodup)
    (hc : c ∈ (s.buttons id).l_channels)
    (hr : 0 ≤ (s.l_channels c).target_light_value
      ∧ (s.l_channels c).target_light_value ≤ MAX_LIGHT_VALUE) :
    ((handleInput s id HIGH now).buttons id).fading = true
    ∧ ((s.l_channels c).last_target_change < subULong now (2 * STEP_TIME) →
        ((s.l_channels c).dir ≠ 0 →
          ((s.l_channels c).target_light_value = MAX_LIGHT_VALUE →
            ((handleInput s id HIGH now).l_channels c).target_light_value = MAX_LIGHT_VALUE
            ∧ ((handleInput s id HIGH now).l_channels c).dir = DIR_DOWN)
          ∧ ((s.l_channels c).target_light_value ≠ MAX_LIGHT_VALUE →
            ((handleInput s id HIGH now).l_channels c).target_light_value
                = (s.l_channels c).target_light_value + 1
            ∧ ((handleInput s id HIGH now).l_channels c).dir = (s.l_channels c).dir))
        ∧ ((s.l_channels c).dir = 0 →
          ((s.l_channels c).target_light_value = 0 →
            ((handleInput s id HIGH now).l_channels c).target_light_value = 0
            ∧ ((handleInput s id HIGH now).l_channels c).dir = DIR_UP)
          ∧ ((s.l_channels c).target_light_value ≠ 0 →
            ((handleInput s id HIGH now).l_channels c).target_light_value
                = (s.l_channels c).target_light_value - 1
            ∧ ((handleInput s id HIGH now).l_channels c).dir = (s.l_channels c).dir)))
    ∧ (¬ (s.l_channels c).last_target_change < subULong now (2 * STEP_TIME) →
        (handleInput s id HIGH now).l_channels c = s.l_channels c)
    ∧ (((handleInput s id HIGH now).l_channels c).target_light_value
          ≠ (s.l_channels c).target_light_value →
        ((handleInput s id HIGH now).l_channels c).last_target_change = now) := by
  obtain ⟨e1, e2, _, _, _⟩ := handleInput_fade_state s id now hown hprev hgate hlast hcond hnd
  have hl : (handleInput s id HIGH now).l_channels c
      = (applyTarget now
          (fadeLight now (s.l_channels c) (s.l_channels c).target_light_value).1
          (fadeLight now (s.l_channels c) (s.l_channels c).target_light_value).2).1 := by
    rw [e1]
    simp only [hc, if_true]
  obtain ⟨r0, r1⟩ := hr
  have r1b : (s.l_channels c).target_light_value ≤ 255 := r1
  refine ⟨?_, ?_, ?_, ?_⟩
  · rw [e2, upd_same]
  · intro hold
    have hfo := fadeLight_older now (s.l_channels c) (s.l_channels c).target_light_value
      hold r0 r1b
    refine ⟨?_, ?_⟩
    · intro hup
      refine ⟨?_, ?_⟩
      · intro hmax
        have hfl : fadeLight now (s.l_channels c) (s.l_channels c).target_light_value
            = ({ s.l_channels c with dir := DIR_DOWN }, 256) := by
          rw [hfo, if_pos hup, if_pos hmax]
        rw [hl, hfl, applyTarget_target, (applyTarget_frame _ _ _).2.2]
        exact ⟨rfl, rfl⟩
      · intro hne
        have hfl : fadeLight now (s.l_channels c) (s.l_channels c).target_light_value
            = (s.l_channels c, (s.l_channels c).target_light_value + 1) := by
          rw [hfo, if_pos hup, if_neg hne]
        rw [hl, hfl, applyTarget_target, (applyTarget_frame _ _ _).2.2]
        refine ⟨constrain_id _ (by omega) ?_, rfl⟩
        have : (s.l_channels c).target_light_value ≠ 255 := hne
        simp only [MAX_LIGHT_VALUE]
        omega
    · intro hdown
      refine ⟨?_, ?_⟩
      · intro hz
        have hfl : fadeLight now (s.l_channels c) (s.l_channels c).target_light_value
            = ({ s.l_channels c with dir := DIR_UP }, -1) := by
          rw [hfo, if_neg (not_not.mpr hdown), if_pos hz]
        rw [hl, hfl, applyTarget_target, (applyTarget_frame _ _ _).2.2]
        exact ⟨rfl, rfl⟩
      · intro hne
        have hfl : fadeLight now (s.l_channels c) (s.l_channels c).target_light_value
            = (s.l_channels c, (s.l_channels c).target_light_value - 1) := by
          rw [hfo, if_neg (not_not.mpr hdown), if_neg hne]
        rw [hl, hfl, applyTarget_target, (applyTarget_frame _ _ _).2.2]
        refine ⟨constrain_id _ (by omega) ?_, rfl⟩
        simp only [MAX_LIGHT_VALUE]
        omega
  · intro hnew
    have hfl : fadeLight now (s.l_channels c) (s.l_channels c).target_light_value
        = (s.l_channels c, (s.l_channels c).target_light_value) := by
      unfold fadeLight
      rw [if_neg hnew]
    rw [hl, hfl]
    exact applyTarget_same _ _ _ (constrain_id _ r0 r1).symm
  · intro hch
    obtain ⟨v1, v2, _, _, v5, _⟩ :=
      fadeLight_values now (s.l_channels c) (s.l_channels c).target_light_value
    rw [hl] at hch ⊢
    have hch2 : (applyTarget now
        (fadeLight now (s.l_channels c) (s.l_channels c).target_light_value).1
        (fadeLight now (s.l_channels c) (s.l_channels c).target_light_value).2).1.target_light_value
        ≠ (fadeLight now (s.l_channels c)
            (s.l_channels c).target_light_value).1.target_light_value := by
      rw [v2]
      exact hch
    exact (applyTarget_stamp _ _ _ hch2).1

/-- The rate limit of the fade where `now - 2*STEP_TIME` does not wrap: at a time
`now >= 40`, a tick of the hold leaves an owned light channel whose target was stamped
at most `2*STEP_TIME` ago. -/
theorem handleInput_fade_rate_limit (s : State) (id now c : Nat)
    (hown : 0 < (s.buttons id).nr_l_channels + (s.buttons id).nr_sw_channels)
    (hprev : (s.buttons id).prev_state = HIGH)
    (hgate : STEP_TIME ≤ subULong now (s.buttons id).last_change)
    (hlast : (s.buttons id).last_state = HIGH)
    (hcond : (s.buttons id).fading = true ∨ PULSE_TIME > subULong now (s.buttons id).stop_time)
    (hnd : (s.buttons id).l_channels.Nodup)
    (hc : c ∈ (s.buttons id).l_channels)
    (hr : 0 ≤ (s.l_channels c).target_light_value
      ∧ (s.l_channels c).target_light_value ≤ MAX_LIGHT_VALUE)
    (hnow : 2 * STEP_TIME ≤ now) (hclock : now < 4294967296)
    (hrecent : now - 2 * STEP_TIME ≤ (s.l_channels c).last_target_change) :
    (handleInput s id HIGH now).l_channels c = s.l_channels c := by
  have e : subULong now (2 * STEP_TIME) = now - 2 * STEP_TIME := by
    unfold subULong
    simp only [STEP_TIME] at hnow ⊢
    omega
  refine (handleInput_fade_step s id now c hown hprev hgate hlast hcond hnd hc hr).2.2.1 ?_
  rw [e]
  omega

/-! ## The loops of `loopDimmer` -/

theorem upd_self {α : Type} (f : Nat → α) (i : Nat) : upd f i (f i) = f := by
  funext k
  by_cases h : k = i
  · subst h
    simp [upd]
  · simp [upd, h]

/-- A loop that rewrites the cell of every index of a list without duplicates. -/
theorem foldl_upd_pointwise {α : Type} (h : α → α) (ids : List Nat) :
    ∀ (m : Nat → α), ids.Nodup →
      ids.foldl (fun m i => upd m i (h (m i))) m
        = fun k => if k ∈ ids then h (m k) else m k := by
  induction ids with
  | nil =>
    intro m _
    simp
  | cons c cs ih =>
    intro m hnd
    have hc : c ∉ cs := (List.nodup_cons.mp hnd).1
    rw [List.foldl_cons, ih _ (List.nodup_cons.mp hnd).2]
    funext k
    by_cases e : k = c
    · subst e
      simp [hc, upd_same]
    · simp [e, upd_other _ _ _ _ e]

/-- A projection of a left fold is the fold of the projected step. -/
theorem foldl_proj {σ α β : Type} (p : σ → β) (F : σ → α → σ) (G : β → α → β)
    (hFG : ∀ st a, p (F st a) = G (p st) a) :
    ∀ (l : List α) (s : σ), p (l.foldl F s) = l.foldl G (p s) := by
  intro l
  induction l with
  | nil => exact fun s => rfl
  | cons a l ih =>
    intro s
    rw [List.foldl_cons, List.foldl_cons, ih, hFG]

theorem alwaysOnPass_sw (any_on : Bool) (s : State) (k : Nat) :
    (alwaysOnPass any_on s).sw_channels k
      = if k < NR_SWITCH_CHANNELS then alwaysOnChannel any_on (s.sw_channels k)
        else s.sw_channels k := by
  have h1 := foldl_proj State.sw_channels
    (fun st i =>
      if (st.sw_channels i).always_on then
        { st with sw_channels := upd st.sw_channels i
                    { st.sw_channels i with target_state := if any_on then 1 else 0 } }
      else st)
    (fun m i => upd m i (alwaysOnChannel any_on (m i)))
    (by
      intro st a
      by_cases e : (st.sw_channels a).always_on = true
      · simp [e, alwaysOnChannel]
      · simp [e, alwaysOnChannel, upd_self])
    (List.range NR_SWITCH_CHANNELS) s
  have h2 := foldl_upd_pointwise (alwaysOnChannel any_on) (List.range NR_SWITCH_CHANNELS)
    s.sw_channels (List.nodup_range _)
  unfold alwaysOnPass
  rw [h1, h2]
  simp only [List.mem_range]

theorem alwaysOnPass_queue (any_on : Bool) (s : State) :
    (alwaysOnPass any_on s).queued_sw_channels = s.queued_sw_channels := by
  unfold alwaysOnPass
  refine foldl_keeps (fun st => st.queued_sw_channels = s.queued_sw_channels) _ ?_
    (List.range NR_SWITCH_CHANNELS) s rfl
  intro b a hb
  by_cases e : (b.sw_channels a).always_on = true
  · simpa [e] using hb
  · simpa [e] using hb

theorem processLightTarget_sw (s : State) (id now : Nat) :
    (processLightTarget s id now).sw_channels = s.sw_channels := by
  by_cases e : (s.l_channels id).light_value = (s.l_channels id).target_light_value <;>
    simp [processLightTarget, e]

theorem lightPass_sw (s : State) (now : Nat) :
    ((List.range NR_LIGHT_CHANNELS).foldl
      (fun st i => processLightTarget st i now) s).sw_channels = s.sw_channels := by
  refine foldl_keeps (fun st => st.sw_channels = s.sw_channels)
    (fun st i => processLightTarget st i now) ?_ (List.range NR_LIGHT_CHANNELS) s rfl
  intro b a hb
  show (processLightTarget b a now).sw_channels = s.sw_channels
  rw [processLightTarget_sw]
  exact hb

theorem processSwitchTarget_sw (s : State) (id now : Nat) :
    (processSwitchTarget s id now).sw_channels
      = upd s.sw_channels id (appliedSwitch now (s.sw_channels id)) := by
  by_cases e : (s.sw_channels id).state = (s.sw_channels id).target_state
  · simp [processSwitchTarget, appliedSwitch, e, upd_self]
  · simp [processSwitchTarget, appliedSwitch, e]

theorem switchPass_sw (s : State) (now k : Nat) :
    ((List.range NR_SWITCH_CHANNELS).foldl
      (fun st i => processSwitchTarget st i now) s).sw_channels k
      = if k < NR_SWITCH_CHANNELS then appliedSwitch now (s.sw_channels k)
        else s.sw_channels k := by
  have h1 := foldl_proj State.sw_channels (fun st i => processSwitchTarget st i now)
    (fun m i => upd m i (appliedSwitch now (m i)))
    (fun st a => processSwitchTarget_sw st a now) (List.range NR_SWITCH_CHANNELS) s
  have h2 := foldl_upd_pointwise (appliedSwitch now) (List.range NR_SWITCH_CHANNELS)
    s.sw_channels (List.nodup_range _)
  rw [h1, h2]
  simp only [List.mem_range]

theorem appliedSwitch_target (now : Nat) (c : SwitchChannel) :
    (appliedSwitch now c).target_state = c.target_state
    ∧ (appliedSwitch now c).always_on = c.always_on := by
  unfold appliedSwitch
  split <;> exact ⟨rfl, rfl⟩

/-- The switch channels after a pass of `loopDimmer`: the gesture pass, the `always_on`
loop, the drain and `processSwitchTarget`, in this order. -/
theorem loopDimmer_sw (s : State) (digitalRead : Int → Int) (now : Nat) (tmp : Int → Nat)
    (k : Nat) (hk : k < NR_SWITCH_CHANNELS) :
    (loopDimmer s digitalRead now tmp).sw_channels k
      = appliedSwitch now
          (if k ∈ (gesturePass s digitalRead now).queued_sw_channels then
            (scanSwitch now (alwaysOnChannel
              (anyLightOn (gesturePass s digitalRead now).l_channels)
              ((gesturePass s digitalRead now).sw_channels k))).1
          else alwaysOnChannel (anyLightOn (gesturePass s digitalRead now).l_channels)
              ((gesturePass s digitalRead now).sw_channels k)) := by
  rw [loopDimmer_eq, switchPass_sw, if_pos hk, lightPass_sw, processSwitchQueue_sw,
    alwaysOnPass_queue, alwaysOnPass_sw, if_pos hk]

/-- An `always_on` switch channel that is not queued after the gesture pass has, after
the pass of `loopDimmer`, the target 1 when a light channel was on after the gesture
pass and the target 0 otherwise. -/
theorem loopDimmer_always_on_not_queued (s : State) (digitalRead : Int → Int) (now : Nat)
    (tmp : Int → Nat) (k : Nat) (hk : k < NR_SWITCH_CHANNELS)
    (ha : ((gesturePass s digitalRead now).sw_channels k).always_on = true)
    (hq : k ∉ (gesturePass s digitalRead now).queued_sw_channels) :
    ((loopDimmer s digitalRead now tmp).sw_channels k).target_state
      = if anyLightOn (gesturePass s digitalRead now).l_channels then 1 else 0 := by
  rw [loopDimmer_sw s digitalRead now tmp k hk, if_neg hq, (appliedSwitch_target _ _).1]
  simp [alwaysOnChannel, ha]


/-! ## One light channel through `handleInput` -/

/-- A loop over the owned light channels whose body keeps a property of a light channel
keeps it in every cell of `l_channels`, taken one by one. -/
theorem forLights_cell (P : LightChannel → Prop)
    (body : LightChannel → Int → LightChannel × Int)
    (hb : ∀ c t, P c → P (body c t).1) (k : Nat) (ids : List Nat) :
    ∀ (ts : List Int) (l : Nat → LightChannel), P (l k) →
      P ((forLights body ids ts l).2 k) := by
  induction ids with
  | nil =>
    intro ts l hl
    simpa [forLights] using hl
  | cons c cs ih =>
    intro ts l hl
    cases ts with
    | nil => simpa [forLights] using hl
    | cons t ts =>
      simp only [forLights]
      apply ih
      by_cases e : k = c
      · subst e
        rw [upd_same]
        exact hb _ _ hl
      · rw [upd_other _ _ _ _ e]
        exact hl

/-- A loop over the owned light channels leaves the channels that are not owned. -/
theorem forLights_frame (body : LightChannel → Int → LightChannel × Int) (k : Nat)
    (ids : List Nat) :
    ∀ (ts : List Int) (l : Nat → LightChannel), k ∉ ids →
      (forLights body ids ts l).2 k = l k := by
  induction ids with
  | nil =>
    intro ts l _
    simp [forLights]
  | cons c cs ih =>
    intro ts l hk
    have hkc : k ≠ c := fun e => hk (by simp [e])
    have hkcs : k ∉ cs := fun e => hk (by simp [e])
    cases ts with
    | nil => simp [forLights]
    | cons t ts =>
      simp only [forLights]
      rw [ih _ _ hkcs, upd_other _ _ _ _ hkc]

/-- A loop over owned light channels without duplicates passes every channel through
the body at most once. -/
theorem forLights_once (body : LightChannel → Int → LightChannel × Int) (k : Nat)
    (ids : List Nat) :
    ∀ (ts : List Int) (l : Nat → LightChannel), ids.Nodup →
      (forLights body ids ts l).2 k = l k
      ∨ ∃ t, (forLights body ids ts l).2 k = (body (l k) t).1 := by
  induction ids with
  | nil =>
    intro ts l _
    left
    simp [forLights]
  | cons c cs ih =>
    intro ts l hnd
    have hc : c ∉ cs := (List.nodup_cons.mp hnd).1
    have hcs : cs.Nodup := (List.nodup_cons.mp hnd).2
    cases ts with
    | nil =>
      left
      simp [forLights]
    | cons t ts =>
      simp only [forLights]
      by_cases e : k = c
      · subst e
        right
        refine ⟨t, ?_⟩
        rw [forLights_frame _ _ _ _ _ hc, upd_same]
      · have h := ih ts (upd l c (body (l c) t).1) hcs
        rw [upd_other _ _ _ _ e] at h
        exact h

/-- The body of the light loop of the rising edge leaves the target, the speed factor
and the two time stamps of the channel. -/
theorem pressLight_keeps (fading pulse : Bool) (c : LightChannel) (t : Int) :
    (pressLight fading pulse c t).1.target_light_value = c.target_light_value
    ∧ (pressLight fading pulse c t).1.speed_factor = c.speed_factor
    ∧ (pressLight fading pulse c t).1.last_target_change = c.last_target_change := by
  unfold pressLight
  split
  · exact ⟨rfl, rfl, rfl⟩
  · split
    · exact ⟨rfl, rfl, rfl⟩
    · exact ⟨rfl, rfl, rfl⟩

/-- The branch of the edge or of the fade keeps, cell by cell, every property of a light
channel that the bodies of its light loops keep. -/
theorem gestureBranch_cell (P : LightChannel → Prop)
    (hpress : ∀ (f p : Bool) (c : LightChannel) (t : Int), P c → P (pressLight f p c t).1)
    (hfade : ∀ (u : Nat) (c : LightChannel) (t : Int), P c → P (fadeLight u c t).1)
    (s : State) (id : Nat) (btnState : Int) (now k : Nat) (h : P (s.l_channels k)) :
    P ((gestureBranch s id btnState now).1.l_channels k) := by
  unfold gestureBranch
  simp only []
  split
  · split
    · rw [handlePress_l]
      exact forLights_cell P _ (fun c t hc => hpress _ _ c t hc) k _ _ _ h
    · rw [handleRelease_l]
      split
      · exact forLights_cell P doublePulseLight (fun c t hc => hc) k _ _ _ h
      · exact h
  · split
    · rw [handleFade_l]
      exact forLights_cell P (fadeLight now) (fun c t hc => hfade now c t hc) k _ _ _ h
    · exact h

/-- The branch of the edge or of the fade leaves the light channels the button does not
own. -/
theorem gestureBranch_frame (s : State) (id : Nat) (btnState : Int) (now k : Nat)
    (hk : k ∉ (s.buttons id).l_channels) :
    (gestureBranch s id btnState now).1.l_channels k = s.l_channels k := by
  unfold gestureBranch
  simp only []
  split
  · split
    · rw [handlePress_l, forLights_frame _ _ _ _ _ hk]
    · rw [handleRelease_l]
      split
      · rw [forLights_frame _ _ _ _ _ hk]
      · rfl
  · split
    · rw [handleFade_l, forLights_frame _ _ _ _ _ hk]
    · rfl

/-- The branch of the edge or of the fade leaves the list of owned light channels. -/
theorem gestureBranch_owned (s : State) (id : Nat) (btnState : Int) (now : Nat) :
    ((gestureBranch s id btnState now).1.buttons id).l_channels = (s.buttons id).l_channels := by
  unfold gestureBranch
  simp only []
  split
  · split
    · rw [handlePress_buttons, upd_same]
    · rw [handleRelease_buttons, upd_same]
  · split
    · rw [handleFade_buttons, upd_same]
    · rfl

/-- The branch of the edge or of the fade leaves the target, the speed factor and
`last_target_change` of every light channel: they are written by the final loop only. -/
theorem gestureBranch_keeps (s : State) (id : Nat) (btnState : Int) (now k : Nat) :
    ((gestureBranch s id btnState now).1.l_channels k).target_light_value
        = (s.l_channels k).target_light_value
    ∧ ((gestureBranch s id btnState now).1.l_channels k).speed_factor
        = (s.l_channels k).speed_factor
    ∧ ((gestureBranch s id btnState now).1.l_channels k).last_target_change
        = (s.l_channels k).last_target_change := by
  refine gestureBranch_cell
    (fun c => c.target_light_value = (s.l_channels k).target_light_value
      ∧ c.speed_factor = (s.l_channels k).speed_factor
      ∧ c.last_target_change = (s.l_channels k).last_target_change)
    ?_ ?_ s id btnState now k ⟨rfl, rfl, rfl⟩
  · intro f p c t hc
    obtain ⟨e1, e2, e3⟩ := pressLight_keeps f p c t
    exact ⟨e1.trans hc.1, e2.trans hc.2.1, e3.trans hc.2.2⟩
  · intro u c t hc
    obtain ⟨_, e1, _, _, e3, e2⟩ := fadeLight_values u c t
    exact ⟨e1.trans hc.1, e2.trans hc.2.1, e3.trans hc.2.2⟩

/-- The light channels after the final loop of `handleInput`. -/
theorem finishInput_l (r : State × List Int) (id : Nat) (btnState : Int) (now : Nat) :
    (finishInput r id btnState now).l_channels
      = (forLights (applyTarget now) (r.1.buttons id).l_channels r.2 r.1.l_channels).2 := rfl


/-- The light channels after `handleInput`: as before when the call returns early, and
otherwise what the final loop makes of the channels the branch of the edge or of the
fade has left. -/
theorem handleInput_l_cases (s : State) (id : Nat) (btnState : Int) (now : Nat) :
    (handleInput s id btnState now).l_channels = s.l_channels
    ∨ (handleInput s id btnState now).l_channels
        = (forLights (applyTarget now) (s.buttons id).l_channels
            (gestureBranch s id btnState now).2
            (gestureBranch s id btnState now).1.l_channels).2 := by
  rw [handleInput_unfold]
  by_cases h0 : 0 = (s.buttons id).nr_l_channels ∧ 0 = (s.buttons id).nr_sw_channels
  · rw [if_pos h0]
    exact Or.inl rfl
  · rw [if_neg h0]
    by_cases h1 : btnState ≠ (s.buttons id).prev_state
    · rw [if_pos h1]
      exact Or.inl rfl
    · rw [if_neg h1]
      by_cases h2 : STEP_TIME > subULong now (s.buttons id).last_change
      · rw [if_pos h2]
        exact Or.inl rfl
      · rw [if_neg h2, finishInput_l, gestureBranch_owned]
        exact Or.inr rfl

/-- The body of the final loop of `handleInput` stamps a channel whose target it
changes, and leaves a channel whose target it does not change. -/
theorem applyTarget_cases (now : Nat) (c : LightChannel) (t : Int) :
    ((applyTarget now c t).1.target_light_value ≠ c.target_light_value
      ∧ (applyTarget now c t).1.speed_factor = 2
      ∧ (applyTarget now c t).1.last_target_change = now)
    ∨ (applyTarget now c t).1 = c := by
  by_cases h : c.target_light_value = constrain t 0 MAX_LIGHT_VALUE
  · right
    simp [applyTarget, h]
  · left
    refine ⟨?_, ?_, ?_⟩
    · rw [applyTarget_target]
      exact fun e => h e.symm
    · simp [applyTarget, h]
    · simp [applyTarget, h]

/-- The body of the final loop of `handleInput` keeps a target within 0..255. -/
theorem applyTarget_target_range (now : Nat) (c : LightChannel) (t : Int) :
    0 ≤ (applyTarget now c t).1.target_light_value
    ∧ (applyTarget now c t).1.target_light_value ≤ MAX_LIGHT_VALUE := by
  rw [applyTarget_target]
  exact constrain_range t

/-- `handleInput` keeps the target of every light channel within 0..255. -/
theorem handleInput_target_range (s : State) (id : Nat) (btnState : Int) (now k : Nat)
    (hr : 0 ≤ (s.l_channels k).target_light_value
      ∧ (s.l_channels k).target_light_value ≤ MAX_LIGHT_VALUE) :
    0 ≤ ((handleInput s id btnState now).l_channels k).target_light_value
    ∧ ((handleInput s id btnState now).l_channels k).target_light_value ≤ MAX_LIGHT_VALUE := by
  rcases handleInput_l_cases s id btnState now with e | e
  · rw [e]
    exact hr
  · rw [e]
    refine forLights_cell
      (fun c => 0 ≤ c.target_light_value ∧ c.target_light_value ≤ MAX_LIGHT_VALUE)
      (applyTarget now) (fun c t _ => applyTarget_target_range now c t) k _ _ _ ?_
    show 0 ≤ ((gestureBranch s id btnState now).1.l_channels k).target_light_value
      ∧ ((gestureBranch s id btnState now).1.l_channels k).target_light_value ≤ MAX_LIGHT_VALUE
    rw [(gestureBranch_keeps s id btnState now k).1]
    exact hr

/-- C23. For every call `handleInput( id )` and every light channel `c`.  When the button
owns `c`: the target of `c` lies in 0..255 afterwards (in a state of the data model,
where it lies in 0..255 before); when the target differs from the target before the
call, `speed_factor` is 2 and `last_target_change` is `now` afterwards; when the target
is the same as before the call, `speed_factor` and `last_target_change` are as before
(the list of owned channels names no channel twice).  When the button does not own `c`,
the channel is not modified at all. -/
theorem handleInput_light_targets (s : State) (id : Nat) (btnState : Int) (now c : Nat) :
    (c ∈ (s.buttons id).l_channels →
      ((0 ≤ (s.l_channels c).target_light_value
          ∧ (s.l_channels c).target_light_value ≤ MAX_LIGHT_VALUE →
        0 ≤ ((handleInput s id btnState now).l_channels c).target_light_value
          ∧ ((handleInput s id btnState now).l_channels c).target_light_value
              ≤ MAX_LIGHT_VALUE)
      ∧ (((handleInput s id btnState now).l_channels c).target_light_value
            ≠ (s.l_channels c).target_light_value →
          ((handleInput s id btnState now).l_channels c).speed_factor = 2
          ∧ ((handleInput s id btnState now).l_channels c).last_target_change = now)
      ∧ ((s.buttons id).l_channels.Nodup →
          ((handleInput s id btnState now).l_channels c).target_light_value
            = (s.l_channels c).target_light_value →
          ((handleInput s id btnState now).l_channels c).speed_factor
            = (s.l_channels c).speed_factor
          ∧ ((handleInput s id btnState now).l_channels c).last_target_change
            = (s.l_channels c).last_target_change)))
    ∧ (c ∉ (s.buttons id).l_channels →
        (handleInput s id btnState now).l_channels c = s.l_channels c) := by
  obtain ⟨g1, g2, g3⟩ := gestureBranch_keeps s id btnState now c
  refine ⟨fun _ => ⟨handleInput_target_range s id btnState now c, ?_, ?_⟩, ?_⟩
  · rcases handleInput_l_cases s id btnState now with e | e
    · rw [e]
      exact fun h => absurd rfl h
    · rw [e]
      refine forLights_cell
        (fun x => x.target_light_value ≠ (s.l_channels c).target_light_value →
          x.speed_factor = 2 ∧ x.last_target_change = now)
        (applyTarget now) ?_ c _ _ _ (fun h => absurd g1 h)
      intro x t hx
      rcases applyTarget_cases now x t with h | h
      · exact fun _ => h.2
      · rw [h]
        exact hx
  · intro hnd
    rcases handleInput_l_cases s id btnState now with e | e
    · rw [e]
      exact fun _ => ⟨rfl, rfl⟩
    · rw [e]
      rcases forLights_once (applyTarget now) c (s.buttons id).l_channels
        (gestureBranch s id btnState now).2 (gestureBranch s id btnState now).1.l_channels hnd
        with h | ⟨t, h⟩
      · rw [h]
        exact fun _ => ⟨g2, g3⟩
      · rw [h]
        rcases applyTarget_cases now ((gestureBranch s id btnState now).1.l_channels c) t
          with h2 | h2
        · intro h3
          exact absurd (h3.trans g1.symm) h2.1
        · rw [h2]
          exact fun _ => ⟨g2, g3⟩
  · intro hc
    rcases handleInput_l_cases s id btnState now with e | e
    · rw [e]
    · rw [e, forLights_frame _ _ _ _ _ hc, gestureBranch_frame _ _ _ _ _ hc]

/-- The press of the example button at time 1000: the target of the owned light channel 5
goes from 100 to 0 and is stamped, the light channel 4 is left. -/
theorem handleInput_press_example :
    ((handleInput (exampleState HIGH LOW) 0 HIGH 1000).l_channels 5).target_light_value = 0
    ∧ ((handleInput (exampleState HIGH LOW) 0 HIGH 1000).l_channels 5).speed_factor = 2
    ∧ ((handleInput (exampleState HIGH LOW) 0 HIGH 1000).l_channels 5).last_target_change = 1000
    ∧ (handleInput (exampleState HIGH LOW) 0 HIGH 1000).l_channels 4
        = (exampleState HIGH LOW).l_channels 4 := by
  decide


/-! ## Convergence in one pass of `loopDimmer` -/

theorem processLightTarget_l (s : State) (id now : Nat) :
    (processLightTarget s id now).l_channels
      = upd s.l_channels id (appliedLight now (s.l_channels id)) := by
  by_cases e : (s.l_channels id).light_value = (s.l_channels id).target_light_value
  · simp [processLightTarget, appliedLight, e, upd_self]
  · simp [processLightTarget, appliedLight, e]

theorem lightPass_l (s : State) (now k : Nat) :
    ((List.range NR_LIGHT_CHANNELS).foldl
      (fun st i => processLightTarget st i now) s).l_channels k
      = if k < NR_LIGHT_CHANNELS then appliedLight now (s.l_channels k)
        else s.l_channels k := by
  have h1 := foldl_proj State.l_channels (fun st i => processLightTarget st i now)
    (fun m i => upd m i (appliedLight now (m i)))
    (fun st a => processLightTarget_l st a now) (List.range NR_LIGHT_CHANNELS) s
  have h2 := foldl_upd_pointwise (appliedLight now) (List.range NR_LIGHT_CHANNELS)
    s.l_channels (List.nodup_range _)
  rw [h1, h2]
  simp only [List.mem_range]

theorem switchPass_l (s : State) (now : Nat) :
    ((List.range NR_SWITCH_CHANNELS).foldl
      (fun st i => processSwitchTarget st i now) s).l_channels = s.l_channels := by
  refine foldl_keeps (fun st => st.l_channels = s.l_channels)
    (fun st i => processSwitchTarget st i now) ?_ (List.range NR_SWITCH_CHANNELS) s rfl
  intro b a hb
  show (processSwitchTarget b a now).l_channels = s.l_channels
  rw [processSwitchTarget_l]
  exact hb

/-- The light channels after a pass of `loopDimmer`: the gesture pass and
`processLightTarget`. -/
theorem loopDimmer_l (s : State) (digitalRead : Int → Int) (now : Nat) (tmp : Int → Nat)
    (k : Nat) (hk : k < NR_LIGHT_CHANNELS) :
    (loopDimmer s digitalRead now tmp).l_channels k
      = appliedLight now ((gesturePass s digitalRead now).l_channels k) := by
  rw [loopDimmer_eq, switchPass_l, lightPass_l, if_pos hk, processSwitchQueue_l,
    alwaysOnPass_l]

/-- After `processSwitchTarget` the state of the channel is its target. -/
theorem appliedSwitch_converged (now : Nat) (c : SwitchChannel) :
    (appliedSwitch now c).state = (appliedSwitch now c).target_state := by
  by_cases e : c.state = c.target_state
  · simp [appliedSwitch, e]
  · simp [appliedSwitch, e]

/-- After `processLightTarget` the value of a channel with a target within 0..255 is its
target. -/
theorem appliedLight_converged (now : Nat) (c : LightChannel)
    (hr : 0 ≤ c.target_light_value ∧ c.target_light_value ≤ MAX_LIGHT_VALUE) :
    (appliedLight now c).light_value = (appliedLight now c).target_light_value := by
  by_cases e : c.light_value = c.target_light_value
  · simp [appliedLight, e]
  · simp [appliedLight, e, constrain_id _ hr.1 hr.2]

/-- The gesture pass keeps the target of every light channel within 0..255. -/
theorem gesturePass_target_range (s : State) (digitalRead : Int → Int) (now k : Nat)
    (hr : 0 ≤ (s.l_channels k).target_light_value
      ∧ (s.l_channels k).target_light_value ≤ MAX_LIGHT_VALUE) :
    0 ≤ ((gesturePass s digitalRead now).l_channels k).target_light_value
    ∧ ((gesturePass s digitalRead now).l_channels k).target_light_value ≤ MAX_LIGHT_VALUE := by
  unfold gesturePass
  exact foldl_keeps
    (fun st => 0 ≤ (st.l_channels k).target_light_value
      ∧ (st.l_channels k).target_light_value ≤ MAX_LIGHT_VALUE)
    (fun st i => handleInput st i (digitalRead (st.buttons i).pin) now)
    (fun b a hb => handleInput_target_range b a _ now k hb) (List.range NR_BUTTONS) s hr

theorem stateDelayedStop10On_inRange : LightsInRange stateDelayedStop10On := by
  refine loopDimmer_inRange _ _ _ _ ?_
  intro k
  show ((processSwitchUp (setupDimmer 0) 0 0).l_channels k).inRange
  rw [processSwitchUp_l]
  exact setupDimmer_inRange 0 k

/-! ## Set and get of a light target -/

/-- C25. Set/get round trip: for a light channel that is converged
(`light_value == target_light_value`), every value `v` and every `speedFactor`, after
`setLightTargetValue( channel, v, speedFactor )` the getter `getLightTargetValue( channel )`
returns `v`. -/
theorem setLightTargetValue_get (s : State) (channel : Nat) (v speedFactor : Int)
    (hconv : (s.l_channels channel).light_value = (s.l_channels channel).target_light_value) :
    getLightTargetValue (setLightTargetValue s channel v speedFactor) channel = v := by
  by_cases e : (s.l_channels channel).light_value = v
  · simp only [setLightTargetValue, getLightTargetValue, e, ne_eq, not_true_eq_false, if_false]
    rw [← hconv]
    exact e
  · simp [setLightTargetValue, getLightTargetValue, e, upd_same]

/-- Light channel 5 after start-up (value and target 0) returns 100 after the request for
100, and the lit channel 5 of the example state (value and target 100) returns 100 after
the request for 100, which changes nothing. -/
theorem setLightTargetValue_get_witness :
    ((setupDimmer 0).l_channels 5).light_value = ((setupDimmer 0).l_channels 5).target_light_value
    ∧ getLightTargetValue (setLightTargetValue (setupDimmer 0) 5 100 5) 5 = 100
    ∧ getLightTargetValue (setLightTargetValue (exampleState LOW LOW) 5 100 5) 5 = 100 :=
  ⟨rfl, setLightTargetValue_get (setupDimmer 0) 5 100 5 rfl,
    setLightTargetValue_get (exampleState LOW LOW) 5 100 5 (by decide)⟩

/-- For a channel that is not converged the getter can return the old target: the request
for the current value is dropped. -/
theorem setLightTargetValue_drops_current_value (s : State) (channel : Nat) (speedFactor : Int) :
    getLightTargetValue
        (setLightTargetValue s channel (s.l_channels channel).light_value speedFactor) channel
      = (s.l_channels channel).target_light_value := by
  simp [setLightTargetValue, getLightTargetValue]


/-! ## The thresholds of the drain in `int` arithmetic -/

/-- The body of the scan loop of `processSwitchQueue`, written with the two thresholds. -/
theorem scanSwitch_thresholds (now : Nat) (c : SwitchChannel) :
    scanSwitch now c
      = match c.switch_type with
        | .SWITCH_TYPE_DELAYED_STOP =>
          if subULong now c.last_target_change > delayThreshold c.duration then
            ({ c with target_state := LOW }, true)
          else (c, false)
        | .SWITCH_TYPE_DELAYED_START =>
          if subULong now c.last_target_change > delayThreshold c.start_delay then
            ({ c with target_state := HIGH }, false)
          else (c, false)
        | .SWITCH_TYPE_DELAYED_START_STOP =>
          if subULong now c.last_target_change
              > delaySumThreshold c.duration c.start_delay then
            ({ c with target_state := LOW }, true)
          else if subULong now c.last_target_change > delayThreshold c.start_delay then
            ({ c with target_state := HIGH }, false)
          else (c, false)
        | _ => (c, false) := rfl

/-- Up to 32 seconds the threshold is the exact product. -/
theorem delayThreshold_exact (x : Int) (h0 : 0 ≤ x) (h1 : x ≤ 32) :
    delayThreshold x = (x * 1000).toNat := by
  unfold delayThreshold
  exact toULong_wrapInt _ (by omega) (by omega)

/-- From 33 seconds on, within the 999 seconds the command layer accepts, the threshold
is not the exact product. -/
theorem delayThreshold_wraps (x : Int) (h0 : 33 ≤ x) (h1 : x ≤ 999) :
    delayThreshold x ≠ (x * 1000).toNat := by
  have hw : -32768 ≤ wrapInt (x * 1000) ∧ wrapInt (x * 1000) ≤ 32767 := by
    unfold wrapInt
    omega
  unfold delayThreshold toULong
  generalize wrapInt (x * 1000) = w at hw ⊢
  rcases lt_or_le w 0 with h | h
  · have e : w % 4294967296 = w + 4294967296 := by
      rw [← Int.add_emod_self]
      exact Int.emod_eq_of_lt (by omega) (by omega)
    rw [e]
    omega
  · have e : w % 4294967296 = w := Int.emod_eq_of_lt h (by omega)
    rw [e]
    omega

/-- The sum threshold is the exact product as long as the sum is at most 32 seconds. -/
theorem delaySumThreshold_exact (d sd : Int) (h0 : 0 ≤ d) (h1 : 0 ≤ sd) (h2 : d + sd ≤ 32) :
    delaySumThreshold d sd = ((d + sd) * 1000).toNat := by
  unfold delaySumThreshold
  rw [wrapInt_id (d + sd) (by omega) (by omega)]
  exact toULong_wrapInt _ (by omega) (by omega)

/-- C24. The thresholds of `processSwitchQueue` in the 16 bit `int` of the ATmega are not
the exact products for delays the command layer accepts.  The request
`setSwitchState( 1, 1, 0, 60 )` passes `setSwitchCmd`, and 60 is the duration
`setupDimmer` configures for switch channel 1; the threshold `60 * 1000` is 4294961760
for the comparison, not 60000 (33 seconds is the first duration that wraps, 32 the last
that does not), and the sum threshold of 20 + 20 seconds is 4294941760, not 40000.  The
queued channel with duration 60 is therefore not marked 60001 ms after it was queued. -/
theorem delayThreshold_60_wraps :
    setSwitchCmd 1 1 0 60 = some (.setSwitchState 1 1 0 60)
    ∧ ((setupDimmer 0).sw_channels 1).duration = 60
    ∧ delayThreshold ((setupDimmer 0).sw_channels 1).duration = 4294961760
    ∧ delayThreshold 60 ≠ 60 * 1000
    ∧ delayThreshold 32 = 32 * 1000
    ∧ delayThreshold 33 = 4294934760
    ∧ delaySumThreshold 20 20 = 4294941760
    ∧ delayThreshold 999 = 15960
    ∧ scanSwitch 60001 (stateDelayedStop60.sw_channels 1)
        = (stateDelayedStop60.sw_channels 1, false) := by
  refine ⟨rfl, rfl, ?_⟩
  have h60 : ((setupDimmer 0).sw_channels 1).duration = 60 := rfl
  rw [h60]
  decide

/-! ## The floor LED after start-up -/

/-- C26. After `setupDimmer` (at time 0) and the first pass of `loopDimmer` (at time 1,
and likewise at time 1000) with every button sample `LOW`, switch channel 5, the floor
LED, has state 0 and target 0, and no pin was written.  `setupDimmer` leaves its target
at 1 and sets `always_on`; no light channel is on in the first pass, so the `always_on`
loop sets the target to 0 before `processSwitchTarget` runs. -/
theorem setupDimmer_floor_led_stays_off :
    ((setupDimmer 0).sw_channels 5).target_state = 1
    ∧ ((setupDimmer 0).sw_channels 5).state = 0
    ∧ ((setupDimmer 0).sw_channels 5).always_on = true
    ∧ anyLightOn (gesturePass (setupDimmer 0) allLow 1).l_channels = false
    ∧ ((loopDimmer (setupDimmer 0) allLow 1 (fun _ => 0)).sw_channels 5).state = 0
    ∧ ((loopDimmer (setupDimmer 0) allLow 1 (fun _ => 0)).sw_channels 5).target_state = 0
    ∧ (loopDimmer (setupDimmer 0) allLow 1 (fun _ => 0)).hw = []
    ∧ ((loopDimmer (setupDimmer 0) allLow 1000 (fun _ => 0)).sw_channels 5).state = 0
    ∧ ((loopDimmer (setupDimmer 0) allLow 1000 (fun _ => 0)).sw_channels 5).target_state = 0
    ∧ (loopDimmer (setupDimmer 0) allLow 1000 (fun _ => 0)).hw = [] := by
  decide!


/-! ## A press while the button is fading -/

/-- An owned light channel after `handleInput` on an accepted rising edge, for a button
whose list of light channels has no duplicates: the body of the light loop of the press,
run with the flag `fading` as the press leaves it, then the body of the final loop. -/
theorem handleInput_press_l (s : State) (id now c : Nat)
    (hown : 0 < (s.buttons id).nr_l_channels + (s.buttons id).nr_sw_channels)
    (hprev : (s.buttons id).prev_state = HIGH)
    (hgate : STEP_TIME ≤ subULong now (s.buttons id).last_change)
    (hlast : (s.buttons id).last_state ≠ HIGH)
    (hnd : (s.buttons id).l_channels.Nodup)
    (hc : c ∈ (s.buttons id).l_channels) :
    (handleInput s id HIGH now).l_channels c
      = (applyTarget now
          (pressLight ((s.buttons id).fading
              && decide (PULSE_TIME > subULong now (s.buttons id).stop_time))
            (decide (PULSE_TIME > subULong now (s.buttons id).stop_time))
            (s.l_channels c) (s.l_channels c).target_light_value).1
          (pressLight ((s.buttons id).fading
              && decide (PULSE_TIME > subULong now (s.buttons id).stop_time))
            (decide (PULSE_TIME > subULong now (s.buttons id).stop_time))
            (s.l_channels c) (s.l_channels c).target_light_value).2).1 := by
  have h0 : ¬ (0 = (s.buttons id).nr_l_channels ∧ 0 = (s.buttons id).nr_sw_channels) := by
    omega
  have h1 : ¬ (HIGH ≠ (s.buttons id).prev_state) := by simp [hprev]
  have h2 : ¬ (STEP_TIME > subULong now (s.buttons id).last_change) := by omega
  have hg : gestureBranch s id HIGH now
      = handlePress s id HIGH now
          ((s.buttons id).l_channels.map (fun k => (s.l_channels k).target_light_value)) := by
    unfold gestureBranch
    simp only []
    rw [if_pos hlast]
    exact if_pos trivial
  rw [handleInput_unfold, if_neg h0, if_neg h1, if_neg h2, finishInput_l, gestureBranch_owned,
    hg, handlePress_l]
  have h2nd : (handlePress s id HIGH now
      ((s.buttons id).l_channels.map (fun k => (s.l_channels k).target_light_value))).2
        = (forLights
            (pressLight ((s.buttons id).fading
                && decide (PULSE_TIME > subULong now (s.buttons id).stop_time))
              (decide (PULSE_TIME > subULong now (s.buttons id).stop_time)))
            (s.buttons id).l_channels
            ((s.buttons id).l_channels.map (fun k => (s.l_channels k).target_light_value))
            s.l_channels).1 := by
    rw [handlePress_eq]
  rw [h2nd, forLights_nodup _ (fun k => (s.l_channels k).target_light_value) _ _ hnd]
  simp only []
  rw [forLights_applyTarget]
  simp only [hc, if_true]

/-- An accepted rising edge of a button whose flag `fading` is set and whose list of light
channels has no duplicates, for an owned light channel `c`.  When the press is a pulse
(`now - stop_time < PULSE_TIME`) `fading` stays set, the direction of `c` is negated and
a target within 0..255 is left.  When the press is not a pulse `fading` is cleared, and
`c` then goes through the branches of a button that is not fading: its direction is left,
and its target becomes `last_light_value` (value 0 or 255) or 0. -/
theorem handleInput_press_while_fading (s : State) (id now c : Nat)
    (hown : 0 < (s.buttons id).nr_l_channels + (s.buttons id).nr_sw_channels)
    (hprev : (s.buttons id).prev_state = HIGH)
    (hgate : STEP_TIME ≤ subULong now (s.buttons id).last_change)
    (hlast : (s.buttons id).last_state ≠ HIGH)
    (hfade : (s.buttons id).fading = true)
    (hnd : (s.buttons id).l_channels.Nodup)
    (hc : c ∈ (s.buttons id).l_channels) :
    (PULSE_TIME > subULong now (s.buttons id).stop_time →
      ((handleInput s id HIGH now).buttons id).fading = true
      ∧ ((handleInput s id HIGH now).l_channels c).dir = lnot (s.l_channels c).dir
      ∧ (0 ≤ (s.l_channels c).target_light_value
          ∧ (s.l_channels c).target_light_value ≤ MAX_LIGHT_VALUE →
        ((handleInput s id HIGH now).l_channels c).target_light_value
          = (s.l_channels c).target_light_value))
    ∧ (¬ (PULSE_TIME > subULong now (s.buttons id).stop_time) →
      ((handleInput s id HIGH now).buttons id).fading = false
      ∧ ((handleInput s id HIGH now).l_channels c).dir = (s.l_channels c).dir
      ∧ ((s.l_channels c).light_value = 0 ∨ (s.l_channels c).light_value = MAX_LIGHT_VALUE →
        ((handleInput s id HIGH now).l_channels c).target_light_value
          = constrain (s.l_channels c).last_light_value 0 MAX_LIGHT_VALUE)
      ∧ (¬ ((s.l_channels c).light_value = 0
            ∨ (s.l_channels c).light_value = MAX_LIGHT_VALUE) →
        ((handleInput s id HIGH now).l_channels c).target_light_value = 0)) := by
  have h0 : ¬ (0 = (s.buttons id).nr_l_channels ∧ 0 = (s.buttons id).nr_sw_channels) := by
    omega
  have h1 : ¬ (HIGH ≠ (s.buttons id).prev_state) := by simp [hprev]
  have h2 : ¬ (STEP_TIME > subULong now (s.buttons id).last_change) := by omega
  have hb := handleInput_button s id HIGH now
  rw [if_neg h0, if_neg h1, if_neg h2, if_pos hlast, if_pos rfl] at hb
  have hl := handleInput_press_l s id now c hown hprev hgate hlast hnd hc
  rw [hfade] at hl
  constructor
  · intro hp
    have hd : decide (PULSE_TIME > subULong now (s.buttons id).stop_time) = true :=
      decide_eq_true hp
    rw [hd] at hl
    refine ⟨?_, ?_, ?_⟩
    · rw [hb]
      simp [hfade, hd]
    · rw [hl, (applyTarget_frame _ _ _).2.2]
      simp [pressLight]
    · intro hr
      rw [hl, applyTarget_target]
      simp only [pressLight, Bool.and_self, if_true]
      exact constrain_id _ hr.1 hr.2
  · intro hp
    have hd : decide (PULSE_TIME > subULong now (s.buttons id).stop_time) = false :=
      decide_eq_false hp
    rw [hd] at hl
    refine ⟨?_, ?_, ?_, ?_⟩
    · rw [hb]
      simp [hfade, hd]
    · rw [hl, (applyTarget_frame _ _ _).2.2]
      by_cases hv : (s.l_channels c).light_value = 0
          ∨ (s.l_channels c).light_value = MAX_LIGHT_VALUE
      · simp [pressLight, hv]
      · simp [pressLight, hv]
    · intro hv
      rw [hl, applyTarget_target]
      simp [pressLight, hv]
    · intro hv
      rw [hl, applyTarget_target]
      simp [pressLight, hv, constrain]

/-- C22. Button 0 after the passes `opsFadeDown` has `fading` set and is released since
time 301, its light channel 5 has the direction `DIR_DOWN`.  The `HIGH` sample at time
1001 is an accepted rising edge that is not a pulse (`1001 - 301 >= PULSE_TIME`): in the
call of `handleInput`, and in the whole pass of `loopDimmer`, `fading` is cleared and the
direction of channel 5 stays `DIR_DOWN`. -/
theorem handleInput_press_not_pulse_keeps_dir :
    (stateFadingDown.buttons 0).fading = true
    ∧ (stateFadingDown.buttons 0).l_channels = [5]
    ∧ (stateFadingDown.buttons 0).prev_state = HIGH
    ∧ (stateFadingDown.buttons 0).last_state = LOW
    ∧ STEP_TIME ≤ subULong 1001 (stateFadingDown.buttons 0).last_change
    ∧ subULong 1001 (stateFadingDown.buttons 0).stop_time = 700
    ∧ (stateFadingDown.l_channels 5).dir = DIR_DOWN
    ∧ ((handleInput stateFadingDown 0 HIGH 1001).buttons 0).last_state = HIGH
    ∧ ((handleInput stateFadingDown 0 HIGH 1001).buttons 0).fading = false
    ∧ ((handleInput stateFadingDown 0 HIGH 1001).l_channels 5).dir = DIR_DOWN
    ∧ ((loopDimmer stateFadingDown button0High 1001 (fun _ => 0)).buttons 0).fading = false
    ∧ ((loopDimmer stateFadingDown button0High 1001 (fun _ => 0)).l_channels 5).dir
        = DIR_DOWN := by
  decide!


/-! ## Passes and runs where the source is defined -/

/-- The inner loop of the compaction leaves `j` at `j + n`, as `storesFor` takes it. -/
theorem compactWhile_index (queue : List Nat) (i : Nat) :
    ∀ (n j : Nat) (tmp : Int → Nat), (compactWhile queue i n j tmp).1 = j + n := by
  intro n
  induction n with
  | zero => exact fun j tmp => rfl
  | succ n ih =>
    intro j tmp
    simp only [compactWhile]
    rw [ih]
    omega

/-- The inner loop of the compaction writes `tmp` at the offsets of `storesWhile` only. -/
theorem compactWhile_stores (queue : List Nat) (i : Nat) (o : Int) :
    ∀ (n j : Nat) (tmp : Int → Nat), o ∉ storesWhile i n j →
      (compactWhile queue i n j tmp).2 o = tmp o := by
  intro n
  induction n with
  | zero => exact fun j tmp _ => rfl
  | succ n ih =>
    intro j tmp ho
    simp only [storesWhile, List.mem_cons, not_or] at ho
    simp only [compactWhile]
    rw [ih _ _ ho.2]
    simp [updI, ho.1]

/-- The compaction writes `tmp` at the offsets of `storesFor` only. -/
theorem compactFor_stores (queue : List Nat) (o : Int) :
    ∀ (remove : List Nat) (i j : Nat) (tmp : Int → Nat), o ∉ storesFor remove i j →
      (compactFor queue remove i j tmp).2 o = tmp o := by
  intro remove
  induction remove with
  | nil => exact fun i j tmp _ => rfl
  | cons r rest ih =>
    intro i j tmp ho
    simp only [storesFor, List.mem_append, not_or] at ho
    simp only [compactFor]
    rw [compactWhile_index, ih _ _ _ ho.2, compactWhile_stores _ _ _ _ _ _ ho.1]

theorem loopDimmerChecked_eq (s : State) (digitalRead : Int → Int) (now : Nat)
    (tmp : Int → Nat) (s1 : State) (h : loopDimmerChecked s digitalRead now tmp = some s1) :
    s1 = loopDimmer s digitalRead now tmp := by
  unfold loopDimmerChecked at h
  simp only [] at h
  split at h
  · exact (Option.some.inj h).symm
  · exact absurd h (by simp)

theorem stepChecked_eq (s : State) (op : Op) (s1 : State) (h : stepChecked s op = some s1) :
    s1 = step s op := by
  cases op with
  | tick digitalRead now tmp => exact loopDimmerChecked_eq s digitalRead now tmp s1 h
  | setLight channel value speedFactor =>
    simp only [stepChecked] at h
    split at h
    · exact (Option.some.inj h).symm
    · exact absurd h (by simp)
  | setIdle channel =>
    simp only [stepChecked] at h
    split at h
    · exact (Option.some.inj h).symm
    · exact absurd h (by simp)
  | setSwitch channel state start_delay duration now =>
    simp only [stepChecked] at h
    split at h
    · exact (Option.some.inj h).symm
    · exact absurd h (by simp)

theorem runChecked_none (ops : List Op) :
    ops.foldl (fun o op => o.bind (fun st => stepChecked st op)) none = none := by
  induction ops with
  | nil => rfl
  | cons op ops ih => simpa [List.foldl_cons] using ih

theorem runChecked_cons (s : State) (op : Op) (ops : List Op) :
    runChecked s (op :: ops) = (stepChecked s op).bind (fun s1 => runChecked s1 ops) := by
  unfold runChecked
  rw [List.foldl_cons]
  cases h : stepChecked s op with
  | none => simpa [h] using runChecked_none ops
  | some s1 => simp [h]

/-- A checked run that has a result has the result of the run. -/
theorem runChecked_eq (ops : List Op) :
    ∀ (s s1 : State), runChecked s ops = some s1 → s1 = run s ops := by
  induction ops with
  | nil =>
    intro s s1 h
    exact (Option.some.inj h).symm
  | cons op ops ih =>
    intro s s1 h
    rw [runChecked_cons] at h
    cases hs : stepChecked s op with
    | none => simp [hs] at h
    | some s2 =>
      rw [hs] at h
      have e := stepChecked_eq s op s2 hs
      have h2 := ih s2 s1 h
      rw [h2, e]
      rfl

/-- Along a run in which every access of the source is inside its objects, the values of
every light channel stay in 0..255. -/
theorem runChecked_inRange (now0 : Nat) (ops : List Op) (s1 : State)
    (h : runChecked (setupDimmer now0) ops = some s1)
    (hops : ∀ op ∈ ops, op.inRange) : LightsInRange s1 := by
  rw [runChecked_eq ops _ _ h]
  exact run_inRange ops (setupDimmer now0) hops (setupDimmer_inRange now0)

/-- A pass in which every access of the source is inside its objects, from a state whose
light targets lie in 0..255: afterwards every switch channel has `state == target_state`
and every light channel has `light_value == target_light_value`, and a switch channel
that is queued when the drain runs has, after the pass, the target the drain gives it as
state. -/
theorem loopDimmerChecked_converges (s : State) (digitalRead : Int → Int) (now : Nat)
    (tmp : Int → Nat) (s1 : State)
    (h : loopDimmerChecked s digitalRead now tmp = some s1)
    (hr : ∀ k, k < NR_LIGHT_CHANNELS →
      0 ≤ (s.l_channels k).target_light_value
        ∧ (s.l_channels k).target_light_value ≤ MAX_LIGHT_VALUE) :
    (∀ k, k < NR_SWITCH_CHANNELS → (s1.sw_channels k).state = (s1.sw_channels k).target_state)
    ∧ (∀ k, k < NR_LIGHT_CHANNELS →
      (s1.l_channels k).light_value = (s1.l_channels k).target_light_value)
    ∧ (∀ k, k < NR_SWITCH_CHANNELS →
      k ∈ (gesturePass s digitalRead now).queued_sw_channels →
      (s1.sw_channels k).state
        = (scanSwitch now (alwaysOnChannel
            (anyLightOn (gesturePass s digitalRead now).l_channels)
            ((gesturePass s digitalRead now).sw_channels k))).1.target_state) := by
  rw [loopDimmerChecked_eq s digitalRead now tmp s1 h]
  refine ⟨?_, ?_, ?_⟩
  · intro k hk
    rw [loopDimmer_sw s digitalRead now tmp k hk]
    exact appliedSwitch_converged _ _
  · intro k hk
    rw [loopDimmer_l s digitalRead now tmp k hk]
    exact appliedLight_converged _ _ (gesturePass_target_range s digitalRead now k (hr k hk))
  · intro k hk hq
    rw [loopDimmer_sw s digitalRead now tmp k hk, if_pos hq, appliedSwitch_converged,
      (appliedSwitch_target _ _).1]

/-- The example runs and the pass that switches the expired channel 0 off are defined;
after that pass the state and the target of channel 0 are 0. -/
theorem runChecked_examples :
    (runChecked (setupDimmer 0) opsExample).isSome = true
    ∧ (runChecked (setupDimmer 0) opsFadeDown).isSome = true
    ∧ (loopDimmerChecked stateDelayedStop10On allLow 10002 (fun _ => 0)).isSome = true
    ∧ (stateDelayedStop10On.sw_channels 0).state = 1
    ∧ ((loopDimmer stateDelayedStop10On allLow 10002 (fun _ => 0)).sw_channels 0).state = 0
    ∧ ((loopDimmer stateDelayedStop10On allLow 10002 (fun _ => 0)).sw_channels 0).target_state
        = 0 := by
  refine ⟨by decide!, by decide!, by decide!, by decide!, by decide!, by decide!⟩

/-- C17. Two runs from the state after `setupDimmer` (at time 0) that the property
covers, with no call of `setLightTargetValue` at all, in which the source leaves its
objects, so that it keeps no invariant from there on.  After the requests
`setSwitchState( 0, 1, 0, 10 )` and `setSwitchState( 1, 1, 0, 20 )` and the pass at time
10001 every access was inside, and the queue is the one cell `tmp[0]` of the uninitialised
array of the drain, here 77; the drain of the next pass, at time 10002, dereferences this
entry, which is no switch channel.  After the requests `setSwitchState( 0, 1, 0, 10 )`
and `setSwitchState( 1, 1, 0, 10 )` both channels expire in the pass at time 10001, and
the compaction stores to `tmp[-1]`. -/
theorem runChecked_undefined_by_drain :
    (runChecked (setupDimmer 0) (opsGarbage 77)).isSome = true
    ∧ (run (setupDimmer 0) (opsGarbage 77)).queued_sw_channels = [77]
    ∧ ¬ (77 < NR_SWITCH_CHANNELS)
    ∧ (runChecked (setupDimmer 0)
        (opsGarbage 77 ++ [Op.tick allLow 10002 (fun _ => 77)])).isSome = false
    ∧ (runChecked (setupDimmer 0) (opsBothExpire.take 2)).isSome = true
    ∧ (run (setupDimmer 0) (opsBothExpire.take 2)).queued_sw_channels = [0, 1]
    ∧ storesFor (scanQueue 10001 [0, 1] 0
        (run (setupDimmer 0) (opsBothExpire.take 2)).sw_channels []).2 0 0 = [-1]
    ∧ (runChecked (setupDimmer 0) opsBothExpire).isSome = false := by
  refine ⟨by decide!, by decide!, by decide!, by decide!, by decide!, by decide!, by decide!,
    by decide!⟩

/-- C21. The state `stateGarbageQueue`, reached from start-up by two requests and a pass,
has every light target in 0..255 and well-formed buttons, and its queue is the one entry
77, the content of the uninitialised cell `tmp[0]`, which is no switch channel.  In the
pass at time 10002 with every button sample `LOW` the queue is still `[77]` when the drain
runs, the drain dereferences the entry, and the pass has no defined result. -/
theorem loopDimmerChecked_undefined_on_garbage_queue :
    (∀ k, k < NR_LIGHT_CHANNELS →
      0 ≤ (stateGarbageQueue.l_channels k).target_light_value
        ∧ (stateGarbageQueue.l_channels k).target_light_value ≤ MAX_LIGHT_VALUE)
    ∧ buttonsDefined stateGarbageQueue = true
    ∧ stateGarbageQueue.queued_sw_channels = [77]
    ∧ ¬ (77 < NR_SWITCH_CHANNELS)
    ∧ (gesturePass stateGarbageQueue allLow 10002).queued_sw_channels = [77]
    ∧ drainDefined
        (alwaysOnPass (anyLightOn (gesturePass stateGarbageQueue allLow 10002).l_channels)
          (gesturePass stateGarbageQueue allLow 10002)) 10002 = false
    ∧ (loopDimmerChecked stateGarbageQueue allLow 10002 (fun _ => 77)).isSome = false := by
  refine ⟨by decide!, by decide!, by decide!, by decide!, by decide!, by decide!, by decide!⟩

end Doduino
